import Mathlib

/-!
# Amazon Q / OLLAMA bridge: the request-to-process translation layer

A shallow embedding of `handlers.go`: the buffered invocation path
(`executeQCommand`), the streamed invocation paths (`handleStreamingGenerate`,
`handleChatStream`), the turn extraction of the chat handlers and the response
envelopes they write.

Conventions of the embedding.

* Go strings are modelled by Lean strings (sequences of Unicode code points); byte
  lengths are UTF-8 lengths.
* The operating environment (clock, temporary directory, file system, the external
  `q` process) is an explicit `Env` of oracles plus a `World` state that is threaded
  through every operation.
* A handler receives the outcome of `c.ShouldBindJSON(&req)` (the bound request or the
  binding error) and the response side of the `gin.Context`; it returns the context and
  the world it leaves.
* The Go standard-library functions the handlers call (`strings.TrimSpace`,
  `strings.Fields`, `base64.StdEncoding.DecodeString`, `filepath.Join`,
  `fmt.Sprintf("%d")`, `bufio.Scanner` with the default line splitter) are modelled
  as executable functions following their documented behaviour on Unix.
-/

namespace QOllama

/-! ## Go standard library: text -/

/-- Go `unicode.IsSpace`: the Unicode White_Space property. -/
def isSpace (c : Char) : Bool :=
  let n := c.toNat
  (9 ≤ n && n ≤ 13) || n == 32 || n == 0x85 || n == 0xA0 || n == 0x1680 ||
    (0x2000 ≤ n && n ≤ 0x200A) || n == 0x2028 || n == 0x2029 || n == 0x202F ||
    n == 0x205F || n == 0x3000

/-- Character-level body of `strings.TrimSpace`: `TrimRightFunc (TrimLeftFunc s)`. -/
def trimChars (cs : List Char) : List Char :=
  ((cs.dropWhile isSpace).reverse.dropWhile isSpace).reverse

/-- Go `strings.TrimSpace`. -/
def TrimSpace (s : String) : String := ⟨trimChars s.data⟩

/-- True when the text is exhausted or continues with white space: a word ends here. -/
def wordEnds : List Char → Bool
  | [] => true
  | d :: _ => isSpace d

/-- Character-level body of `strings.Fields`: the maximal runs of non-space characters. -/
def fieldsChars : List Char → List (List Char)
  | [] => []
  | c :: cs =>
    if isSpace c then fieldsChars cs
    else if wordEnds cs then [c] :: fieldsChars cs
    else
      match fieldsChars cs with
      | [] => [[c]]
      | w :: ws => (c :: w) :: ws

/-- Go `strings.Fields`. -/
def Fields (s : String) : List String := (fieldsChars s.data).map String.mk

/-- Decimal digit as a character. -/
def digitChar (d : Nat) : Char := ['0', '1', '2', '3', '4', '5', '6', '7', '8', '9'].getD d '0'

/-- Decimal digits of a natural number, most significant first (fuel bounds the length). -/
def natDigits : Nat → Nat → List Char
  | 0, _ => []
  | fuel + 1, n => if n < 10 then [digitChar n] else natDigits fuel (n / 10) ++ [digitChar (n % 10)]

/-- The verb `%d` of `fmt.Sprintf` on a natural number. -/
def formatNat (n : Nat) : List Char := natDigits (n + 1) n

/-- The verb `%d` of `fmt.Sprintf` on an integer. -/
def formatInt : Int → List Char
  | Int.ofNat n => formatNat n
  | Int.negSucc n => '-' :: formatNat (n + 1)

/-! ## Go standard library: base64 -/

/-- Value of a character in the standard base64 alphabet. -/
def b64Value (c : Char) : Option Nat :=
  let n := c.toNat
  if 65 ≤ n ∧ n ≤ 90 then some (n - 65)
  else if 97 ≤ n ∧ n ≤ 122 then some (n - 97 + 26)
  else if 48 ≤ n ∧ n ≤ 57 then some (n - 48 + 52)
  else if n = 43 then some 62
  else if n = 47 then some 63
  else none

/-- Decoding of the 4-character quanta of padded standard base64 (non-strict: the unused
trailing bits of a padded quantum are not checked). -/
def decodeQuanta : List Char → Option (List Nat)
  | [] => some []
  | a :: b :: c :: d :: rest =>
    match b64Value a, b64Value b with
    | some va, some vb =>
      if rest = [] ∧ c = '=' ∧ d = '=' then some [va * 4 + vb / 16]
      else
        match b64Value c with
        | none => none
        | some vc =>
          if rest = [] ∧ d = '=' then some [va * 4 + vb / 16, (vb % 16) * 16 + vc / 4]
          else
            match b64Value d with
            | none => none
            | some vd =>
              (decodeQuanta rest).map
                (fun bs => [va * 4 + vb / 16, (vb % 16) * 16 + vc / 4, (vc % 4) * 64 + vd] ++ bs)
    | _, _ => none
  | _ => none

/-- Go `base64.StdEncoding.DecodeString`: carriage returns and line feeds are ignored,
every other character outside the alphabet (or misplaced padding) is an error. -/
def DecodeString (s : String) : Option (List Nat) :=
  decodeQuanta (s.data.filter (fun c => c != '\r' && c != '\n'))

/-! ## Go standard library: paths -/

/-- Split a path at every separator `/`. -/
def splitSep : List Char → List (List Char)
  | [] => [[]]
  | c :: cs =>
    if c = '/' then [] :: splitSep cs
    else
      match splitSep cs with
      | [] => [[c]]
      | s :: ss => (c :: s) :: ss

/-- One step of `filepath.Clean` over the path elements; the stack holds the kept elements,
most recent first. -/
def cleanStep (rooted : Bool) (st : List (List Char)) (comp : List Char) : List (List Char) :=
  if comp = [] ∨ comp = ['.'] then st
  else if comp = ['.', '.'] then
    match st with
    | top :: below => if top = ['.', '.'] then comp :: st else below
    | [] => if rooted then [] else [comp]
  else comp :: st

/-- Go `filepath.Clean` on Unix. -/
def Clean (p : List Char) : List Char :=
  let rooted : Bool := p.head? = some '/'
  let body := List.intercalate ['/'] (((splitSep p).foldl (cleanStep rooted) []).reverse)
  if rooted then '/' :: body else if body = [] then ['.'] else body

/-- Go `filepath.Join` of a directory and a file name on Unix. -/
def Join (dir name : String) : String :=
  if dir ≠ "" then ⟨Clean (dir.data ++ '/' :: name.data)⟩
  else if name ≠ "" then ⟨Clean name.data⟩
  else ""

/-! ## Go standard library: line scanner -/

/-- Go `bufio.MaxScanTokenSize`, the default buffer limit of a `bufio.Scanner`. -/
def maxScanTokenSize : Nat := 64 * 1024

/-- Length in bytes of the UTF-8 encoding. -/
def byteLen (cs : List Char) : Nat := (cs.map Char.utf8Size).sum

/-- Go `dropCR` of `bufio.ScanLines`: one trailing carriage return is removed. -/
def dropCR (cs : List Char) : List Char :=
  if cs.getLast? = some '\r' then cs.dropLast else cs

/-- One call of `scanner.Scan()` with the default splitter `bufio.ScanLines` on the unread
part of the stream: `none` when Scan returns false (end of input, or a line that does not
fit the buffer: `bufio.ErrTooLong`), otherwise the token and the part left unread. -/
def Scan (pending : List Char) : Option (List Char × List Char) :=
  if pending = [] then none
  else
    let line := pending.takeWhile (fun c => c != '\n')
    if maxScanTokenSize ≤ byteLen line then none
    else some (dropCR line, (pending.dropWhile (fun c => c != '\n')).drop 1)

/-- The lines of a text under the line convention of `bufio.ScanLines`, before the carriage
return is dropped: the pieces ended by a line feed, and the unterminated rest if it is not
empty. -/
def rawLines : List Char → List (List Char)
  | [] => []
  | c :: cs =>
    if c = '\n' then [] :: rawLines cs
    else
      match rawLines cs with
      | [] => [[c]]
      | l :: ls => (c :: l) :: ls

/-- The lines of a text: each line without its terminator (an optional carriage return and
the line feed). -/
def textLines (s : String) : List String := (rawLines s.data).map (fun l => String.mk (dropCR l))

/-! ## Operating environment -/

/-- One reading of `time.Now()`: the wall clock in Unix seconds (`t.Unix()`) and the
monotonic clock in nanoseconds (what `time.Since` subtracts). -/
structure Instant where
  unix : Int
  mono : Int
deriving DecidableEq, Repr

/-- The file system: the existing paths with their contents. -/
abbrev FS := List (String × List Nat)

/-- Whether a path exists. -/
def fileExists (fs : FS) (path : String) : Bool := fs.any (fun e => e.1 == path)

/-- Effect of a successful `os.WriteFile`: the file is created or replaced. -/
def writeFile (fs : FS) (path : String) (data : List Nat) : FS :=
  (path, data) :: fs.filter (fun e => e.1 != path)

/-- Effect of a successful `os.Remove` on a file. -/
def removeFile (fs : FS) (path : String) : FS := fs.filter (fun e => e.1 != path)

/-- What `cmd.CombinedOutput()` returns: the captured standard output and standard error,
and the error (`%v` rendering) when the process could not be started or exited with a
non-zero status. -/
structure CmdResult where
  output : String
  err : Option String
deriving DecidableEq, Repr

/-- Behaviour of a process run through `StdoutPipe`, `Start`, the scanner and `Wait`. -/
structure StreamProc where
  pipeErr : Option String
  startErr : Option String
  stdout : String
  waitErr : Option String
deriving DecidableEq, Repr

/-- The oracles of the operating environment. -/
structure Env where
  /-- The environment variable `TMPDIR`. -/
  TMPDIR : String
  /-- The reading of the k-th call of `time.Now()`. -/
  clock : Nat → Instant
  /-- Whether `os.WriteFile` succeeds at a path. -/
  writable : String → Bool
  /-- What a failed `os.WriteFile` of the given data leaves at a path: nothing (`none`) when
  the file could not be opened, else the file, created or truncated by the call, with the
  bytes that were written before the failure. -/
  partialWrite : String → List Nat → Option (List Nat)
  /-- Whether `os.Remove` succeeds at a path. -/
  removable : String → Bool
  /-- The k-th process run to completion: its result and what it leaves of the file system. -/
  runCombined : Nat → String × List String → FS → CmdResult × FS
  /-- The k-th process when it is run with a pipe on its standard output. -/
  runStream : Nat → String × List String → StreamProc
  /-- The number of bytes the pipe of `cmd.StdoutPipe()` holds before a write to it blocks. -/
  pipeCapacity : Nat

/-- The mutable state of the environment. -/
structure World where
  fs : FS
  /-- Number of calls of `time.Now()` so far. -/
  ticks : Nat
  /-- The commands handed to `exec` so far (name and argument vector), oldest first. -/
  execs : List (String × List String)

/-- Go `time.Now()`. -/
def now (env : Env) (w : World) : Instant × World :=
  (env.clock w.ticks, { w with ticks := w.ticks + 1 })

/-- Go `os.TempDir()` on Unix. -/
def TempDir (env : Env) : String := if env.TMPDIR = "" then "/tmp" else env.TMPDIR

/-! ## Request and response structures -/

structure FunctionCall where
  Name : String
  Arguments : String
deriving DecidableEq, Repr

structure ToolCall where
  Function : FunctionCall
deriving DecidableEq, Repr

structure Message where
  Role : String
  Content : String
  Images : List String := []
  ToolCall : Option ToolCall := none
deriving DecidableEq, Repr

structure Function where
  Name : String
  Description : String
  Parameters : List (String × String)
deriving DecidableEq, Repr

structure Tool where
  Type_ : String
  Function : Function
deriving DecidableEq, Repr

structure GenerateRequest where
  Model : String := ""
  Prompt : String := ""
  Images : List String := []
  Format : String := ""
  Options : List (String × String) := []
  System : String := ""
  Template : String := ""
  Context : List Int := []
  Stream : Bool := false
  Raw : Bool := false
deriving DecidableEq, Repr

structure ChatRequest where
  Model : String := ""
  Messages : List Message := []
  Format : String := ""
  Options : List (String × String) := []
  Stream : Bool := false
  Tools : List Tool := []
deriving DecidableEq, Repr

structure GenerateResponse where
  Model : String
  Response : String
  Done : Bool
  Context : List Int := []
  TotalDuration : Int := 0
  LoadDuration : Int := 0
  PromptEvalCount : Int := 0
  PromptEvalDuration : Int := 0
  EvalCount : Int := 0
  EvalDuration : Int := 0
  CreatedAt : Instant
deriving DecidableEq, Repr

structure ChatResponse where
  Model : String
  Message : Message
  Done : Bool
  TotalDuration : Int := 0
  LoadDuration : Int := 0
  PromptEvalCount : Int := 0
  PromptEvalDuration : Int := 0
  EvalCount : Int := 0
  EvalDuration : Int := 0
  CreatedAt : Instant
deriving DecidableEq, Repr

/-- What a handler writes to the response body. -/
inductive Written where
  /-- The error envelope `gin.H{"error": msg}`. -/
  | error (msg : String)
  /-- A marshalled `GenerateResponse`. -/
  | generate (r : GenerateResponse)
  /-- A marshalled `ChatResponse`. -/
  | chat (r : ChatResponse)
  /-- The frame separator, one line feed. -/
  | newline
deriving DecidableEq, Repr

/-- The response side of a `gin.Context`. -/
structure Ctx where
  status : Nat := 200
  written : Bool := false
  headers : List (String × String) := []
  body : List Written := []
deriving DecidableEq, Repr

/-- Go `c.Header(key, value)`. -/
def Ctx.Header (c : Ctx) (key value : String) : Ctx :=
  { c with headers := c.headers.filter (fun h => h.1 != key) ++ [(key, value)] }

/-- Go `c.JSON(code, obj)`: the status is set unless the header was already sent, the
content type is set unless one is present, and the object is written. -/
def Ctx.JSON (c : Ctx) (code : Nat) (obj : Written) : Ctx :=
  { status := if c.written then c.status else code
    written := true
    headers :=
      if c.headers.any (fun h => h.1 == "Content-Type") then c.headers
      else c.headers ++ [("Content-Type", "application/json; charset=utf-8")]
    body := c.body ++ [obj] }

/-- Go `c.Writer.Write(data)`: the first write sends the header with the current status. -/
def Ctx.Write (c : Ctx) (data : Written) : Ctx :=
  { c with written := true, body := c.body ++ [data] }

/-- Go `http.StatusOK`. -/
def StatusOK : Nat := 200
/-- Go `http.StatusBadRequest`. -/
def StatusBadRequest : Nat := 400
/-- Go `http.StatusInternalServerError`. -/
def StatusInternalServerError : Nat := 500

/-! ## Buffered invocation: `executeQCommand` -/

/-- The local variables of `executeQCommand` during the staging loop. -/
structure Staging where
  args : List String
  tempFiles : List String
  world : World

/-- The file name `fmt.Sprintf("q_image_%d_%d.png", time.Now().Unix(), i)`. -/
def imageName (unix : Int) (i : Nat) : String :=
  ⟨"q_image_".data ++ formatInt unix ++ "_".data ++ formatInt (Int.ofNat i) ++ ".png".data⟩

/-- One iteration of `for i, imageData := range images`. -/
def stageImage (env : Env) (st : Staging) (i : Nat) (imageData : String) : Staging :=
  match DecodeString imageData with
  | none => st
  | some data =>
    let (t, w) := now env st.world
    let tempFile := Join (TempDir env) (imageName t.unix i)
    if env.writable tempFile then
      { args := st.args ++ ["--file", tempFile]
        tempFiles := st.tempFiles ++ [tempFile]
        world := { w with fs := writeFile w.fs tempFile data } }
    else
      match env.partialWrite tempFile data with
      | none => { st with world := w }
      | some written => { st with world := { w with fs := writeFile w.fs tempFile written } }

/-- The loop `for i, imageData := range images`, from index `i` on. -/
def stageLoop (env : Env) : Nat → List String → Staging → Staging
  | _, [], st => st
  | i, imageData :: rest, st => stageLoop env (i + 1) rest (stageImage env st i imageData)

/-- The state of `executeQCommand` when the staging loop is over, just before the process
is run. -/
def stageAttachments (env : Env) (w : World) (prompt : String) (images : List String) : Staging :=
  stageLoop env 0 images { args := ["chat", "--message", prompt], tempFiles := [], world := w }

/-- Go `os.Remove(path)` with its error discarded: the file is gone when the removal
succeeds and stays when it fails. -/
def Remove (env : Env) (fs : FS) (path : String) : FS :=
  if env.removable path then removeFile fs path else fs

/-- The deferred clean-up: `os.Remove` on each temporary file. -/
def cleanup (env : Env) (tempFiles : List String) (w : World) : World :=
  { w with fs := tempFiles.foldl (Remove env) w.fs }

/-- Go `executeQCommand(prompt, images)`: the returned string and error, and the world it
leaves. -/
def executeQCommand (env : Env) (w : World) (prompt : String) (images : List String) :
    (String × Option String) × World :=
  let st := stageAttachments env w prompt images
  let cmd : String × List String := ("q", st.args)
  let r := env.runCombined st.world.execs.length cmd st.world.fs
  let w1 : World := { st.world with fs := r.2, execs := st.world.execs ++ [cmd] }
  match r.1.err with
  | some e => (("", some ("q command failed: " ++ e ++ ", output: " ++ r.1.output)),
      cleanup env st.tempFiles w1)
  | none => ((TrimSpace r.1.output, none), cleanup env st.tempFiles w1)

/-! ## Handlers -/

/-- The scanner loop of the streamed handlers: one frame and one line feed per non-empty
token, `frame` building the envelope from the line and the reading of `time.Now()`. The
fuel bounds the number of calls of `scanner.Scan()`. -/
def streamLoop (env : Env) (frame : String → Instant → Written) :
    Nat → List Char → Ctx × World → Ctx × World
  | 0, _, st => st
  | fuel + 1, pending, (c, w) =>
    match Scan pending with
    | none => (c, w)
    | some (line, rest) =>
      if line ≠ [] then
        let (t, w1) := now env w
        streamLoop env frame fuel rest
          ((c.Write (frame (String.mk line) t)).Write Written.newline, w1)
      else streamLoop env frame fuel rest (c, w)

/-- Go `handleStreamingGenerate(c, req)`: what it has written and the world it leaves when it
reaches `cmd.Wait()`, its last statement, whose result it discards. Whether that call, and
with it the handler, returns is `handleStreamingGenerate_returns`. -/
def handleStreamingGenerate (env : Env) (w : World) (c : Ctx) (req : GenerateRequest) :
    Ctx × World :=
  let c1 := (c.Header "Content-Type" "application/x-ndjson").Header "Transfer-Encoding" "chunked"
  let cmd : String × List String := ("q", ["chat", "--message", req.Prompt])
  let p := env.runStream w.execs.length cmd
  match p.pipeErr with
  | some e => (c1.JSON StatusInternalServerError (Written.error e), w)
  | none =>
    let w1 : World := { w with execs := w.execs ++ [cmd] }
    match p.startErr with
    | some e => (c1.JSON StatusInternalServerError (Written.error e), w1)
    | none =>
      let (c2, w2) := streamLoop env
        (fun line t => Written.generate
          { Model := "amazon-q", Response := line, Done := false, CreatedAt := t })
        (p.stdout.data.length + 1) p.stdout.data (c1, w1)
      let (t, w3) := now env w2
      (((c2.Write (Written.generate
        { Model := "amazon-q", Response := "", Done := true, CreatedAt := t })).Write
          Written.newline), w3)

/-- Go `handleGenerate(c)`; `bound` is the outcome of `c.ShouldBindJSON(&req)`. -/
def handleGenerate (env : Env) (w : World) (c : Ctx) (bound : Except String GenerateRequest) :
    Ctx × World :=
  match bound with
  | Except.error e => (c.JSON StatusBadRequest (Written.error e), w)
  | Except.ok req =>
    if req.Stream then handleStreamingGenerate env w c req
    else
      let (startTime, w1) := now env w
      let (r, w2) := executeQCommand env w1 req.Prompt req.Images
      match r.2 with
      | some e => (c.JSON StatusInternalServerError (Written.error e), w2)
      | none =>
        let (t, w3) := now env w2
        let duration := t.mono - startTime.mono
        let (createdAt, w4) := now env w3
        (c.JSON StatusOK (Written.generate
          { Model := "amazon-q"
            Response := r.1
            Done := true
            TotalDuration := duration
            EvalCount := Int.ofNat (Fields r.1).length
            EvalDuration := duration
            CreatedAt := createdAt }), w4)

/-- The loop `for i := len(req.Messages) - 1; i >= 0; i--` of the chat handlers, with
`n = i + 1` indices left to visit: content and images of the first message met with role
"user", the zero values when the loop ends without one. -/
def extractLoop (messages : List Message) : Nat → String × List String
  | 0 => ("", [])
  | i + 1 =>
    match messages.get? i with
    | some m => if m.Role = "user" then (m.Content, m.Images) else extractLoop messages i
    | none => extractLoop messages i

/-- The extraction of `userMessage` and `images` in the chat handlers. -/
def extractUserTurn (messages : List Message) : String × List String :=
  extractLoop messages messages.length

/-- Go `handleChat(c)`, the chat handler without streaming (not routed). -/
def handleChat (env : Env) (w : World) (c : Ctx) (bound : Except String ChatRequest) :
    Ctx × World :=
  match bound with
  | Except.error e => (c.JSON StatusBadRequest (Written.error e), w)
  | Except.ok req =>
    let (userMessage, images) := extractUserTurn req.Messages
    if userMessage = "" then (c.JSON StatusBadRequest (Written.error "No user message found"), w)
    else
      let (startTime, w1) := now env w
      let (r, w2) := executeQCommand env w1 userMessage images
      match r.2 with
      | some e => (c.JSON StatusInternalServerError (Written.error e), w2)
      | none =>
        let (t, w3) := now env w2
        let duration := t.mono - startTime.mono
        let (createdAt, w4) := now env w3
        (c.JSON StatusOK (Written.chat
          { Model := "amazon-q"
            Message := { Role := "assistant", Content := r.1 }
            Done := true
            TotalDuration := duration
            EvalCount := Int.ofNat (Fields r.1).length
            EvalDuration := duration
            CreatedAt := createdAt }), w4)

/-- Go `handleChatStream(c, req)`: what it has written and the world it leaves when it returns
after an error envelope or reaches `cmd.Wait()`, its last statement, whose result it
discards. Whether the handler returns is `handleChatStream_returns`. -/
def handleChatStream (env : Env) (w : World) (c : Ctx) (req : ChatRequest) : Ctx × World :=
  let c1 := (c.Header "Content-Type" "application/x-ndjson").Header "Transfer-Encoding" "chunked"
  let userMessage := (extractUserTurn req.Messages).1
  if userMessage = "" then (c1.JSON StatusBadRequest (Written.error "No user message found"), w)
  else
    let cmd : String × List String := ("q", ["chat", "--message", userMessage])
    let p := env.runStream w.execs.length cmd
    match p.pipeErr with
    | some e => (c1.JSON StatusInternalServerError (Written.error e), w)
    | none =>
      let w1 : World := { w with execs := w.execs ++ [cmd] }
      match p.startErr with
      | some e => (c1.JSON StatusInternalServerError (Written.error e), w1)
      | none =>
        let (c2, w2) := streamLoop env
          (fun line t => Written.chat
            { Model := "amazon-q"
              Message := { Role := "assistant", Content := line }
              Done := false
              CreatedAt := t })
          (p.stdout.data.length + 1) p.stdout.data (c1, w1)
        let (t, w3) := now env w2
        (((c2.Write (Written.chat
          { Model := "amazon-q"
            Message := { Role := "assistant", Content := "" }
            Done := true
            CreatedAt := t })).Write Written.newline), w3)

/-- Go `handleChatWithStreaming(c)`, the handler routed at `POST /api/chat`. -/
def handleChatWithStreaming (env : Env) (w : World) (c : Ctx)
    (bound : Except String ChatRequest) : Ctx × World :=
  match bound with
  | Except.error e => (c.JSON StatusBadRequest (Written.error e), w)
  | Except.ok req =>
    if req.Stream then handleChatStream env w c req
    else
      let (userMessage, images) := extractUserTurn req.Messages
      if userMessage = "" then
        (c.JSON StatusBadRequest (Written.error "No user message found"), w)
      else
        let (startTime, w1) := now env w
        let (r, w2) := executeQCommand env w1 userMessage images
        match r.2 with
        | some e => (c.JSON StatusInternalServerError (Written.error e), w2)
        | none =>
          let (t, w3) := now env w2
          let duration := t.mono - startTime.mono
          let (createdAt, w4) := now env w3
          (c.JSON StatusOK (Written.chat
            { Model := "amazon-q"
              Message := { Role := "assistant", Content := r.1 }
              Done := true
              TotalDuration := duration
              EvalCount := Int.ofNat (Fields r.1).length
              EvalDuration := duration
              CreatedAt := createdAt }), w4)

/-! ## Return of the handlers -/

/-- The bytes of the process output that are still unread when the scanner loop of a streamed
handler ends: none when the loop ends at the end of the output; when `Scan` stops at a line
that does not fit the buffer, everything but the `maxScanTokenSize` bytes that fill the
buffer. The fuel bounds the number of calls of `scanner.Scan()`. -/
def unreadBytes : Nat → List Char → Nat
  | 0, _ => 0
  | fuel + 1, pending =>
    match Scan pending with
    | none => byteLen pending - maxScanTokenSize
    | some (_, rest) => unreadBytes fuel rest

/-- Go `cmd.Wait()` as the last statement of a streamed handler: the error it returns, or
`none` when it never returns. The handler reads the pipe no more and keeps it open; the
process blocks in its write once the pipe holds `env.pipeCapacity` unread bytes, so it exits,
and `Wait` returns, only when what is unread fits the pipe. -/
def Wait (env : Env) (p : StreamProc) : Option (Option String) :=
  if unreadBytes (p.stdout.data.length + 1) p.stdout.data ≤ env.pipeCapacity then
    some p.waitErr
  else none

/-- Whether `handleStreamingGenerate(c, req)` returns: after an error envelope it does, after
the final frame it does when `cmd.Wait()` returns. -/
def handleStreamingGenerate_returns (env : Env) (w : World) (req : GenerateRequest) : Bool :=
  let p := env.runStream w.execs.length ("q", ["chat", "--message", req.Prompt])
  match p.pipeErr with
  | some _ => true
  | none =>
    match p.startErr with
    | some _ => true
    | none => (Wait env p).isSome

/-- Whether `handleGenerate(c)` returns. In buffered mode `cmd.CombinedOutput()` drains the
output itself, and the process is taken to exit. -/
def handleGenerate_returns (env : Env) (w : World) (bound : Except String GenerateRequest) :
    Bool :=
  match bound with
  | Except.error _ => true
  | Except.ok req => if req.Stream then handleStreamingGenerate_returns env w req else true

/-- Whether `handleChatStream(c, req)` returns. -/
def handleChatStream_returns (env : Env) (w : World) (req : ChatRequest) : Bool :=
  let userMessage := (extractUserTurn req.Messages).1
  if userMessage = "" then true
  else
    let p := env.runStream w.execs.length ("q", ["chat", "--message", userMessage])
    match p.pipeErr with
    | some _ => true
    | none =>
      match p.startErr with
      | some _ => true
      | none => (Wait env p).isSome

/-- Whether `handleChatWithStreaming(c)` returns. -/
def handleChatWithStreaming_returns (env : Env) (w : World)
    (bound : Except String ChatRequest) : Bool :=
  match bound with
  | Except.error _ => true
  | Except.ok req => if req.Stream then handleChatStream_returns env w req else true

/-! ## Middleware and the handler chain -/

/-- Go `c.AbortWithStatus(code)` on the response side: the status is set and the header is
sent at once. -/
def Ctx.AbortWithStatus (c : Ctx) (code : Nat) : Ctx :=
  { c with status := if c.written then c.status else code, written := true }

/-- The value of a response header. -/
def Ctx.GetHeader (c : Ctx) (key : String) : Option String :=
  (c.headers.find? (fun h => h.1 == key)).map Prod.snd

/-- One request being dispatched by gin: the request line, the response side, the world and
`c.index`, the position in the handler chain. -/
structure Dispatch where
  Method : String
  Path : String
  resp : Ctx
  world : World
  index : Int

/-- Go `abortIndex` of gin (`math.MaxInt8 >> 1`). -/
def abortIndex : Int := 63

/-- A `gin.HandlerFunc`; the first argument is what `c.Next()` does when the handler calls
it. -/
abbrev HandlerFunc := (Dispatch → Dispatch) → Dispatch → Dispatch

/-- The loop of `c.Next()`: `for c.index < len(c.handlers) { c.handlers[c.index](c);
c.index++ }`; `k` bounds the number of iterations. -/
def chainLoop (handlers : List HandlerFunc) (next : Dispatch → Dispatch) :
    Nat → Dispatch → Dispatch
  | 0, s => s
  | k + 1, s =>
    if 0 ≤ s.index ∧ s.index < Int.ofNat handlers.length then
      match handlers.get? s.index.toNat with
      | some h =>
        let s1 := h next s
        chainLoop handlers next k { s1 with index := s1.index + 1 }
      | none => s
    else s

/-- Go `c.Next()` of gin: `c.index++`, then the loop over the pending handlers; `fuel` bounds
the depth of nested calls of `c.Next()`. -/
def Next (handlers : List HandlerFunc) : Nat → Dispatch → Dispatch
  | 0, s => s
  | fuel + 1, s =>
    chainLoop handlers (Next handlers fuel) handlers.length { s with index := s.index + 1 }

/-- The engine serving one request with a handler chain: `c.index` starts at -1 and the
chain is entered with `c.Next()`. -/
def serve (method path : String) (handlers : List HandlerFunc) (w : World) (c : Ctx) :
    Ctx × World :=
  let s := Next handlers (handlers.length + 1)
    { Method := method, Path := path, resp := c, world := w, index := -1 }
  (s.resp, s.world)

/-- The five headers set by `corsMiddleware`. -/
def corsHeaders (c : Ctx) : Ctx :=
  ((((c.Header "Access-Control-Allow-Origin" "*").Header "Access-Control-Allow-Methods"
    "GET, POST, PUT, DELETE, OPTIONS, HEAD").Header "Access-Control-Allow-Headers"
    "Origin, Content-Type, Content-Length, Accept-Encoding, X-CSRF-Token, Authorization").Header
    "Access-Control-Expose-Headers" "Content-Length").Header "Access-Control-Allow-Credentials"
    "true"

/-- Go `corsMiddleware()`: the handler it returns. -/
def corsMiddleware : HandlerFunc := fun next s =>
  let s1 : Dispatch := { s with resp := corsHeaders s.resp }
  if s1.Method = "OPTIONS" then
    { s1 with resp := s1.resp.AbortWithStatus 204, index := abortIndex }
  else next s1

/-- A route handler in the chain: it reads and writes the response side and the world and
does not call `c.Next()`. -/
def routeHandler (h : World → Ctx → Ctx × World) : HandlerFunc := fun _ s =>
  { s with resp := (h s.world s.resp).1, world := (h s.world s.resp).2 }

/-! ## Specification-level notions -/

/-- The paths staged for a list of attachments, as a function of the attachments alone: one
path per attachment that decodes and is written, in input order; `tick` is the number of
clock readings so far and `i` the position of the first attachment. -/
def stagedPaths (env : Env) : Nat → Nat → List String → List String
  | _, _, [] => []
  | tick, i, imageData :: rest =>
    match DecodeString imageData with
    | none => stagedPaths env tick (i + 1) rest
    | some _ =>
      (if env.writable (Join (TempDir env) (imageName (env.clock tick).unix i)) then
        [Join (TempDir env) (imageName (env.clock tick).unix i)] else []) ++
        stagedPaths env (tick + 1) (i + 1) rest

/-- The arguments `--file path`, one pair per path. -/
def fileArgs (paths : List String) : List String := paths.flatMap (fun p => ["--file", p])

/-- What the process run by `executeQCommand(prompt, images)` returns to
`cmd.CombinedOutput()`. -/
def commandResult (env : Env) (w : World) (prompt : String) (images : List String) : CmdResult :=
  (env.runCombined (stageAttachments env w prompt images).world.execs.length
    ("q", (stageAttachments env w prompt images).args)
    (stageAttachments env w prompt images).world.fs).1

/-- The partial frames of a streamed response for a list of lines: one frame and one line
feed per line, stamped with consecutive clock readings from `tick` on. -/
def partialFrames (env : Env) (frame : String → Instant → Written) :
    Nat → List String → List Written
  | _, [] => []
  | tick, l :: ls => frame l (env.clock tick) :: Written.newline :: partialFrames env frame (tick + 1) ls

/-- The non-blank lines of a text: the lines that are not the empty string. -/
def nonBlankLines (s : String) : List String := (textLines s).filter (fun l => l ≠ "")

/-- The lines a `bufio.Scanner` with the default buffer delivers: the lines of the text up to
the first one that does not fit the buffer (`maxScanTokenSize` bytes or more). -/
def scannedLines (s : String) : List String :=
  ((rawLines s.data).takeWhile (fun l => decide (byteLen l < maxScanTokenSize))).map
    (fun l => String.mk (dropCR l))

/-- The scanned lines that are not the empty string: the payloads of the partial frames. -/
def emittedLines (s : String) : List String := (scannedLines s).filter (fun l => l ≠ "")

/-- Partial frame of `handleStreamingGenerate`. -/
def generateFrame (line : String) (t : Instant) : Written :=
  Written.generate { Model := "amazon-q", Response := line, Done := false, CreatedAt := t }

/-- Terminal frame of `handleStreamingGenerate`. -/
def generateFinal (t : Instant) : Written :=
  Written.generate { Model := "amazon-q", Response := "", Done := true, CreatedAt := t }

/-- Partial frame of `handleChatStream`. -/
def chatFrame (line : String) (t : Instant) : Written :=
  Written.chat
    { Model := "amazon-q", Message := { Role := "assistant", Content := line }, Done := false,
      CreatedAt := t }

/-- Terminal frame of `handleChatStream`. -/
def chatFinal (t : Instant) : Written :=
  Written.chat
    { Model := "amazon-q", Message := { Role := "assistant", Content := "" }, Done := true,
      CreatedAt := t }

/-- The frame carried by a written item: payload and `done` flag of a generate or chat
envelope; error envelopes and line feeds carry none. -/
def Written.frame : Written → Option (String × Bool)
  | Written.generate r => some (r.Response, r.Done)
  | Written.chat r => some (r.Message.Content, r.Done)
  | Written.error _ => none
  | Written.newline => none

/-- The frames of a response body, in the order written. -/
def frames (ws : List Written) : List (String × Bool) := ws.filterMap Written.frame

/-- Whether a written item is an error envelope. -/
def Written.isError : Written → Bool
  | Written.error _ => true
  | _ => false

/-- Whether a written item, when it is a success envelope, carries the model identifier
"amazon-q" and, for a chat envelope, a message with role "assistant". -/
def Written.labelled : Written → Bool
  | Written.generate r => r.Model == "amazon-q"
  | Written.chat r => r.Model == "amazon-q" && r.Message.Role == "assistant"
  | Written.error _ => true
  | Written.newline => true

/-- Whether a written item carries no metric: the six duration and count fields of an
envelope are zero. -/
def Written.noMetrics : Written → Bool
  | Written.generate r =>
    r.TotalDuration == 0 && r.LoadDuration == 0 && r.PromptEvalCount == 0 &&
      r.PromptEvalDuration == 0 && r.EvalCount == 0 && r.EvalDuration == 0
  | Written.chat r =>
    r.TotalDuration == 0 && r.LoadDuration == 0 && r.PromptEvalCount == 0 &&
      r.PromptEvalDuration == 0 && r.EvalCount == 0 && r.EvalDuration == 0
  | Written.error _ => true
  | Written.newline => true

/-- A frame sequence with exactly one frame that has `done=true`: it has an empty payload,
it is the last frame, and every frame before it has `done=false`. -/
def oneTerminalFrame (fs : List (String × Bool)) : Prop :=
  (fs.filter (fun f => f.2)).length = 1 ∧ fs.getLast? = some ("", true) ∧
    ∀ f ∈ fs.dropLast, f.2 = false

/-- The body of a streamed response: partial frames with `done=false`, each followed by a
line feed, then one frame with `done=true` and a line feed. -/
def streamShape : List Written → Bool
  | x :: y :: rest =>
    y == Written.newline &&
      (if rest.isEmpty then x.frame.map Prod.snd == some true
       else x.frame.map Prod.snd == some false && streamShape rest)
  | _ => false

/-- The body of a buffered success response: one envelope with `done=true`. -/
def bufferedShape : List Written → Bool
  | [x] => x.frame.map Prod.snd == some true
  | _ => false

/-- Terminal outcome `Failed`: the only thing written is one error envelope, with status 400
or 500. -/
def isFailed (c : Ctx) : Bool :=
  (c.status == 400 || c.status == 500) &&
    (match c.body with
     | [x] => x.isError
     | _ => false)

/-- Terminal outcome `Emitted`: status 200 and only success output, either one envelope or a
frame sequence ending in the `done=true` frame. -/
def isEmitted (c : Ctx) : Bool :=
  c.status == 200 && c.body.all (fun x => !x.isError) &&
    (bufferedShape c.body || streamShape c.body)

/-- The JSON body of a generate request, when it is a well-formed object whose fields have
the types of `GenerateRequest`: a field that is absent from the body is `none`. -/
structure GenerateBody where
  model : Option String := none
  prompt : Option String := none
  images : Option (List String) := none
  format : Option String := none
  options : Option (List (String × String)) := none
  system : Option String := none
  template : Option String := none
  context : Option (List Int) := none
  stream : Option Bool := none
  raw : Option Bool := none
deriving DecidableEq, Repr

/-- Go `c.ShouldBindJSON(&req)` on such a body: an absent field keeps the zero value of its
type; no field of `GenerateRequest` has a `binding` tag, so nothing is validated and the
binding succeeds. -/
def bindGenerate (b : GenerateBody) : Except String GenerateRequest :=
  Except.ok
    { Model := b.model.getD ""
      Prompt := b.prompt.getD ""
      Images := b.images.getD []
      Format := b.format.getD ""
      Options := b.options.getD []
      System := b.system.getD ""
      Template := b.template.getD ""
      Context := b.context.getD []
      Stream := b.stream.getD false
      Raw := b.raw.getD false }

/-- What `executeQCommand` returns for a result of `cmd.CombinedOutput()`. -/
def resultOf (r : CmdResult) : String × Option String :=
  match r.err with
  | some e => ("", some ("q command failed: " ++ e ++ ", output: " ++ r.output))
  | none => (TrimSpace r.output, none)

/-- Every line of the text fits the buffer of a `bufio.Scanner`: it has fewer than
`maxScanTokenSize` bytes. -/
def fitsScanner (s : String) : Prop := ∀ l ∈ rawLines s.data, byteLen l < maxScanTokenSize

/-! ## Concrete environments -/

/-- An environment whose process prints `out` on every run and exits with status 0; every
clock reading falls in the same second and the temporary directory is writable. -/
def printingEnv (out : String) : Env where
  TMPDIR := ""
  clock := fun k => { unix := 1700000000, mono := 1000 * Int.ofNat k }
  writable := fun _ => true
  partialWrite := fun _ _ => none
  removable := fun _ => true
  runCombined := fun _ _ fs => ({ output := out, err := none }, fs)
  runStream := fun _ _ => { pipeErr := none, startErr := none, stdout := out, waitErr := none }
  pipeCapacity := 65536

/-- An environment whose process prints `out` and fails with the error `e`. -/
def failingEnv (out e : String) : Env where
  TMPDIR := ""
  clock := fun k => { unix := 1700000000, mono := 1000 * Int.ofNat k }
  writable := fun _ => true
  partialWrite := fun _ _ => none
  removable := fun _ => true
  runCombined := fun _ _ fs => ({ output := out, err := some e }, fs)
  runStream := fun _ _ => { pipeErr := none, startErr := some e, stdout := "", waitErr := none }
  pipeCapacity := 65536

/-- An output whose first line has exactly `maxScanTokenSize` bytes, followed by the line
`line2`. -/
def longLineOutput : String :=
  String.mk (List.replicate maxScanTokenSize 'a' ++ '\n' :: ['l', 'i', 'n', 'e', '2', '\n'])

/-- An output whose first line has exactly `maxScanTokenSize` bytes, followed by a line that
consists of one space. -/
def longLineThenSpace : String :=
  String.mk (List.replicate maxScanTokenSize 'a' ++ '\n' :: [' ', '\n'])

/-- An output of two lines of `maxScanTokenSize` bytes each: when the scanner stops at the
first, `maxScanTokenSize + 1` bytes are still unread. -/
def hangingOutput : String :=
  String.mk (List.replicate maxScanTokenSize 'a' ++ '\n' :: List.replicate maxScanTokenSize 'a')

/-- An environment whose k-th process prints `outs k` and exits with status 0 (streamed: with
the error `waits k` from `cmd.Wait()`). -/
def scriptedEnv (outs : Nat → String) (waits : Nat → Option String) : Env where
  TMPDIR := ""
  clock := fun k => { unix := 1700000000, mono := 1000 * Int.ofNat k }
  writable := fun _ => true
  partialWrite := fun _ _ => none
  removable := fun _ => true
  runCombined := fun k _ fs => ({ output := outs k, err := none }, fs)
  runStream := fun k _ =>
    { pipeErr := none, startErr := none, stdout := outs k, waitErr := waits k }
  pipeCapacity := 65536

/-- An environment in which attaching the output pipe fails with the error `e`. -/
def pipeFailingEnv (e : String) : Env where
  TMPDIR := ""
  clock := fun k => { unix := 1700000000, mono := 1000 * Int.ofNat k }
  writable := fun _ => true
  partialWrite := fun _ _ => none
  removable := fun _ => true
  runCombined := fun _ _ fs => ({ output := "", err := some e }, fs)
  runStream := fun _ _ => { pipeErr := some e, startErr := none, stdout := "", waitErr := none }
  pipeCapacity := 65536

/-- An environment like `printingEnv out` in which no file can be removed. -/
def noRemoveEnv (out : String) : Env :=
  { printingEnv out with removable := fun _ => false }

/-- An environment like `printingEnv out` in which only the file of the attachment at
position 0 can be written in full: every other write fails after the file was created and
leaves it empty (no space left on the device). -/
def fullDiskEnv (out : String) : Env :=
  { printingEnv out with
    writable := fun p => p == "/tmp/q_image_1700000000_0.png"
    partialWrite := fun _ _ => some [] }

/-- The empty world: no file, no clock reading, no process run. -/
def emptyWorld : World := { fs := [], ticks := 0, execs := [] }

/-! ## Auxiliary lemmas: staging -/

theorem stageLoop_tempFiles (env : Env) (images : List String) :
    ∀ (i : Nat) (st : Staging),
      (stageLoop env i images st).tempFiles =
        st.tempFiles ++ stagedPaths env st.world.ticks i images := by
  induction images with
  | nil => intro i st; simp [stageLoop, stagedPaths]
  | cons imageData rest ih =>
    intro i st
    simp only [stageLoop, stagedPaths]
    rw [ih]
    unfold stageImage
    cases h : DecodeString imageData with
    | none => simp
    | some data =>
      simp only [now]
      split
      · simp
      · split <;> simp

theorem stageLoop_args (env : Env) (images : List String) :
    ∀ (i : Nat) (st : Staging),
      (stageLoop env i images st).args =
        st.args ++ fileArgs (stagedPaths env st.world.ticks i images) := by
  induction images with
  | nil => intro i st; simp [stageLoop, stagedPaths, fileArgs]
  | cons imageData rest ih =>
    intro i st
    simp only [stageLoop, stagedPaths]
    rw [ih]
    unfold stageImage
    cases h : DecodeString imageData with
    | none => simp
    | some data =>
      simp only [now]
      split
      · simp [fileArgs]
      · split <;> simp [fileArgs]

theorem stageLoop_execs (env : Env) (images : List String) :
    ∀ (i : Nat) (st : Staging), (stageLoop env i images st).world.execs = st.world.execs := by
  induction images with
  | nil => intro i st; simp [stageLoop]
  | cons imageData rest ih =>
    intro i st
    simp only [stageLoop]
    rw [ih]
    unfold stageImage
    cases h : DecodeString imageData with
    | none => simp
    | some data =>
      simp only [now]
      split
      · simp
      · split <;> simp

theorem executeQCommand_execs (env : Env) (w : World) (prompt : String) (images : List String) :
    (executeQCommand env w prompt images).2.execs =
      w.execs ++ [("q", (stageAttachments env w prompt images).args)] := by
  have h : (stageAttachments env w prompt images).world.execs = w.execs := by
    simp [stageAttachments, stageLoop_execs]
  unfold executeQCommand
  simp only []
  split <;> simp [cleanup, h]

theorem executeQCommand_fs (env : Env) (w : World) (prompt : String) (images : List String) :
    (executeQCommand env w prompt images).2.fs =
      (stageAttachments env w prompt images).tempFiles.foldl (Remove env)
        (env.runCombined (stageAttachments env w prompt images).world.execs.length
          ("q", (stageAttachments env w prompt images).args)
          (stageAttachments env w prompt images).world.fs).2 := by
  unfold executeQCommand
  simp only []
  split <;> simp [cleanup]

theorem executeQCommand_ok (env : Env) (w : World) (prompt : String) (images : List String)
    (h : (commandResult env w prompt images).err = none) :
    (executeQCommand env w prompt images).1 =
      (TrimSpace (commandResult env w prompt images).output, none) := by
  unfold commandResult at h
  unfold executeQCommand commandResult
  simp only []
  split
  · rename_i e he
    rw [h] at he
    cases he
  · rfl

theorem executeQCommand_err (env : Env) (w : World) (prompt : String) (images : List String)
    (e : String) (h : (commandResult env w prompt images).err = some e) :
    (executeQCommand env w prompt images).1 =
      ("", some ("q command failed: " ++ e ++ ", output: " ++
        (commandResult env w prompt images).output)) := by
  unfold commandResult at h
  unfold executeQCommand commandResult
  simp only []
  split
  · rename_i e2 he
    rw [h] at he
    cases he
    rfl
  · rename_i he
    rw [h] at he
    cases he

/-! ## Auxiliary lemmas: turn extraction -/

theorem extractLoop_none (messages : List Message)
    (h : ∀ m ∈ messages, m.Role ≠ "user") :
    ∀ n, extractLoop messages n = ("", []) := by
  intro n
  induction n with
  | zero => rfl
  | succ i ih =>
    simp only [extractLoop]
    cases hm : messages.get? i with
    | none => simpa using ih
    | some m =>
      have hmem : m ∈ messages := List.get?_mem hm
      simp [h m hmem, ih]

theorem extractUserTurn_none (messages : List Message)
    (h : ∀ m ∈ messages, m.Role ≠ "user") : extractUserTurn messages = ("", []) :=
  extractLoop_none messages h messages.length

theorem extractLoop_append (front : List Message) (m : Message) (back : List Message)
    (hm : m.Role = "user") (hback : ∀ x ∈ back, x.Role ≠ "user") :
    ∀ k, k ≤ back.length →
      extractLoop (front ++ m :: back) (front.length + 1 + k) = (m.Content, m.Images) := by
  intro k
  induction k with
  | zero =>
    intro _
    have hget : (front ++ m :: back).get? front.length = some m := by
      rw [List.get?_eq_getElem?, List.getElem?_append_right (le_refl _)]
      simp
    simp only [Nat.add_zero, extractLoop, hget]
    simp [hm]
  | succ j ih =>
    intro hj
    have hlt : j < back.length := hj
    have hget : (front ++ m :: back).get? (front.length + 1 + j) = some (back.get ⟨j, hlt⟩) := by
      rw [List.get?_eq_getElem?, List.getElem?_append_right (by omega)]
      have : front.length + 1 + j - front.length = j + 1 := by omega
      rw [this]
      simp [List.getElem?_eq_getElem hlt]
    have hne : (back.get ⟨j, hlt⟩).Role ≠ "user" := hback _ (List.get_mem _ _ _)
    have hstep : front.length + 1 + (j + 1) = (front.length + 1 + j) + 1 := by omega
    rw [hstep]
    simp only [extractLoop, hget]
    rw [if_neg hne]
    exact ih (by omega)

theorem extractUserTurn_last (front : List Message) (m : Message) (back : List Message)
    (hm : m.Role = "user") (hback : ∀ x ∈ back, x.Role ≠ "user") :
    extractUserTurn (front ++ m :: back) = (m.Content, m.Images) := by
  have h := extractLoop_append front m back hm hback back.length (le_refl _)
  unfold extractUserTurn
  have hlen : (front ++ m :: back).length = front.length + 1 + back.length := by
    simp only [List.length_append, List.length_cons]
    omega
  rw [hlen]
  exact h

/-! ## Auxiliary lemmas: file system -/

theorem fileExists_iff (fs : FS) (q : String) :
    fileExists fs q = true ↔ ∃ e ∈ fs, e.1 = q := by
  simp [fileExists, List.any_eq_true]

theorem fileExists_writeFile (fs : FS) (p q : String) (data : List Nat) :
    fileExists (writeFile fs p data) q = true ↔ q = p ∨ fileExists fs q = true := by
  rw [fileExists_iff, fileExists_iff]
  simp only [writeFile, List.mem_cons, List.mem_filter]
  constructor
  · rintro ⟨e, he | ⟨he, _⟩, rfl⟩
    · left; rw [he]
    · right; exact ⟨e, he, rfl⟩
  · rintro (rfl | ⟨e, he, rfl⟩)
    · exact ⟨(q, data), Or.inl rfl, rfl⟩
    · by_cases hp : e.1 = p
      · exact ⟨(p, data), Or.inl rfl, hp.symm⟩
      · exact ⟨e, Or.inr ⟨he, by simpa using hp⟩, rfl⟩

theorem fileExists_removeFile (fs : FS) (p q : String) :
    fileExists (removeFile fs p) q = true ↔ fileExists fs q = true ∧ q ≠ p := by
  rw [fileExists_iff, fileExists_iff]
  simp only [removeFile, List.mem_filter]
  constructor
  · rintro ⟨e, ⟨he, hp⟩, rfl⟩
    exact ⟨⟨e, he, rfl⟩, by simpa using hp⟩
  · rintro ⟨⟨e, he, rfl⟩, hp⟩
    exact ⟨e, ⟨he, by simpa using hp⟩, rfl⟩

theorem fileExists_foldl_removeFile (ps : List String) :
    ∀ (fs : FS) (q : String),
      fileExists (ps.foldl removeFile fs) q = true ↔ fileExists fs q = true ∧ q ∉ ps := by
  induction ps with
  | nil => intro fs q; simp
  | cons p ps ih =>
    intro fs q
    rw [List.foldl_cons, ih, fileExists_removeFile]
    simp only [List.mem_cons, not_or]
    tauto

theorem fileExists_Remove (env : Env) (fs : FS) (p q : String) :
    fileExists (Remove env fs p) q = true ↔
      fileExists fs q = true ∧ (q ≠ p ∨ env.removable p = false) := by
  unfold Remove
  cases hr : env.removable p with
  | true =>
    rw [if_pos rfl, fileExists_removeFile]
    simp
  | false => simp

theorem fileExists_foldl_Remove (env : Env) (ps : List String) :
    ∀ (fs : FS) (q : String),
      fileExists (ps.foldl (Remove env) fs) q = true ↔
        fileExists fs q = true ∧ (q ∉ ps ∨ env.removable q = false) := by
  induction ps with
  | nil => intro fs q; simp
  | cons p ps ih =>
    intro fs q
    rw [List.foldl_cons, ih, fileExists_Remove]
    by_cases hq : q = p
    · subst hq
      simp only [List.mem_cons, true_or, not_true_eq_false, false_or, ne_eq]
      tauto
    · simp only [List.mem_cons, hq, false_or, ne_eq, not_false_eq_true, true_or, and_true]

theorem stageImage_keeps_files (env : Env) (st : Staging) (i : Nat) (imageData : String)
    (h : ∀ p ∈ st.tempFiles, fileExists st.world.fs p = true) :
    ∀ p ∈ (stageImage env st i imageData).tempFiles,
      fileExists (stageImage env st i imageData).world.fs p = true := by
  unfold stageImage
  cases hd : DecodeString imageData with
  | none => simpa using h
  | some data =>
    simp only [now]
    split
    · intro p hp
      simp only [List.mem_append, List.mem_singleton] at hp
      rw [fileExists_writeFile]
      rcases hp with hp | hp
      · right; exact h p hp
      · left; exact hp
    · split
      · simpa using h
      · intro p hp
        rw [fileExists_writeFile]
        right
        exact h p hp

theorem stageLoop_keeps_files (env : Env) (images : List String) :
    ∀ (i : Nat) (st : Staging), (∀ p ∈ st.tempFiles, fileExists st.world.fs p = true) →
      ∀ p ∈ (stageLoop env i images st).tempFiles,
        fileExists (stageLoop env i images st).world.fs p = true := by
  induction images with
  | nil => intro i st h; simpa [stageLoop] using h
  | cons imageData rest ih =>
    intro i st h
    simp only [stageLoop]
    exact ih (i + 1) _ (stageImage_keeps_files env st i imageData h)

theorem stagedPaths_append (env : Env) (front : List String) :
    ∀ (tick i : Nat) (back : List String),
      stagedPaths env tick i (front ++ back) =
        stagedPaths env tick i front ++
          stagedPaths env (tick + (front.filter (fun s => (DecodeString s).isSome)).length)
            (i + front.length) back := by
  induction front with
  | nil => intro tick i back; simp [stagedPaths]
  | cons x front ih =>
    intro tick i back
    have e : i + 1 + front.length = i + (front.length + 1) := by omega
    have e2 : tick + 1 + (front.filter (fun s => (DecodeString s).isSome)).length =
        tick + ((front.filter (fun s => (DecodeString s).isSome)).length + 1) := by omega
    rw [List.cons_append]
    cases hx : DecodeString x with
    | none =>
      simp only [stagedPaths, hx]
      rw [ih, e]
      simp [List.filter_cons, hx]
    | some data =>
      simp only [stagedPaths, hx]
      rw [ih, e, e2]
      simp [List.filter_cons, hx]

theorem stagedPaths_length_of_writable (env : Env) (hw : ∀ p, env.writable p = true)
    (images : List String) :
    ∀ (tick i : Nat),
      (stagedPaths env tick i images).length =
        (images.filter (fun s => (DecodeString s).isSome)).length := by
  induction images with
  | nil => intro tick i; rfl
  | cons x rest ih =>
    intro tick i
    simp only [stagedPaths]
    cases hx : DecodeString x with
    | none => simp [ih, List.filter_cons, hx]
    | some data => simp [ih, List.filter_cons, hx, hw]


/-! ## Auxiliary lemmas: trimming -/

theorem head_dropWhile_not (p : Char → Bool) (l : List Char) :
    ∀ ch, (l.dropWhile p).head? = some ch → p ch = false := by
  induction l with
  | nil => intro ch h; simp at h
  | cons x xs ih =>
    intro ch h
    cases hx : p x with
    | true =>
      rw [List.dropWhile_cons_of_pos hx] at h
      exact ih ch h
    | false =>
      rw [List.dropWhile_cons_of_neg (by simp [hx])] at h
      simp only [List.head?_cons, Option.some.injEq] at h
      rw [← h]; exact hx

theorem dropWhile_eq_self (p : Char → Bool) (l : List Char)
    (h : ∀ ch, l.head? = some ch → p ch = false) : l.dropWhile p = l := by
  cases l with
  | nil => rfl
  | cons x xs => exact List.dropWhile_cons_of_neg (by simp [h x rfl])

theorem split_at_trailing (p : Char → Bool) (l : List Char) :
    l = (l.reverse.dropWhile p).reverse ++ (l.reverse.takeWhile p).reverse := by
  have h := List.takeWhile_append_dropWhile p l.reverse
  calc l = l.reverse.reverse := (List.reverse_reverse l).symm
    _ = (l.reverse.takeWhile p ++ l.reverse.dropWhile p).reverse := by rw [h]
    _ = (l.reverse.dropWhile p).reverse ++ (l.reverse.takeWhile p).reverse :=
        List.reverse_append _ _

theorem trimChars_split (cs : List Char) :
    cs = cs.takeWhile isSpace ++ trimChars cs ++
      ((cs.dropWhile isSpace).reverse.takeWhile isSpace).reverse := by
  have h1 : cs = cs.takeWhile isSpace ++ cs.dropWhile isSpace :=
    (List.takeWhile_append_dropWhile isSpace cs).symm
  have h3 := split_at_trailing isSpace (cs.dropWhile isSpace)
  unfold trimChars
  rw [List.append_assoc, ← h3]
  exact h1

theorem trimChars_last (cs : List Char) :
    ∀ ch, (trimChars cs).getLast? = some ch → isSpace ch = false := by
  intro ch h
  unfold trimChars at h
  rw [List.getLast?_reverse] at h
  exact head_dropWhile_not isSpace _ ch h

theorem trimChars_head (cs : List Char) :
    ∀ ch, (trimChars cs).head? = some ch → isSpace ch = false := by
  intro ch h
  have h3 : cs.dropWhile isSpace =
      trimChars cs ++ ((cs.dropWhile isSpace).reverse.takeWhile isSpace).reverse :=
    split_at_trailing isSpace (cs.dropWhile isSpace)
  apply head_dropWhile_not isSpace cs ch
  rw [h3]
  cases ht : trimChars cs with
  | nil => rw [ht] at h; simp at h
  | cons x xs => rw [ht] at h; simpa using h

theorem trimChars_idem (cs : List Char) : trimChars (trimChars cs) = trimChars cs := by
  have h1 : (trimChars cs).dropWhile isSpace = trimChars cs :=
    dropWhile_eq_self isSpace _ (trimChars_head cs)
  have h2 : (trimChars cs).reverse.dropWhile isSpace = (trimChars cs).reverse := by
    apply dropWhile_eq_self
    intro ch h
    rw [List.head?_reverse] at h
    exact trimChars_last cs ch h
  have e : trimChars (trimChars cs) =
      (((trimChars cs).dropWhile isSpace).reverse.dropWhile isSpace).reverse := rfl
  rw [e, h1, h2, List.reverse_reverse]

/-! ## Auxiliary lemmas: line scanner -/

theorem rawLines_step (pending : List Char) (h : pending ≠ []) :
    rawLines pending =
      pending.takeWhile (fun c => c != '\n') ::
        rawLines ((pending.dropWhile (fun c => c != '\n')).drop 1) := by
  induction pending with
  | nil => exact absurd rfl h
  | cons c cs ih =>
    by_cases hc : c = '\n'
    · subst hc
      simp [rawLines]
    · have hb : (c != '\n') = true := by simpa using hc
      have ht : (c :: cs).takeWhile (fun c => c != '\n') =
          c :: cs.takeWhile (fun c => c != '\n') := List.takeWhile_cons_of_pos hb
      have hd : (c :: cs).dropWhile (fun c => c != '\n') =
          cs.dropWhile (fun c => c != '\n') := List.dropWhile_cons_of_pos hb
      rw [ht, hd]
      simp only [rawLines, if_neg hc]
      cases cs with
      | nil => simp [rawLines]
      | cons d ds => rw [ih (by simp)]

theorem scan_rest_length (pending : List Char) (h : pending ≠ []) :
    ((pending.dropWhile (fun c => c != '\n')).drop 1).length < pending.length := by
  have h1 : (pending.dropWhile (fun c => c != '\n')).length ≤ pending.length :=
    (List.dropWhile_sublist _).length_le
  cases hd : pending.dropWhile (fun c => c != '\n') with
  | nil =>
    cases pending with
    | nil => exact absurd rfl h
    | cons c cs => simp
  | cons x xs =>
    rw [hd] at h1
    simp only [List.drop_succ_cons, List.drop_zero, List.length_cons] at h1 ⊢
    omega

theorem mk_ne_empty (l : List Char) : String.mk l ≠ "" ↔ l ≠ [] := by
  constructor
  · intro h hl
    exact h (by rw [hl])
  · intro h hs
    exact h (congrArg String.data hs)

theorem emittedLines_step (pending : List Char) (h : pending ≠ [])
    (hfit : byteLen (pending.takeWhile (fun c => c != '\n')) < maxScanTokenSize) :
    emittedLines (String.mk pending) =
      (if dropCR (pending.takeWhile (fun c => c != '\n')) ≠ [] then
        [String.mk (dropCR (pending.takeWhile (fun c => c != '\n')))] else []) ++
        emittedLines (String.mk ((pending.dropWhile (fun c => c != '\n')).drop 1)) := by
  unfold emittedLines scannedLines
  simp only []
  rw [rawLines_step pending h, List.takeWhile_cons_of_pos (by simpa using hfit), List.map_cons,
    List.filter_cons]
  by_cases hl : dropCR (pending.takeWhile (fun c => c != '\n')) = []
  · simp [hl]
  · have hne := (mk_ne_empty _).2 hl
    simp [hl, hne]

theorem emittedLines_too_long (pending : List Char) (h : pending ≠ [])
    (hlong : maxScanTokenSize ≤ byteLen (pending.takeWhile (fun c => c != '\n'))) :
    emittedLines (String.mk pending) = [] := by
  unfold emittedLines scannedLines
  simp only []
  rw [rawLines_step pending h, List.takeWhile_cons_of_neg (by simpa using hlong)]
  rfl

theorem emittedLines_eq_nonBlankLines (s : String)
    (hfit : ∀ l ∈ rawLines s.data, byteLen l < maxScanTokenSize) :
    emittedLines s = nonBlankLines s := by
  have h : (rawLines s.data).takeWhile (fun l => decide (byteLen l < maxScanTokenSize)) =
      rawLines s.data := by
    rw [List.takeWhile_eq_self_iff]
    intro l hl
    simpa using hfit l hl
  unfold emittedLines scannedLines nonBlankLines textLines
  rw [h]

/-- The scanner loop, for every output: the frames written are those of the emitted lines,
one clock reading each; status, headers, processes and files are left alone. The fuel
`pending.length + 1` is never exhausted. -/
theorem streamLoop_spec (env : Env) (frame : String → Instant → Written) :
    ∀ (fuel : Nat) (pending : List Char) (c : Ctx) (w : World),
      pending.length < fuel →
      (streamLoop env frame fuel pending (c, w)).1.body =
          c.body ++ partialFrames env frame w.ticks (emittedLines (String.mk pending)) ∧
        (streamLoop env frame fuel pending (c, w)).1.status = c.status ∧
        (streamLoop env frame fuel pending (c, w)).1.headers = c.headers ∧
        (streamLoop env frame fuel pending (c, w)).2.ticks =
          w.ticks + (emittedLines (String.mk pending)).length ∧
        (streamLoop env frame fuel pending (c, w)).2.execs = w.execs ∧
        (streamLoop env frame fuel pending (c, w)).2.fs = w.fs := by
  intro fuel
  induction fuel with
  | zero => intro pending c w h; exact absurd h (Nat.not_lt_zero _)
  | succ n ih =>
    intro pending c w hlen
    by_cases hp : pending = []
    · subst hp
      simp [streamLoop, Scan, emittedLines, scannedLines, rawLines, partialFrames]
    · by_cases hline : byteLen (pending.takeWhile (fun c => c != '\n')) < maxScanTokenSize
      · have hlt := scan_rest_length pending hp
        have hscan : Scan pending = some (dropCR (pending.takeWhile (fun c => c != '\n')),
            (pending.dropWhile (fun c => c != '\n')).drop 1) := by
          simp [Scan, hp, Nat.not_le.2 hline]
        rw [emittedLines_step pending hp hline]
        simp only [streamLoop, hscan]
        by_cases hl : dropCR (pending.takeWhile (fun c => c != '\n')) = []
        · simp only [hl, ne_eq, not_true_eq_false, if_false, List.nil_append]
          exact ih _ c w (by omega)
        · simp only [hl, ne_eq, not_false_eq_true, if_true, now]
          have h := ih ((pending.dropWhile (fun c => c != '\n')).drop 1)
            ((c.Write (frame (String.mk (dropCR (pending.takeWhile (fun c => c != '\n'))))
              (env.clock w.ticks))).Write Written.newline)
            { w with ticks := w.ticks + 1 } (by omega)
          obtain ⟨h1, h2, h3, h4, h5, h6⟩ := h
          refine ⟨?_, ?_, ?_, ?_, ?_, ?_⟩
          · rw [h1]; simp [Ctx.Write, partialFrames]
          · rw [h2]; rfl
          · rw [h3]; rfl
          · rw [h4]; simp; omega
          · rw [h5]
          · rw [h6]
      · have hscan : Scan pending = none := by
          simp [Scan, hp, Nat.not_lt.1 hline]
        rw [emittedLines_too_long pending hp (Nat.not_lt.1 hline)]
        simp [streamLoop, hscan, partialFrames]

theorem handleStreamingGenerate_body (env : Env) (w : World) (c : Ctx) (req : GenerateRequest)
    (out : String) (waitErr : Option String)
    (hrun : env.runStream w.execs.length ("q", ["chat", "--message", req.Prompt]) =
      { pipeErr := none, startErr := none, stdout := out, waitErr := waitErr }) :
    (handleStreamingGenerate env w c req).1.body =
      (streamLoop env generateFrame (out.data.length + 1) out.data
        ((c.Header "Content-Type" "application/x-ndjson").Header "Transfer-Encoding" "chunked",
          { w with execs := w.execs ++ [("q", ["chat", "--message", req.Prompt])] })).1.body ++
        [generateFinal (env.clock
          (streamLoop env generateFrame (out.data.length + 1) out.data
            ((c.Header "Content-Type" "application/x-ndjson").Header "Transfer-Encoding" "chunked",
              { w with execs := w.execs ++ [("q", ["chat", "--message", req.Prompt])] })).2.ticks),
          Written.newline] := by
  simp only [handleStreamingGenerate, hrun, now, Ctx.Write, List.append_assoc]
  rfl

theorem handleChatStream_body (env : Env) (w : World) (c : Ctx) (req : ChatRequest)
    (out : String) (waitErr : Option String) (hne : (extractUserTurn req.Messages).1 ≠ "")
    (hrun : env.runStream w.execs.length
        ("q", ["chat", "--message", (extractUserTurn req.Messages).1]) =
      { pipeErr := none, startErr := none, stdout := out, waitErr := waitErr }) :
    (handleChatStream env w c req).1.body =
      (streamLoop env chatFrame (out.data.length + 1) out.data
        ((c.Header "Content-Type" "application/x-ndjson").Header "Transfer-Encoding" "chunked",
          { w with execs := w.execs ++
            [("q", ["chat", "--message", (extractUserTurn req.Messages).1])] })).1.body ++
        [chatFinal (env.clock
          (streamLoop env chatFrame (out.data.length + 1) out.data
            ((c.Header "Content-Type" "application/x-ndjson").Header "Transfer-Encoding" "chunked",
              { w with execs := w.execs ++
                [("q", ["chat", "--message", (extractUserTurn req.Messages).1])] })).2.ticks),
          Written.newline] := by
  simp only [handleChatStream, hne, if_false, hrun, now, Ctx.Write, List.append_assoc]
  rfl

theorem handleStreamingGenerate_scan_fails (env : Env) (w : World) (c : Ctx)
    (req : GenerateRequest) (out : String) (waitErr : Option String)
    (hrun : env.runStream w.execs.length ("q", ["chat", "--message", req.Prompt]) =
      { pipeErr := none, startErr := none, stdout := out, waitErr := waitErr })
    (hscan : Scan out.data = none) :
    (handleStreamingGenerate env w c req).1.body =
      c.body ++ [generateFinal (env.clock w.ticks), Written.newline] := by
  rw [handleStreamingGenerate_body env w c req out waitErr hrun]
  simp only [streamLoop, hscan]
  simp [Ctx.Header]

theorem takeWhile_replicate (n : Nat) (rest : List Char) :
    (List.replicate n 'a' ++ '\n' :: rest).takeWhile (fun c => c != '\n') =
      List.replicate n 'a' := by
  induction n with
  | zero => simp
  | succ k ih =>
    rw [List.replicate_succ, List.cons_append, List.takeWhile_cons_of_pos (by decide), ih]

theorem byteLen_replicate (n : Nat) : byteLen (List.replicate n 'a') = n := by
  induction n with
  | zero => rfl
  | succ k ih =>
    have h1 : byteLen ('a' :: List.replicate k 'a') = 1 + byteLen (List.replicate k 'a') := rfl
    rw [List.replicate_succ, h1, ih, Nat.add_comm]

theorem rawLines_replicate (n : Nat) (rest : List Char) :
    rawLines (List.replicate n 'a' ++ '\n' :: rest) = List.replicate n 'a' :: rawLines rest := by
  induction n with
  | zero => simp [rawLines]
  | succ k ih =>
    rw [List.replicate_succ, List.cons_append]
    simp only [rawLines, ih]
    simp

theorem scan_longLineOutput : Scan longLineOutput.data = none := by
  have hne : longLineOutput.data ≠ [] := by
    intro h
    have h2 : List.replicate maxScanTokenSize 'a' ++ '\n' :: ['l', 'i', 'n', 'e', '2', '\n'] = [] := h
    exact List.cons_ne_nil _ _ (List.append_eq_nil.mp h2).2
  have ht : longLineOutput.data.takeWhile (fun c => c != '\n') =
      List.replicate maxScanTokenSize 'a' := takeWhile_replicate maxScanTokenSize _
  unfold Scan
  rw [if_neg hne]
  simp only []
  rw [ht, byteLen_replicate, if_pos (le_refl _)]

/-! ## Auxiliary lemmas: streamed handlers -/

theorem handleStreamingGenerate_pipe_fails (env : Env) (w : World) (c : Ctx)
    (req : GenerateRequest) (e : String)
    (hpipe : (env.runStream w.execs.length ("q", ["chat", "--message", req.Prompt])).pipeErr =
      some e) :
    handleStreamingGenerate env w c req =
      (((c.Header "Content-Type" "application/x-ndjson").Header "Transfer-Encoding"
        "chunked").JSON StatusInternalServerError (Written.error e), w) := by
  simp only [handleStreamingGenerate, hpipe]

theorem handleStreamingGenerate_start_fails (env : Env) (w : World) (c : Ctx)
    (req : GenerateRequest) (e : String)
    (hpipe : (env.runStream w.execs.length ("q", ["chat", "--message", req.Prompt])).pipeErr =
      none)
    (hstart : (env.runStream w.execs.length ("q", ["chat", "--message", req.Prompt])).startErr =
      some e) :
    handleStreamingGenerate env w c req =
      (((c.Header "Content-Type" "application/x-ndjson").Header "Transfer-Encoding"
        "chunked").JSON StatusInternalServerError (Written.error e),
        { w with execs := w.execs ++ [("q", ["chat", "--message", req.Prompt])] }) := by
  simp only [handleStreamingGenerate, hpipe, hstart]

theorem handleStreamingGenerate_started (env : Env) (w : World) (c : Ctx)
    (req : GenerateRequest)
    (hpipe : (env.runStream w.execs.length ("q", ["chat", "--message", req.Prompt])).pipeErr =
      none)
    (hstart : (env.runStream w.execs.length ("q", ["chat", "--message", req.Prompt])).startErr =
      none) :
    (handleStreamingGenerate env w c req).1.body =
        c.body ++ (partialFrames env generateFrame w.ticks
          (emittedLines (env.runStream w.execs.length
            ("q", ["chat", "--message", req.Prompt])).stdout) ++
          [generateFinal (env.clock (w.ticks + (emittedLines (env.runStream w.execs.length
            ("q", ["chat", "--message", req.Prompt])).stdout).length)), Written.newline]) ∧
      (handleStreamingGenerate env w c req).1.status = c.status ∧
      (handleStreamingGenerate env w c req).2.execs =
        w.execs ++ [("q", ["chat", "--message", req.Prompt])] ∧
      (handleStreamingGenerate env w c req).2.fs = w.fs := by
  obtain ⟨h1, h2, _, h4, h5, h6⟩ := streamLoop_spec env generateFrame
    ((env.runStream w.execs.length ("q", ["chat", "--message", req.Prompt])).stdout.data.length + 1)
    (env.runStream w.execs.length ("q", ["chat", "--message", req.Prompt])).stdout.data
    ((c.Header "Content-Type" "application/x-ndjson").Header "Transfer-Encoding" "chunked")
    { w with execs := w.execs ++ [("q", ["chat", "--message", req.Prompt])] }
    (Nat.lt_succ_self _)
  have e : handleStreamingGenerate env w c req =
      (((streamLoop env generateFrame
          ((env.runStream w.execs.length
            ("q", ["chat", "--message", req.Prompt])).stdout.data.length + 1)
          (env.runStream w.execs.length ("q", ["chat", "--message", req.Prompt])).stdout.data
          ((c.Header "Content-Type" "application/x-ndjson").Header "Transfer-Encoding" "chunked",
            { w with execs := w.execs ++ [("q", ["chat", "--message", req.Prompt])] })).1.Write
          (generateFinal (env.clock (streamLoop env generateFrame
            ((env.runStream w.execs.length
              ("q", ["chat", "--message", req.Prompt])).stdout.data.length + 1)
            (env.runStream w.execs.length ("q", ["chat", "--message", req.Prompt])).stdout.data
            ((c.Header "Content-Type" "application/x-ndjson").Header "Transfer-Encoding" "chunked",
              { w with execs := w.execs ++
                [("q", ["chat", "--message", req.Prompt])] })).2.ticks))).Write Written.newline,
        (now env (streamLoop env generateFrame
          ((env.runStream w.execs.length
            ("q", ["chat", "--message", req.Prompt])).stdout.data.length + 1)
          (env.runStream w.execs.length ("q", ["chat", "--message", req.Prompt])).stdout.data
          ((c.Header "Content-Type" "application/x-ndjson").Header "Transfer-Encoding" "chunked",
            { w with execs := w.execs ++ [("q", ["chat", "--message", req.Prompt])] })).2).2) := by
    simp only [handleStreamingGenerate, hpipe, hstart, now]
    rfl
  rw [e]
  simp only [Ctx.Write, now]
  refine ⟨?_, ?_, ?_, ?_⟩
  · rw [h1, h4]; simp [Ctx.Header]
  · rw [h2]; rfl
  · rw [h5]
  · rw [h6]

theorem handleChatStream_rejected (env : Env) (w : World) (c : Ctx) (req : ChatRequest)
    (hnone : (extractUserTurn req.Messages).1 = "") :
    handleChatStream env w c req =
      (((c.Header "Content-Type" "application/x-ndjson").Header "Transfer-Encoding"
        "chunked").JSON StatusBadRequest (Written.error "No user message found"), w) := by
  simp only [handleChatStream, hnone, if_true]

theorem handleChatStream_pipe_fails (env : Env) (w : World) (c : Ctx) (req : ChatRequest)
    (e : String) (hne : (extractUserTurn req.Messages).1 ≠ "")
    (hpipe : (env.runStream w.execs.length
      ("q", ["chat", "--message", (extractUserTurn req.Messages).1])).pipeErr = some e) :
    handleChatStream env w c req =
      (((c.Header "Content-Type" "application/x-ndjson").Header "Transfer-Encoding"
        "chunked").JSON StatusInternalServerError (Written.error e), w) := by
  simp only [handleChatStream, hne, if_false, hpipe]

theorem handleChatStream_start_fails (env : Env) (w : World) (c : Ctx) (req : ChatRequest)
    (e : String) (hne : (extractUserTurn req.Messages).1 ≠ "")
    (hpipe : (env.runStream w.execs.length
      ("q", ["chat", "--message", (extractUserTurn req.Messages).1])).pipeErr = none)
    (hstart : (env.runStream w.execs.length
      ("q", ["chat", "--message", (extractUserTurn req.Messages).1])).startErr = some e) :
    handleChatStream env w c req =
      (((c.Header "Content-Type" "application/x-ndjson").Header "Transfer-Encoding"
        "chunked").JSON StatusInternalServerError (Written.error e),
        { w with execs := w.execs ++
          [("q", ["chat", "--message", (extractUserTurn req.Messages).1])] }) := by
  simp only [handleChatStream, hne, if_false, hpipe, hstart]

theorem handleChatStream_started (env : Env) (w : World) (c : Ctx) (req : ChatRequest)
    (hne : (extractUserTurn req.Messages).1 ≠ "")
    (hpipe : (env.runStream w.execs.length
      ("q", ["chat", "--message", (extractUserTurn req.Messages).1])).pipeErr = none)
    (hstart : (env.runStream w.execs.length
      ("q", ["chat", "--message", (extractUserTurn req.Messages).1])).startErr = none) :
    (handleChatStream env w c req).1.body =
        c.body ++ (partialFrames env chatFrame w.ticks
          (emittedLines (env.runStream w.execs.length
            ("q", ["chat", "--message", (extractUserTurn req.Messages).1])).stdout) ++
          [chatFinal (env.clock (w.ticks + (emittedLines (env.runStream w.execs.length
            ("q", ["chat", "--message", (extractUserTurn req.Messages).1])).stdout).length)),
            Written.newline]) ∧
      (handleChatStream env w c req).1.status = c.status ∧
      (handleChatStream env w c req).2.execs =
        w.execs ++ [("q", ["chat", "--message", (extractUserTurn req.Messages).1])] ∧
      (handleChatStream env w c req).2.fs = w.fs := by
  obtain ⟨h1, h2, _, h4, h5, h6⟩ := streamLoop_spec env chatFrame
    ((env.runStream w.execs.length
      ("q", ["chat", "--message", (extractUserTurn req.Messages).1])).stdout.data.length + 1)
    (env.runStream w.execs.length
      ("q", ["chat", "--message", (extractUserTurn req.Messages).1])).stdout.data
    ((c.Header "Content-Type" "application/x-ndjson").Header "Transfer-Encoding" "chunked")
    { w with execs := w.execs ++ [("q", ["chat", "--message", (extractUserTurn req.Messages).1])] }
    (Nat.lt_succ_self _)
  have e : handleChatStream env w c req =
      (((streamLoop env chatFrame
          ((env.runStream w.execs.length
            ("q", ["chat", "--message", (extractUserTurn req.Messages).1])).stdout.data.length + 1)
          (env.runStream w.execs.length
            ("q", ["chat", "--message", (extractUserTurn req.Messages).1])).stdout.data
          ((c.Header "Content-Type" "application/x-ndjson").Header "Transfer-Encoding" "chunked",
            { w with execs := w.execs ++
              [("q", ["chat", "--message", (extractUserTurn req.Messages).1])] })).1.Write
          (chatFinal (env.clock (streamLoop env chatFrame
            ((env.runStream w.execs.length
              ("q", ["chat", "--message", (extractUserTurn req.Messages).1])).stdout.data.length + 1)
            (env.runStream w.execs.length
              ("q", ["chat", "--message", (extractUserTurn req.Messages).1])).stdout.data
            ((c.Header "Content-Type" "application/x-ndjson").Header "Transfer-Encoding" "chunked",
              { w with execs := w.execs ++
                [("q", ["chat", "--message",
                  (extractUserTurn req.Messages).1])] })).2.ticks))).Write Written.newline,
        (now env (streamLoop env chatFrame
          ((env.runStream w.execs.length
            ("q", ["chat", "--message", (extractUserTurn req.Messages).1])).stdout.data.length + 1)
          (env.runStream w.execs.length
            ("q", ["chat", "--message", (extractUserTurn req.Messages).1])).stdout.data
          ((c.Header "Content-Type" "application/x-ndjson").Header "Transfer-Encoding" "chunked",
            { w with execs := w.execs ++
              [("q", ["chat", "--message", (extractUserTurn req.Messages).1])] })).2).2) := by
    simp only [handleChatStream, hne, if_false, hpipe, hstart, now]
    rfl
  rw [e]
  simp only [Ctx.Write, now]
  refine ⟨?_, ?_, ?_, ?_⟩
  · rw [h1, h4]; simp [Ctx.Header]
  · rw [h2]; rfl
  · rw [h5]
  · rw [h6]

theorem frames_partialFrames_generate (env : Env) (ls : List String) :
    ∀ tick, frames (partialFrames env generateFrame tick ls) = ls.map (fun l => (l, false)) := by
  induction ls with
  | nil => intro tick; rfl
  | cons l ls ih =>
    intro tick
    simp only [partialFrames, frames, List.filterMap_cons, generateFrame, Written.frame,
      List.map_cons]
    exact congrArg _ (ih (tick + 1))

theorem frames_partialFrames_chat (env : Env) (ls : List String) :
    ∀ tick, frames (partialFrames env chatFrame tick ls) = ls.map (fun l => (l, false)) := by
  induction ls with
  | nil => intro tick; rfl
  | cons l ls ih =>
    intro tick
    simp only [partialFrames, frames, List.filterMap_cons, chatFrame, Written.frame,
      List.map_cons]
    exact congrArg _ (ih (tick + 1))

theorem oneTerminalFrame_of_lines (ls : List String) :
    oneTerminalFrame (ls.map (fun l => (l, false)) ++ [("", true)]) := by
  refine ⟨?_, ?_, ?_⟩
  · have h : (ls.map (fun l => ((l, false) : String × Bool))).filter (fun f => f.2) = [] := by
      rw [List.filter_eq_nil_iff]
      intro f hf
      rw [List.mem_map] at hf
      obtain ⟨l, _, rfl⟩ := hf
      simp
    rw [List.filter_append, h]
    rfl
  · simp
  · intro f hf
    rw [List.dropLast_concat, List.mem_map] at hf
    obtain ⟨l, _, rfl⟩ := hf
    rfl

theorem partialFrames_forall (env : Env) (frame : String → Instant → Written)
    (P : Written → Prop) (hnl : P Written.newline) (hf : ∀ l t, P (frame l t))
    (ls : List String) : ∀ tick, ∀ x ∈ partialFrames env frame tick ls, P x := by
  induction ls with
  | nil => intro tick x hx; simp [partialFrames] at hx
  | cons l ls ih =>
    intro tick x hx
    simp only [partialFrames, List.mem_cons] at hx
    rcases hx with rfl | rfl | hx
    · exact hf _ _
    · exact hnl
    · exact ih _ x hx

theorem extractLoop_map_images (messages : List Message) (f : Message → List String) :
    ∀ n, (extractLoop (messages.map (fun m => { m with Images := f m })) n).1 =
      (extractLoop messages n).1 := by
  intro n
  induction n with
  | zero => rfl
  | succ i ih =>
    simp only [extractLoop, List.get?_eq_getElem?, List.getElem?_map]
    cases hm : messages[i]? with
    | none => simpa using ih
    | some m =>
      simp only [Option.map_some']
      by_cases hr : m.Role = "user"
      · simp [hr]
      · simp [hr, ih]

theorem extractUserTurn_map_images (messages : List Message) (f : Message → List String) :
    (extractUserTurn (messages.map (fun m => { m with Images := f m }))).1 =
      (extractUserTurn messages).1 := by
  unfold extractUserTurn
  rw [List.length_map]
  exact extractLoop_map_images messages f messages.length

theorem handleChatStream_congr (env : Env) (w : World) (c : Ctx) (req req2 : ChatRequest)
    (h : (extractUserTurn req.Messages).1 = (extractUserTurn req2.Messages).1) :
    handleChatStream env w c req = handleChatStream env w c req2 := by
  unfold handleChatStream
  rw [h]

theorem frames_stream_generate (env : Env) (tick : Nat) (ls : List String) (t : Instant) :
    frames (partialFrames env generateFrame tick ls ++ [generateFinal t, Written.newline]) =
      ls.map (fun l => (l, false)) ++ [("", true)] := by
  unfold frames
  rw [List.filterMap_append]
  exact congrArg (· ++ [("", true)]) (frames_partialFrames_generate env ls tick)

theorem frames_stream_chat (env : Env) (tick : Nat) (ls : List String) (t : Instant) :
    frames (partialFrames env chatFrame tick ls ++ [chatFinal t, Written.newline]) =
      ls.map (fun l => (l, false)) ++ [("", true)] := by
  unfold frames
  rw [List.filterMap_append]
  exact congrArg (· ++ [("", true)]) (frames_partialFrames_chat env ls tick)

theorem stream_forall (env : Env) (frame : String → Instant → Written) (final : Written)
    (P : Written → Prop) (hnl : P Written.newline) (hf : ∀ l t, P (frame l t)) (hfin : P final)
    (tick : Nat) (ls : List String) :
    ∀ x ∈ partialFrames env frame tick ls ++ [final, Written.newline], P x := by
  intro x hx
  rw [List.mem_append] at hx
  rcases hx with hx | hx
  · exact partialFrames_forall env frame P hnl hf ls tick x hx
  · simp only [List.mem_cons, List.mem_singleton, List.not_mem_nil, or_false] at hx
    rcases hx with rfl | rfl
    · exact hfin
    · exact hnl

/-! ## Auxiliary lemmas: outcomes of the handlers -/

theorem json_error_outcome (c : Ctx) (code : Nat) (m : String) :
    (c.JSON code (Written.error m)).body = c.body ++ [Written.error m] ∧
      (c.written = false → (c.JSON code (Written.error m)).status = code) := by
  refine ⟨rfl, ?_⟩
  intro hw
  simp [Ctx.JSON, hw]

theorem handleStreamingGenerate_outcome (env : Env) (w : World) (c : Ctx)
    (req : GenerateRequest) :
    (∃ m, (handleStreamingGenerate env w c req).1.body = c.body ++ [Written.error m] ∧
        (c.written = false → (handleStreamingGenerate env w c req).1.status = 500)) ∨
      (∃ (ls : List String) (t : Instant) (tick : Nat),
        (handleStreamingGenerate env w c req).1.body =
          c.body ++ (partialFrames env generateFrame tick ls ++
            [generateFinal t, Written.newline]) ∧
        (handleStreamingGenerate env w c req).1.status = c.status) := by
  have hj : ∀ m, (((c.Header "Content-Type" "application/x-ndjson").Header "Transfer-Encoding"
        "chunked").JSON StatusInternalServerError (Written.error m)).body =
          c.body ++ [Written.error m] ∧
      (c.written = false →
        (((c.Header "Content-Type" "application/x-ndjson").Header "Transfer-Encoding"
          "chunked").JSON StatusInternalServerError (Written.error m)).status = 500) := by
    intro m
    exact json_error_outcome _ _ m
  cases hp : (env.runStream w.execs.length ("q", ["chat", "--message", req.Prompt])).pipeErr with
  | some e =>
    left
    rw [handleStreamingGenerate_pipe_fails env w c req e hp]
    exact ⟨e, hj e⟩
  | none =>
    cases hs : (env.runStream w.execs.length
        ("q", ["chat", "--message", req.Prompt])).startErr with
    | some e =>
      left
      rw [handleStreamingGenerate_start_fails env w c req e hp hs]
      exact ⟨e, hj e⟩
    | none =>
      right
      obtain ⟨h1, h2, _, _⟩ := handleStreamingGenerate_started env w c req hp hs
      exact ⟨_, _, _, h1, h2⟩

theorem handleChatStream_outcome (env : Env) (w : World) (c : Ctx) (req : ChatRequest) :
    (∃ m, (handleChatStream env w c req).1.body = c.body ++ [Written.error m] ∧
        (c.written = false → ((handleChatStream env w c req).1.status = 400 ∨
          (handleChatStream env w c req).1.status = 500))) ∨
      (∃ (ls : List String) (t : Instant) (tick : Nat),
        (handleChatStream env w c req).1.body =
          c.body ++ (partialFrames env chatFrame tick ls ++ [chatFinal t, Written.newline]) ∧
        (handleChatStream env w c req).1.status = c.status) := by
  have hj : ∀ (code : Nat) (m : String),
      (((c.Header "Content-Type" "application/x-ndjson").Header "Transfer-Encoding"
        "chunked").JSON code (Written.error m)).body = c.body ++ [Written.error m] ∧
      (c.written = false →
        (((c.Header "Content-Type" "application/x-ndjson").Header "Transfer-Encoding"
          "chunked").JSON code (Written.error m)).status = code) := by
    intro code m
    exact json_error_outcome _ _ m
  by_cases hne : (extractUserTurn req.Messages).1 = ""
  · left
    rw [handleChatStream_rejected env w c req hne]
    exact ⟨_, (hj _ _).1, fun hw => Or.inl ((hj _ _).2 hw)⟩
  · cases hp : (env.runStream w.execs.length
        ("q", ["chat", "--message", (extractUserTurn req.Messages).1])).pipeErr with
    | some e =>
      left
      rw [handleChatStream_pipe_fails env w c req e hne hp]
      exact ⟨e, (hj _ _).1, fun hw => Or.inr ((hj _ _).2 hw)⟩
    | none =>
      cases hs : (env.runStream w.execs.length
          ("q", ["chat", "--message", (extractUserTurn req.Messages).1])).startErr with
      | some e =>
        left
        rw [handleChatStream_start_fails env w c req e hne hp hs]
        exact ⟨e, (hj _ _).1, fun hw => Or.inr ((hj _ _).2 hw)⟩
      | none =>
        right
        obtain ⟨h1, h2, _, _⟩ := handleChatStream_started env w c req hne hp hs
        exact ⟨_, _, _, h1, h2⟩

theorem handleGenerate_buffered_outcome (env : Env) (w : World) (c : Ctx)
    (req : GenerateRequest) (hstream : req.Stream = false) :
    (∃ m, (handleGenerate env w c (Except.ok req)).1.body = c.body ++ [Written.error m] ∧
        (c.written = false → (handleGenerate env w c (Except.ok req)).1.status = 500)) ∨
      (∃ r : GenerateResponse,
        (handleGenerate env w c (Except.ok req)).1.body = c.body ++ [Written.generate r] ∧
        (c.written = false → (handleGenerate env w c (Except.ok req)).1.status = 200) ∧
        r.Done = true ∧ r.Model = "amazon-q") := by
  simp only [handleGenerate, hstream, Bool.false_eq_true, if_false]
  cases (executeQCommand env (now env w).2 req.Prompt req.Images).1.2 with
  | some e =>
    left
    exact ⟨_, json_error_outcome c _ _⟩
  | none =>
    right
    exact ⟨_, rfl, fun hw => by simp [Ctx.JSON, hw, StatusOK], rfl, rfl⟩

theorem handleChatWithStreaming_buffered_outcome (env : Env) (w : World) (c : Ctx)
    (req : ChatRequest) (hstream : req.Stream = false) :
    (∃ m, (handleChatWithStreaming env w c (Except.ok req)).1.body =
          c.body ++ [Written.error m] ∧
        (c.written = false → ((handleChatWithStreaming env w c (Except.ok req)).1.status = 400 ∨
          (handleChatWithStreaming env w c (Except.ok req)).1.status = 500))) ∨
      (∃ r : ChatResponse,
        (handleChatWithStreaming env w c (Except.ok req)).1.body =
          c.body ++ [Written.chat r] ∧
        (c.written = false → (handleChatWithStreaming env w c (Except.ok req)).1.status = 200) ∧
        r.Done = true ∧ r.Model = "amazon-q" ∧ r.Message.Role = "assistant") := by
  simp only [handleChatWithStreaming, hstream, Bool.false_eq_true, if_false]
  by_cases hne : (extractUserTurn req.Messages).1 = ""
  · left
    simp only [hne, if_true]
    exact ⟨_, (json_error_outcome c _ _).1, fun hw => Or.inl ((json_error_outcome c _ _).2 hw)⟩
  · simp only [hne, if_false]
    cases (executeQCommand env (now env w).2 (extractUserTurn req.Messages).1
        (extractUserTurn req.Messages).2).1.2 with
    | some e =>
      left
      exact ⟨_, (json_error_outcome c _ _).1, fun hw => Or.inr ((json_error_outcome c _ _).2 hw)⟩
    | none =>
      right
      exact ⟨_, rfl, fun hw => by simp [Ctx.JSON, hw, StatusOK], rfl, rfl, rfl⟩

theorem handleChat_outcome (env : Env) (w : World) (c : Ctx) (req : ChatRequest) :
    (∃ m, (handleChat env w c (Except.ok req)).1.body = c.body ++ [Written.error m] ∧
        (c.written = false → ((handleChat env w c (Except.ok req)).1.status = 400 ∨
          (handleChat env w c (Except.ok req)).1.status = 500))) ∨
      (∃ r : ChatResponse,
        (handleChat env w c (Except.ok req)).1.body = c.body ++ [Written.chat r] ∧
        (c.written = false → (handleChat env w c (Except.ok req)).1.status = 200) ∧
        r.Done = true ∧ r.Model = "amazon-q" ∧ r.Message.Role = "assistant") := by
  simp only [handleChat]
  by_cases hne : (extractUserTurn req.Messages).1 = ""
  · left
    simp only [hne, if_true]
    exact ⟨_, (json_error_outcome c _ _).1, fun hw => Or.inl ((json_error_outcome c _ _).2 hw)⟩
  · simp only [hne, if_false]
    cases (executeQCommand env (now env w).2 (extractUserTurn req.Messages).1
        (extractUserTurn req.Messages).2).1.2 with
    | some e =>
      left
      exact ⟨_, (json_error_outcome c _ _).1, fun hw => Or.inr ((json_error_outcome c _ _).2 hw)⟩
    | none =>
      right
      exact ⟨_, rfl, fun hw => by simp [Ctx.JSON, hw, StatusOK], rfl, rfl, rfl⟩

theorem streamShape_partialFrames (env : Env) (frame : String → Instant → Written)
    (final : Written) (hf : ∀ l t, (frame l t).frame.map Prod.snd = some false)
    (hfin : final.frame.map Prod.snd = some true) (ls : List String) :
    ∀ tick, streamShape (partialFrames env frame tick ls ++ [final, Written.newline]) = true := by
  induction ls with
  | nil => intro tick; simp [partialFrames, streamShape, hfin]
  | cons l ls ih =>
    intro tick
    have hne : (partialFrames env frame (tick + 1) ls ++ [final, Written.newline]).isEmpty =
        false := by
      cases partialFrames env frame (tick + 1) ls <;> rfl
    simp only [partialFrames, List.cons_append, streamShape, hne, hf]
    simpa using ih (tick + 1)

theorem failed_of_error (c : Ctx) (m : String) (hb : c.body = [Written.error m])
    (hs : c.status = 400 ∨ c.status = 500) : isFailed c = true ∧ isEmitted c = false := by
  constructor
  · unfold isFailed
    rw [hb]
    rcases hs with h | h <;> simp [h, Written.isError]
  · unfold isEmitted
    rcases hs with h | h <;> simp [h]

theorem emitted_of_envelope (c : Ctx) (x : Written) (hb : c.body = [x]) (hs : c.status = 200)
    (hd : x.frame.map Prod.snd = some true) : isFailed c = false ∧ isEmitted c = true := by
  have hx : x.isError = false := by
    cases x <;> simp [Written.frame, Written.isError] at hd ⊢
  constructor
  · unfold isFailed
    simp [hs]
  · unfold isEmitted
    rw [hb]
    simp [hs, hx, bufferedShape, hd]

theorem emitted_of_stream (env : Env) (frame : String → Instant → Written) (final : Written)
    (hf : ∀ l t, (frame l t).frame.map Prod.snd = some false)
    (hfin : final.frame.map Prod.snd = some true) (c : Ctx) (ls : List String) (tick : Nat)
    (hb : c.body = partialFrames env frame tick ls ++ [final, Written.newline])
    (hs : c.status = 200) : isFailed c = false ∧ isEmitted c = true := by
  have herr : ∀ x : Written, x.frame.map Prod.snd = some false → x.isError = false := by
    intro x hx
    cases x <;> simp [Written.frame, Written.isError] at hx ⊢
  have hfinal : final.isError = false := by
    cases final <;> simp [Written.frame, Written.isError] at hfin ⊢
  have hall : ∀ x ∈ partialFrames env frame tick ls ++ [final, Written.newline],
      x.isError = false := by
    intro x hx
    rw [List.mem_append] at hx
    rcases hx with hx | hx
    · exact partialFrames_forall env frame (fun y => y.isError = false) rfl
        (fun l t => herr _ (hf l t)) ls tick x hx
    · simp only [List.mem_cons, List.mem_singleton, List.not_mem_nil, or_false] at hx
      rcases hx with rfl | rfl
      · exact hfinal
      · rfl
  constructor
  · unfold isFailed
    simp [hs]
  · unfold isEmitted
    rw [hb, streamShape_partialFrames env frame final hf hfin ls tick]
    simp only [hs, beq_self_eq_true, Bool.true_and, Bool.or_true, Bool.and_true]
    rw [List.all_eq_true]
    intro x hx
    simp [hall x hx]

theorem stageLoop_ticks (env : Env) (images : List String) :
    ∀ (i : Nat) (st : Staging),
      (stageLoop env i images st).world.ticks =
        st.world.ticks + (images.filter (fun s => (DecodeString s).isSome)).length := by
  induction images with
  | nil => intro i st; simp [stageLoop]
  | cons imageData rest ih =>
    intro i st
    simp only [stageLoop]
    rw [ih]
    unfold stageImage
    cases h : DecodeString imageData with
    | none => simp [List.filter_cons, h]
    | some data =>
      simp only [now, List.filter_cons, h, Option.isSome_some, if_true, List.length_cons]
      split
      · simp; omega
      · split <;> simp <;> omega

theorem executeQCommand_ticks (env : Env) (w : World) (prompt : String) (images : List String) :
    (executeQCommand env w prompt images).2.ticks =
      w.ticks + (images.filter (fun s => (DecodeString s).isSome)).length := by
  have h : (stageAttachments env w prompt images).world.ticks =
      w.ticks + (images.filter (fun s => (DecodeString s).isSome)).length := by
    simp [stageAttachments, stageLoop_ticks]
  unfold executeQCommand
  simp only []
  split <;> simp [cleanup, h]

theorem executeQCommand_result (env : Env) (w : World) (prompt : String) (images : List String) :
    (executeQCommand env w prompt images).1 = resultOf (commandResult env w prompt images) := by
  unfold executeQCommand commandResult resultOf
  simp only []
  split <;> rename_i h <;> simp [h]

theorem emittedLines_congr (s1 s2 : String) (h : rawLines s1.data = rawLines s2.data) :
    emittedLines s1 = emittedLines s2 := by
  unfold emittedLines scannedLines
  rw [h]

/-! ## Auxiliary lemmas: headers and the handler chain -/

theorem getHeader_Header_self (c : Ctx) (k v : String) : (c.Header k v).GetHeader k = some v := by
  have h : (c.headers.filter (fun h => h.1 != k)).find? (fun h => h.1 == k) = none := by
    rw [List.find?_eq_none]
    intro x hx
    rw [List.mem_filter] at hx
    simpa using hx.2
  simp [Ctx.GetHeader, Ctx.Header, List.find?_append, h]

theorem find_filter_other (hs : List (String × String)) (k k2 : String) (hk : k2 ≠ k) :
    (hs.filter (fun h => h.1 != k)).find? (fun h => h.1 == k2) =
      hs.find? (fun h => h.1 == k2) := by
  induction hs with
  | nil => rfl
  | cons x xs ih =>
    by_cases hx : x.1 = k
    · have h2 : x.1 ≠ k2 := by rw [hx]; exact fun h => hk h.symm
      rw [List.filter_cons_of_neg (by simp [hx]), List.find?_cons_of_neg _ (by simpa using h2)]
      exact ih
    · rw [List.filter_cons_of_pos (by simpa using hx)]
      by_cases hx2 : x.1 = k2
      · rw [List.find?_cons_of_pos _ (by simpa using hx2),
          List.find?_cons_of_pos _ (by simpa using hx2)]
      · rw [List.find?_cons_of_neg _ (by simpa using hx2),
          List.find?_cons_of_neg _ (by simpa using hx2)]
        exact ih

theorem getHeader_Header_other (c : Ctx) (k v k2 : String) (hk : k2 ≠ k) :
    (c.Header k v).GetHeader k2 = c.GetHeader k2 := by
  have hne : (k == k2) = false := by simpa using fun h => hk h.symm
  simp only [Ctx.GetHeader, Ctx.Header, List.find?_append, find_filter_other _ k k2 hk]
  cases List.find? (fun h => h.1 == k2) c.headers <;> simp [List.find?_cons, hne]

theorem getHeader_JSON (c : Ctx) (code : Nat) (obj : Written) (k : String)
    (hk : k ≠ "Content-Type") : (c.JSON code obj).GetHeader k = c.GetHeader k := by
  have hne : ("Content-Type" == k) = false := by simpa using fun h => hk h.symm
  unfold Ctx.GetHeader Ctx.JSON
  simp only []
  split
  · rfl
  · rw [List.find?_append]
    cases List.find? (fun h => h.1 == k) c.headers <;> simp [List.find?_cons, hne]

theorem getHeader_Write (c : Ctx) (x : Written) (k : String) :
    (c.Write x).GetHeader k = c.GetHeader k := rfl

theorem getHeader_congr (c1 c2 : Ctx) (k : String) (h : c1.headers = c2.headers) :
    c1.GetHeader k = c2.GetHeader k := by
  unfold Ctx.GetHeader
  rw [h]

theorem streamLoop_headers (env : Env) (frame : String → Instant → Written) :
    ∀ (fuel : Nat) (pending : List Char) (c : Ctx) (w : World),
      (streamLoop env frame fuel pending (c, w)).1.headers = c.headers := by
  intro fuel
  induction fuel with
  | zero => intro pending c w; rfl
  | succ n ih =>
    intro pending c w
    simp only [streamLoop]
    cases Scan pending with
    | none => rfl
    | some tr =>
      obtain ⟨line, rest⟩ := tr
      simp only []
      split
      · simp only [now]
        rw [ih]
        rfl
      · exact ih _ _ _

theorem streamHeaders_getHeader (c : Ctx) (k : String) (h1 : k ≠ "Content-Type")
    (h2 : k ≠ "Transfer-Encoding") :
    ((c.Header "Content-Type" "application/x-ndjson").Header "Transfer-Encoding"
      "chunked").GetHeader k = c.GetHeader k := by
  rw [getHeader_Header_other _ _ _ _ h2, getHeader_Header_other _ _ _ _ h1]

theorem handleStreamingGenerate_getHeader (env : Env) (w : World) (c : Ctx)
    (req : GenerateRequest) (k : String) (h1 : k ≠ "Content-Type")
    (h2 : k ≠ "Transfer-Encoding") :
    (handleStreamingGenerate env w c req).1.GetHeader k = c.GetHeader k := by
  cases hp : (env.runStream w.execs.length ("q", ["chat", "--message", req.Prompt])).pipeErr with
  | some e =>
    rw [handleStreamingGenerate_pipe_fails env w c req e hp, getHeader_JSON _ _ _ _ h1,
      streamHeaders_getHeader c k h1 h2]
  | none =>
    cases hs : (env.runStream w.execs.length
        ("q", ["chat", "--message", req.Prompt])).startErr with
    | some e =>
      rw [handleStreamingGenerate_start_fails env w c req e hp hs, getHeader_JSON _ _ _ _ h1,
        streamHeaders_getHeader c k h1 h2]
    | none =>
      rw [← streamHeaders_getHeader c k h1 h2]
      apply getHeader_congr
      simp only [handleStreamingGenerate, hp, hs, now]
      exact streamLoop_headers env _ _ _ _ _

theorem handleChatStream_getHeader (env : Env) (w : World) (c : Ctx) (req : ChatRequest)
    (k : String) (h1 : k ≠ "Content-Type") (h2 : k ≠ "Transfer-Encoding") :
    (handleChatStream env w c req).1.GetHeader k = c.GetHeader k := by
  by_cases hne : (extractUserTurn req.Messages).1 = ""
  · rw [handleChatStream_rejected env w c req hne, getHeader_JSON _ _ _ _ h1,
      streamHeaders_getHeader c k h1 h2]
  · cases hp : (env.runStream w.execs.length
        ("q", ["chat", "--message", (extractUserTurn req.Messages).1])).pipeErr with
    | some e =>
      rw [handleChatStream_pipe_fails env w c req e hne hp, getHeader_JSON _ _ _ _ h1,
        streamHeaders_getHeader c k h1 h2]
    | none =>
      cases hs : (env.runStream w.execs.length
          ("q", ["chat", "--message", (extractUserTurn req.Messages).1])).startErr with
      | some e =>
        rw [handleChatStream_start_fails env w c req e hne hp hs, getHeader_JSON _ _ _ _ h1,
          streamHeaders_getHeader c k h1 h2]
      | none =>
        rw [← streamHeaders_getHeader c k h1 h2]
        apply getHeader_congr
        simp only [handleChatStream, hne, if_false, hp, hs, now]
        exact streamLoop_headers env _ _ _ _ _

theorem handleGenerate_getHeader (env : Env) (w : World) (c : Ctx)
    (bound : Except String GenerateRequest) (k : String) (h1 : k ≠ "Content-Type")
    (h2 : k ≠ "Transfer-Encoding") :
    (handleGenerate env w c bound).1.GetHeader k = c.GetHeader k := by
  cases bound with
  | error e => exact getHeader_JSON _ _ _ _ h1
  | ok req =>
    cases hstr : req.Stream with
    | true =>
      have e : handleGenerate env w c (Except.ok req) = handleStreamingGenerate env w c req := by
        simp [handleGenerate, hstr]
      rw [e]
      exact handleStreamingGenerate_getHeader env w c req k h1 h2
    | false =>
      simp only [handleGenerate, hstr, Bool.false_eq_true, if_false]
      cases (executeQCommand env (now env w).2 req.Prompt req.Images).1.2 <;>
        exact getHeader_JSON _ _ _ _ h1

theorem handleChatWithStreaming_getHeader (env : Env) (w : World) (c : Ctx)
    (bound : Except String ChatRequest) (k : String) (h1 : k ≠ "Content-Type")
    (h2 : k ≠ "Transfer-Encoding") :
    (handleChatWithStreaming env w c bound).1.GetHeader k = c.GetHeader k := by
  cases bound with
  | error e => exact getHeader_JSON _ _ _ _ h1
  | ok req =>
    cases hstr : req.Stream with
    | true =>
      have e : handleChatWithStreaming env w c (Except.ok req) =
          handleChatStream env w c req := by
        simp [handleChatWithStreaming, hstr]
      rw [e]
      exact handleChatStream_getHeader env w c req k h1 h2
    | false =>
      simp only [handleChatWithStreaming, hstr, Bool.false_eq_true, if_false]
      by_cases hne : (extractUserTurn req.Messages).1 = ""
      · simp only [hne, if_true]
        exact getHeader_JSON _ _ _ _ h1
      · simp only [hne, if_false]
        cases (executeQCommand env (now env w).2 (extractUserTurn req.Messages).1
            (extractUserTurn req.Messages).2).1.2 <;>
          exact getHeader_JSON _ _ _ _ h1

theorem chainLoop_done (handlers : List HandlerFunc) (next : Dispatch → Dispatch) (k : Nat)
    (s : Dispatch) (h : Int.ofNat handlers.length ≤ s.index) :
    chainLoop handlers next k s = s := by
  cases k with
  | zero => rfl
  | succ n =>
    have hn : ¬ (0 ≤ s.index ∧ s.index < Int.ofNat handlers.length) := by
      intro hc
      omega
    simp only [chainLoop, hn, if_false]

theorem serve_cors_options (path : String) (rest : List HandlerFunc) (w : World) (c : Ctx)
    (hlen : rest.length < 63) :
    serve "OPTIONS" path (corsMiddleware :: rest) w c =
      ((corsHeaders c).AbortWithStatus 204, w) := by
  have hdone : ∀ (next : Dispatch → Dispatch) (k : Nat),
      chainLoop (corsMiddleware :: rest) next k
        { Method := "OPTIONS", Path := path, resp := (corsHeaders c).AbortWithStatus 204,
          world := w, index := abortIndex + 1 } =
        { Method := "OPTIONS", Path := path, resp := (corsHeaders c).AbortWithStatus 204,
          world := w, index := abortIndex + 1 } := by
    intro next k
    apply chainLoop_done
    simp only [List.length_cons, abortIndex, Int.ofNat_eq_coe]
    omega
  have hin : (0 : Int) ≤ -1 + 1 ∧ (-1 + 1 : Int) < Int.ofNat (corsMiddleware :: rest).length := by
    simp only [List.length_cons, Int.ofNat_eq_coe]
    omega
  have hget : (corsMiddleware :: rest).get? ((-1 + 1 : Int)).toNat = some corsMiddleware := rfl
  unfold serve
  simp only [Next, List.length_cons]
  simp only [chainLoop, hin, and_self, if_true, hget]
  simp only [corsMiddleware, if_true]
  rw [hdone]

theorem serve_cors_other (method path : String) (h : World → Ctx → Ctx × World) (w : World)
    (c : Ctx) (hm : method ≠ "OPTIONS") :
    serve method path [corsMiddleware, routeHandler h] w c = h w (corsHeaders c) := by
  simp [serve, Next, chainLoop, corsMiddleware, routeHandler, hm]

/-! ## Auxiliary lemmas: dependence of the handlers on the request -/

theorem exists_last_user (messages : List Message) (h : ∃ m ∈ messages, m.Role = "user") :
    ∃ (front : List Message) (m : Message) (back : List Message),
      messages = front ++ m :: back ∧ m.Role = "user" ∧ ∀ x ∈ back, x.Role ≠ "user" := by
  induction messages with
  | nil =>
    obtain ⟨m, hm, _⟩ := h
    simp at hm
  | cons a rest ih =>
    by_cases hr : ∃ m ∈ rest, m.Role = "user"
    · obtain ⟨front, m, back, he, hm, hb⟩ := ih hr
      exact ⟨a :: front, m, back, by rw [he]; rfl, hm, hb⟩
    · have hnone : ∀ x ∈ rest, x.Role ≠ "user" := fun x hx hxr => hr ⟨x, hx, hxr⟩
      obtain ⟨m, hm, hmr⟩ := h
      rw [List.mem_cons] at hm
      rcases hm with rfl | hm
      · exact ⟨[], m, rest, rfl, hmr, hnone⟩
      · exact absurd hmr (hnone m hm)

theorem extractUserTurn_empty_iff (messages : List Message) :
    (extractUserTurn messages).1 = "" ↔
      ((∀ m ∈ messages, m.Role ≠ "user") ∨
        ∃ (front : List Message) (m : Message) (back : List Message),
          messages = front ++ m :: back ∧ m.Role = "user" ∧ (∀ x ∈ back, x.Role ≠ "user") ∧
            m.Content = "") := by
  constructor
  · intro h
    by_cases hu : ∃ m ∈ messages, m.Role = "user"
    · right
      obtain ⟨front, m, back, he, hm, hb⟩ := exists_last_user messages hu
      refine ⟨front, m, back, he, hm, hb, ?_⟩
      rw [he, extractUserTurn_last front m back hm hb] at h
      exact h
    · left
      exact fun m hm hmr => hu ⟨m, hm, hmr⟩
  · rintro (h | ⟨front, m, back, he, hm, hb, hc⟩)
    · rw [extractUserTurn_none messages h]
    · rw [he, extractUserTurn_last front m back hm hb]
      exact hc

theorem handleChatWithStreaming_rejected (env : Env) (w : World) (c : Ctx) (req : ChatRequest)
    (hnone : (extractUserTurn req.Messages).1 = "") :
    (handleChatWithStreaming env w c (Except.ok req)).1.body =
        c.body ++ [Written.error "No user message found"] ∧
      (c.written = false → (handleChatWithStreaming env w c (Except.ok req)).1.status = 400) ∧
      (handleChatWithStreaming env w c (Except.ok req)).2 = w := by
  cases hstr : req.Stream with
  | true =>
    have e : handleChatWithStreaming env w c (Except.ok req) = handleChatStream env w c req := by
      simp [handleChatWithStreaming, hstr]
    rw [e, handleChatStream_rejected env w c req hnone]
    refine ⟨rfl, ?_, rfl⟩
    intro hw
    have hw2 : ((c.Header "Content-Type" "application/x-ndjson").Header "Transfer-Encoding"
      "chunked").written = false := hw
    simp [Ctx.JSON, hw2, StatusBadRequest]
  | false =>
    have e : handleChatWithStreaming env w c (Except.ok req) =
        (c.JSON StatusBadRequest (Written.error "No user message found"), w) := by
      simp only [handleChatWithStreaming, hstr, Bool.false_eq_true, if_false, hnone, if_true]
    rw [e]
    refine ⟨rfl, ?_, rfl⟩
    intro hw
    simp [Ctx.JSON, hw, StatusBadRequest]

theorem handleChatWithStreaming_accepted_status (env : Env) (w : World) (c : Ctx)
    (req : ChatRequest) (hne : (extractUserTurn req.Messages).1 ≠ "") (hw : c.written = false)
    (hs : c.status = 200) :
    (handleChatWithStreaming env w c (Except.ok req)).1.status ≠ 400 := by
  cases hstr : req.Stream with
  | true =>
    have e : handleChatWithStreaming env w c (Except.ok req) = handleChatStream env w c req := by
      simp [handleChatWithStreaming, hstr]
    rw [e]
    have hj : ∀ m, (((c.Header "Content-Type" "application/x-ndjson").Header "Transfer-Encoding"
        "chunked").JSON StatusInternalServerError (Written.error m)).status = 500 :=
      fun m => (json_error_outcome _ _ m).2 hw
    cases hp : (env.runStream w.execs.length
        ("q", ["chat", "--message", (extractUserTurn req.Messages).1])).pipeErr with
    | some e2 =>
      rw [handleChatStream_pipe_fails env w c req e2 hne hp, hj]
      decide
    | none =>
      cases hst : (env.runStream w.execs.length
          ("q", ["chat", "--message", (extractUserTurn req.Messages).1])).startErr with
      | some e2 =>
        rw [handleChatStream_start_fails env w c req e2 hne hp hst, hj]
        decide
      | none =>
        rw [(handleChatStream_started env w c req hne hp hst).2.1, hs]
        decide
  | false =>
    simp only [handleChatWithStreaming, hstr, Bool.false_eq_true, if_false, hne]
    cases (executeQCommand env (now env w).2 (extractUserTurn req.Messages).1
        (extractUserTurn req.Messages).2).1.2 with
    | some e2 =>
      rw [(json_error_outcome c _ _).2 hw]
      decide
    | none =>
      simp [Ctx.JSON, hw, StatusOK]

theorem handleStreamingGenerate_congr (env : Env) (w : World) (c : Ctx)
    (req req2 : GenerateRequest) (h : req.Prompt = req2.Prompt) :
    handleStreamingGenerate env w c req = handleStreamingGenerate env w c req2 := by
  unfold handleStreamingGenerate
  rw [h]

theorem handleGenerate_congr (env : Env) (w : World) (c : Ctx) (req req2 : GenerateRequest)
    (hprompt : req.Prompt = req2.Prompt) (hstream : req.Stream = req2.Stream)
    (himages : req.Stream = false → req.Images = req2.Images) :
    handleGenerate env w c (Except.ok req) = handleGenerate env w c (Except.ok req2) := by
  cases hs : req.Stream with
  | true =>
    have hs2 : req2.Stream = true := by rw [← hstream, hs]
    simp only [handleGenerate, hs, hs2, if_true]
    exact handleStreamingGenerate_congr env w c req req2 hprompt
  | false =>
    have hs2 : req2.Stream = false := by rw [← hstream, hs]
    simp only [handleGenerate, hs, hs2, Bool.false_eq_true, if_false, hprompt, himages hs]

theorem handleChatWithStreaming_congr (env : Env) (w : World) (c : Ctx) (req req2 : ChatRequest)
    (hcontent : (extractUserTurn req.Messages).1 = (extractUserTurn req2.Messages).1)
    (hstream : req.Stream = req2.Stream)
    (himages : req.Stream = false →
      (extractUserTurn req.Messages).2 = (extractUserTurn req2.Messages).2) :
    handleChatWithStreaming env w c (Except.ok req) =
      handleChatWithStreaming env w c (Except.ok req2) := by
  cases hs : req.Stream with
  | true =>
    have hs2 : req2.Stream = true := by rw [← hstream, hs]
    simp only [handleChatWithStreaming, hs, hs2, if_true]
    exact handleChatStream_congr env w c req req2 hcontent
  | false =>
    have hs2 : req2.Stream = false := by rw [← hstream, hs]
    simp only [handleChatWithStreaming, hs, hs2, Bool.false_eq_true, if_false, hcontent,
      himages hs]

/-! ## Auxiliary lemmas: payloads of the partial frames -/

theorem rawLines_no_linefeed (cs : List Char) : ∀ l ∈ rawLines cs, '\n' ∉ l := by
  induction cs with
  | nil => intro l hl; simp [rawLines] at hl
  | cons c cs ih =>
    intro l hl
    by_cases hc : c = '\n'
    · simp only [rawLines, hc, if_true, List.mem_cons] at hl
      rcases hl with rfl | hl
      · simp
      · exact ih l hl
    · simp only [rawLines, hc, if_false] at hl
      cases hr : rawLines cs with
      | nil =>
        rw [hr] at hl
        simp only [List.mem_singleton] at hl
        subst hl
        simpa using fun h => hc h.symm
      | cons l0 ls =>
        rw [hr] at hl ih
        simp only [List.mem_cons] at hl
        rcases hl with rfl | hl
        · intro hmem
          rw [List.mem_cons] at hmem
          rcases hmem with h | h
          · exact hc h.symm
          · exact ih l0 (List.mem_cons_self _ _) h
        · exact ih l (List.mem_cons_of_mem _ hl)

theorem dropCR_subset (l : List Char) : ∀ ch ∈ dropCR l, ch ∈ l := by
  intro ch h
  unfold dropCR at h
  split at h
  · exact List.mem_of_mem_dropLast h
  · exact h

theorem textLines_no_linefeed (s : String) : ∀ l ∈ textLines s, '\n' ∉ l.data := by
  intro l hl
  unfold textLines at hl
  rw [List.mem_map] at hl
  obtain ⟨raw, hraw, rfl⟩ := hl
  intro h
  exact rawLines_no_linefeed s.data raw hraw (dropCR_subset raw _ h)

theorem emittedLines_payload (s : String) :
    ∀ l ∈ emittedLines s, l ≠ "" ∧ '\n' ∉ l.data := by
  intro l hl
  unfold emittedLines at hl
  rw [List.mem_filter] at hl
  refine ⟨by simpa using hl.2, ?_⟩
  have h1 := hl.1
  unfold scannedLines at h1
  rw [List.mem_map] at h1
  obtain ⟨raw, hraw, rfl⟩ := h1
  intro h
  exact rawLines_no_linefeed s.data raw ((List.takeWhile_sublist _).subset hraw) (dropCR_subset raw _ h)

theorem handleChatStream_scan_fails (env : Env) (w : World) (c : Ctx) (req : ChatRequest)
    (out : String) (waitErr : Option String) (hne : (extractUserTurn req.Messages).1 ≠ "")
    (hrun : env.runStream w.execs.length
        ("q", ["chat", "--message", (extractUserTurn req.Messages).1]) =
      { pipeErr := none, startErr := none, stdout := out, waitErr := waitErr })
    (hscan : Scan out.data = none) :
    (handleChatStream env w c req).1.body =
      c.body ++ [chatFinal (env.clock w.ticks), Written.newline] := by
  rw [handleChatStream_body env w c req out waitErr hne hrun]
  simp only [streamLoop, hscan]
  simp [Ctx.Header]

theorem scan_longLineThenSpace : Scan longLineThenSpace.data = none := by
  have hne : longLineThenSpace.data ≠ [] := by
    intro h
    have h2 : List.replicate maxScanTokenSize 'a' ++ '\n' :: [' ', '\n'] = [] := h
    exact List.cons_ne_nil _ _ (List.append_eq_nil.mp h2).2
  have ht : longLineThenSpace.data.takeWhile (fun c => c != '\n') =
      List.replicate maxScanTokenSize 'a' := takeWhile_replicate maxScanTokenSize _
  unfold Scan
  rw [if_neg hne]
  simp only []
  rw [ht, byteLen_replicate, if_pos (le_refl _)]

/-! ## Auxiliary lemmas: word count and trimming -/

theorem fieldsChars_spaces_append (sp l : List Char) (h : ∀ ch ∈ sp, isSpace ch = true) :
    fieldsChars (sp ++ l) = fieldsChars l := by
  induction sp with
  | nil => rfl
  | cons x xs ih =>
    have hx : isSpace x = true := h x (List.mem_cons_self _ _)
    rw [List.cons_append]
    simp only [fieldsChars, hx, if_true]
    exact ih (fun ch hch => h ch (List.mem_cons_of_mem _ hch))

theorem wordEnds_append_spaces (l sp : List Char) (h : ∀ ch ∈ sp, isSpace ch = true) :
    wordEnds (l ++ sp) = wordEnds l := by
  cases l with
  | nil =>
    cases sp with
    | nil => rfl
    | cons d ds => exact h d (List.mem_cons_self _ _)
  | cons d ds => rfl

theorem fieldsChars_append_spaces (l sp : List Char) (h : ∀ ch ∈ sp, isSpace ch = true) :
    fieldsChars (l ++ sp) = fieldsChars l := by
  induction l with
  | nil =>
    have e := fieldsChars_spaces_append sp [] h
    rw [List.append_nil] at e
    exact e
  | cons x xs ih =>
    rw [List.cons_append]
    simp only [fieldsChars, wordEnds_append_spaces xs sp h, ih]

theorem fieldsChars_trimChars (cs : List Char) : fieldsChars (trimChars cs) = fieldsChars cs := by
  have hs := trimChars_split cs
  have h1 : ∀ ch ∈ cs.takeWhile isSpace, isSpace ch = true :=
    fun ch hch => List.mem_takeWhile_imp hch
  have h2 : ∀ ch ∈ ((cs.dropWhile isSpace).reverse.takeWhile isSpace).reverse,
      isSpace ch = true := by
    intro ch hch
    rw [List.mem_reverse] at hch
    exact List.mem_takeWhile_imp hch
  have e : fieldsChars cs = fieldsChars (cs.takeWhile isSpace ++ trimChars cs ++
      ((cs.dropWhile isSpace).reverse.takeWhile isSpace).reverse) := congrArg fieldsChars hs
  rw [e, fieldsChars_append_spaces _ _ h2, fieldsChars_spaces_append _ _ h1]

theorem fieldsChars_ne_nil (c : Char) (cs : List Char) (hc : isSpace c = false) :
    fieldsChars (c :: cs) ≠ [] := by
  simp only [fieldsChars, hc, Bool.false_eq_true, if_false]
  split
  · exact List.cons_ne_nil _ _
  · split <;> exact List.cons_ne_nil _ _

theorem fieldsChars_trimChars_eq_nil (cs : List Char) :
    fieldsChars (trimChars cs) = [] ↔ trimChars cs = [] := by
  constructor
  · intro h
    cases ht : trimChars cs with
    | nil => rfl
    | cons x xs =>
      have hx : isSpace x = false := trimChars_head cs x (by rw [ht]; rfl)
      rw [ht] at h
      exact absurd h (fieldsChars_ne_nil x xs hx)
  · intro h
    rw [h]
    rfl

theorem trimChars_eq_nil_iff (cs : List Char) :
    trimChars cs = [] ↔ ∀ ch ∈ cs, isSpace ch = true := by
  constructor
  · intro h ch hch
    have hs := trimChars_split cs
    rw [h, List.append_nil] at hs
    rw [hs, List.mem_append] at hch
    rcases hch with hch | hch
    · exact List.mem_takeWhile_imp hch
    · rw [List.mem_reverse] at hch
      exact List.mem_takeWhile_imp hch
  · intro h
    have hd : cs.dropWhile isSpace = [] := by
      rw [List.dropWhile_eq_nil_iff]
      exact h
    unfold trimChars
    rw [hd]
    rfl

theorem wordCount_trim (out : String) :
    ((Fields (TrimSpace out)).length = 0 ↔ TrimSpace out = "") ∧
    (Fields (TrimSpace out)).length = (Fields out).length ∧
    (TrimSpace out = "" ↔ ∀ ch ∈ out.data, isSpace ch = true) := by
  have hdata : (TrimSpace out).data = trimChars out.data := rfl
  have hemp : TrimSpace out = "" ↔ trimChars out.data = [] := by
    constructor
    · intro h
      rw [← hdata, h]
    · intro h
      unfold TrimSpace
      rw [h]
  refine ⟨?_, ?_, ?_⟩
  · unfold Fields
    rw [List.length_map, List.length_eq_zero, hdata, fieldsChars_trimChars_eq_nil]
    exact hemp.symm
  · unfold Fields
    rw [List.length_map, List.length_map, hdata, fieldsChars_trimChars]
  · rw [hemp]
    exact trimChars_eq_nil_iff out.data

/-! ## Auxiliary lemmas: decimal rendering -/

theorem digitChar_isDigit (d : Nat) : (digitChar d).isDigit = true := by
  by_cases h : d < 10
  · interval_cases d <;> rfl
  · have e : digitChar d = '0' := by
      unfold digitChar
      exact List.getD_eq_default _ _ (by simpa using h)
    rw [e]
    rfl

theorem digitChar_inj (a b : Nat) (ha : a < 10) (hb : b < 10) (h : digitChar a = digitChar b) :
    a = b := by
  interval_cases a <;> interval_cases b <;> first | rfl | exact absurd h (by decide)

theorem natDigits_isDigit : ∀ (fuel n : Nat), ∀ ch ∈ natDigits fuel n, ch.isDigit = true := by
  intro fuel
  induction fuel with
  | zero => intro n ch h; simp [natDigits] at h
  | succ f ih =>
    intro n ch h
    unfold natDigits at h
    split at h
    · rw [List.mem_singleton] at h
      rw [h]
      exact digitChar_isDigit n
    · rw [List.mem_append, List.mem_singleton] at h
      rcases h with h | h
      · exact ih _ ch h
      · rw [h]
        exact digitChar_isDigit _

theorem natDigits_ne_nil (fuel n : Nat) : natDigits (fuel + 1) n ≠ [] := by
  unfold natDigits
  split
  · exact List.cons_ne_nil _ _
  · intro h
    exact List.cons_ne_nil _ _ (List.append_eq_nil.mp h).2

theorem natDigits_inj : ∀ (n f m g : Nat), n < f → m < g → natDigits f n = natDigits g m →
    n = m := by
  intro n
  induction n using Nat.strong_induction_on with
  | _ n ih =>
    intro f m g hf hg h
    obtain ⟨f, rfl⟩ : ∃ k, f = k + 1 := ⟨f - 1, by omega⟩
    obtain ⟨g, rfl⟩ : ∃ k, g = k + 1 := ⟨g - 1, by omega⟩
    unfold natDigits at h
    by_cases hn : n < 10
    · by_cases hm : m < 10
      · rw [if_pos hn, if_pos hm] at h
        exact digitChar_inj n m hn hm (List.singleton_inj.mp h)
      · rw [if_pos hn, if_neg hm] at h
        obtain ⟨g, rfl⟩ : ∃ k, g = k + 1 := ⟨g - 1, by omega⟩
        have h2 : [] ++ [digitChar n] = natDigits (g + 1) (m / 10) ++ [digitChar (m % 10)] := h
        exact absurd (List.append_inj_left' h2 rfl).symm (natDigits_ne_nil g _)
    · by_cases hm : m < 10
      · rw [if_neg hn, if_pos hm] at h
        obtain ⟨f, rfl⟩ : ∃ k, f = k + 1 := ⟨f - 1, by omega⟩
        have h2 : natDigits (f + 1) (n / 10) ++ [digitChar (n % 10)] = [] ++ [digitChar m] := h
        exact absurd (List.append_inj_left' h2 rfl) (natDigits_ne_nil f _)
      · rw [if_neg hn, if_neg hm] at h
        have h1 := List.append_inj_left' h rfl
        have h2 := List.singleton_inj.mp (List.append_inj_right' h rfl)
        have e1 : n / 10 = m / 10 :=
          ih (n / 10) (by omega) f (m / 10) g (by omega) (by omega) h1
        have e2 : n % 10 = m % 10 :=
          digitChar_inj _ _ (Nat.mod_lt _ (by decide)) (Nat.mod_lt _ (by decide)) h2
        omega

theorem formatNat_inj (n m : Nat) (h : formatNat n = formatNat m) : n = m :=
  natDigits_inj n (n + 1) m (m + 1) (Nat.lt_succ_self n) (Nat.lt_succ_self m) h

theorem formatNat_isDigit (n : Nat) : ∀ ch ∈ formatNat n, ch.isDigit = true :=
  natDigits_isDigit (n + 1) n

theorem formatInt_inj (a b : Int) (h : formatInt a = formatInt b) : a = b := by
  have hminus : ∀ n m : Nat, formatNat n ≠ '-' :: formatNat m := by
    intro n m e
    have hd := formatNat_isDigit n '-' (by rw [e]; exact List.mem_cons_self _ _)
    exact absurd hd (by decide)
  cases a with
  | ofNat n =>
    cases b with
    | ofNat m => exact congrArg Int.ofNat (formatNat_inj n m h)
    | negSucc m => exact absurd h (hminus n (m + 1))
  | negSucc n =>
    cases b with
    | ofNat m => exact absurd h.symm (hminus m (n + 1))
    | negSucc m =>
      have e : formatNat (n + 1) = formatNat (m + 1) := List.tail_eq_of_cons_eq h
      have := formatNat_inj _ _ e
      exact congrArg Int.negSucc (by omega)

/-- The characters of a rendered integer: decimal digits and the minus sign. -/
theorem formatInt_chars (a : Int) : ∀ ch ∈ formatInt a, ch.isDigit = true ∨ ch = '-' := by
  intro ch h
  cases a with
  | ofNat n => exact Or.inl (formatNat_isDigit n ch h)
  | negSucc n =>
    have h2 : ch ∈ '-' :: formatNat (n + 1) := h
    rw [List.mem_cons] at h2
    rcases h2 with h2 | h2
    · exact Or.inr h2
    · exact Or.inl (formatNat_isDigit _ ch h2)

theorem append_cons_cancel (x : Char) : ∀ (a a2 b b2 : List Char), x ∉ a → x ∉ a2 →
    a ++ x :: b = a2 ++ x :: b2 → a = a2 ∧ b = b2 := by
  intro a
  induction a with
  | nil =>
    intro a2 b b2 _ h2 h
    cases a2 with
    | nil => exact ⟨rfl, List.tail_eq_of_cons_eq h⟩
    | cons y ys =>
      have e : x = y := List.head_eq_of_cons_eq h
      exact absurd (e ▸ List.mem_cons_self _ _) h2
  | cons z zs ih =>
    intro a2 b b2 h1 h2 h
    cases a2 with
    | nil =>
      have e : z = x := List.head_eq_of_cons_eq h
      exact absurd (e ▸ List.mem_cons_self _ _) h1
    | cons y ys =>
      have e : z = y := List.head_eq_of_cons_eq h
      have t : zs ++ x :: b = ys ++ x :: b2 := List.tail_eq_of_cons_eq h
      obtain ⟨r1, r2⟩ := ih ys b b2 (fun hm => h1 (List.mem_cons_of_mem _ hm))
        (fun hm => h2 (List.mem_cons_of_mem _ hm)) t
      exact ⟨by rw [e, r1], r2⟩

theorem imageName_inj (u1 u2 : Int) (i1 i2 : Nat) (h : imageName u1 i1 = imageName u2 i2) :
    u1 = u2 ∧ i1 = i2 := by
  have hus : ∀ u : Int, '_' ∉ formatInt u := by
    intro u hm
    rcases formatInt_chars u _ hm with hd | hd
    · exact absurd hd (by decide)
    · exact absurd hd (by decide)
  have hd : (imageName u1 i1).data = (imageName u2 i2).data := congrArg String.data h
  have h1 : "q_image_".data ++ (formatInt u1 ++ '_' :: (formatInt (Int.ofNat i1) ++ ".png".data)) =
      "q_image_".data ++ (formatInt u2 ++ '_' :: (formatInt (Int.ofNat i2) ++ ".png".data)) := by
    simpa [imageName, List.append_assoc] using hd
  obtain ⟨e1, e2⟩ := append_cons_cancel '_' _ _ _ _ (hus u1) (hus u2) (List.append_cancel_left h1)
  have e3 := formatInt_inj _ _ (List.append_cancel_right e2)
  exact ⟨formatInt_inj _ _ e1, Int.ofNat.inj e3⟩

/-! ## Auxiliary lemmas: joined paths -/

theorem splitSep_ne_nil (cs : List Char) : splitSep cs ≠ [] := by
  cases cs with
  | nil => simp [splitSep]
  | cons c cs =>
    unfold splitSep
    split
    · exact List.cons_ne_nil _ _
    · split <;> exact List.cons_ne_nil _ _

theorem splitSep_no_sep (name : List Char) (h : '/' ∉ name) : splitSep name = [name] := by
  induction name with
  | nil => rfl
  | cons c cs ih =>
    have hc : c ≠ '/' := fun e => h (e ▸ List.mem_cons_self _ _)
    have hcs : '/' ∉ cs := fun hm => h (List.mem_cons_of_mem _ hm)
    simp only [splitSep, hc, if_false, ih hcs]

theorem splitSep_append (name : List Char) (h : '/' ∉ name) :
    ∀ dir : List Char, splitSep (dir ++ '/' :: name) = splitSep dir ++ [name] := by
  intro dir
  induction dir with
  | nil => simp [splitSep, splitSep_no_sep name h]
  | cons c cs ih =>
    rw [List.cons_append]
    by_cases hc : c = '/'
    · simp only [splitSep, hc, if_true, ih, List.cons_append]
    · simp only [splitSep, hc, if_false, ih]
      cases hs : splitSep cs with
      | nil => exact absurd hs (splitSep_ne_nil cs)
      | cons s ss => rfl

theorem intercalate_snoc (sep : List Char) (xs : List (List Char)) :
    ∃ pre : List Char, ∀ name : List Char, List.intercalate sep (xs ++ [name]) = pre ++ name := by
  induction xs with
  | nil => exact ⟨[], fun name => by simp [List.intercalate]⟩
  | cons x xs ih =>
    obtain ⟨pre, hpre⟩ := ih
    refine ⟨x ++ sep ++ pre, fun name => ?_⟩
    have h := hpre name
    cases xs with
    | nil =>
      simp only [List.nil_append] at h ⊢
      have e : pre = [] := by
        have h0 : List.intercalate sep [name] = name := by simp [List.intercalate]
        rw [h0] at h
        exact (List.append_left_eq_self.mp h.symm)
      rw [e]
      simp [List.intercalate]
    | cons y ys =>
      have e : List.intercalate sep (x :: y :: ys ++ [name]) =
          x ++ sep ++ List.intercalate sep (y :: ys ++ [name]) := by
        simp [List.intercalate, List.intersperse]
      rw [e, h, List.append_assoc, List.append_assoc, List.append_assoc]

/-- A file name that survives `Clean` unchanged as the last element of a path: no separator,
and not one of the names with a meaning of their own. -/
theorem Clean_snoc (dir : List Char) :
    ∃ pre : List Char, ∀ name : List Char, '/' ∉ name → name ≠ [] → name ≠ ['.'] →
      name ≠ ['.', '.'] → Clean (dir ++ '/' :: name) = pre ++ name := by
  have hrooted : ∀ name : List Char,
      (dir ++ '/' :: name).head? = (dir ++ ['/']).head? := by
    intro name
    cases dir <;> rfl
  obtain ⟨pre, hpre⟩ := intercalate_snoc ['/']
    (((splitSep dir).foldl (cleanStep (decide ((dir ++ ['/']).head? = some '/'))) []).reverse)
  refine ⟨if (dir ++ ['/']).head? = some '/' then '/' :: pre else pre, ?_⟩
  intro name hs h0 h1 h2
  have hbody : List.intercalate ['/'] (((splitSep (dir ++ '/' :: name)).foldl
      (cleanStep (decide ((dir ++ ['/']).head? = some '/'))) []).reverse) = pre ++ name := by
    rw [splitSep_append name hs, List.foldl_append]
    simp only [List.foldl_cons, List.foldl_nil]
    have hstep : ∀ st, cleanStep (decide ((dir ++ ['/']).head? = some '/')) st name =
        name :: st := by
      intro st
      simp [cleanStep, h0, h1, h2]
    rw [hstep, List.reverse_cons]
    exact hpre name
  have hne : pre ++ name ≠ [] := fun e => h0 (List.append_eq_nil.mp e).2
  unfold Clean
  simp only [hrooted name, hbody]
  by_cases hr : (dir ++ ['/']).head? = some '/'
  · simp only [hr, decide_True, if_true, List.cons_append]
  · simp only [hr, decide_False, Bool.false_eq_true, if_false, hne]

theorem Join_inj (dir : String) (hdir : dir ≠ "") (n1 n2 : String)
    (h1 : '/' ∉ n1.data ∧ n1.data ≠ [] ∧ n1.data ≠ ['.'] ∧ n1.data ≠ ['.', '.'])
    (h2 : '/' ∉ n2.data ∧ n2.data ≠ [] ∧ n2.data ≠ ['.'] ∧ n2.data ≠ ['.', '.'])
    (h : Join dir n1 = Join dir n2) : n1 = n2 := by
  obtain ⟨pre, hpre⟩ := Clean_snoc dir.data
  unfold Join at h
  rw [if_pos hdir, if_pos hdir] at h
  have hd : Clean (dir.data ++ '/' :: n1.data) = Clean (dir.data ++ '/' :: n2.data) :=
    congrArg String.data h
  rw [hpre _ h1.1 h1.2.1 h1.2.2.1 h1.2.2.2, hpre _ h2.1 h2.2.1 h2.2.2.1 h2.2.2.2] at hd
  exact String.ext (List.append_cancel_left hd)

theorem imageName_plain (u : Int) (i : Nat) :
    '/' ∉ (imageName u i).data ∧ (imageName u i).data ≠ [] ∧ (imageName u i).data ≠ ['.'] ∧
      (imageName u i).data ≠ ['.', '.'] := by
  have hq : (imageName u i).data = 'q' :: ("_image_".data ++ formatInt u ++ "_".data ++
      formatInt (Int.ofNat i) ++ ".png".data) := rfl
  refine ⟨?_, ?_, ?_, ?_⟩
  · intro hm
    have hfmt : ∀ a : Int, '/' ∉ formatInt a := by
      intro a ha
      rcases formatInt_chars a _ ha with hd | hd
      · exact absurd hd (by decide)
      · exact absurd hd (by decide)
    have hm2 : '/' ∈ "q_image_".data ++ formatInt u ++ "_".data ++ formatInt (Int.ofNat i) ++
        ".png".data := hm
    simp only [List.mem_append] at hm2
    rcases hm2 with (((hm2 | hm2) | hm2) | hm2) | hm2
    · exact absurd hm2 (by decide)
    · exact hfmt _ hm2
    · exact absurd hm2 (by decide)
    · exact hfmt _ hm2
    · exact absurd hm2 (by decide)
  · rw [hq]
    exact List.cons_ne_nil _ _
  · rw [hq]
    intro e
    exact absurd (List.head_eq_of_cons_eq e) (by decide)
  · rw [hq]
    intro e
    exact absurd (List.head_eq_of_cons_eq e) (by decide)

/-! ## Auxiliary lemmas: the staged paths are distinct -/

theorem TempDir_ne_empty (env : Env) : TempDir env ≠ "" := by
  unfold TempDir
  split
  · decide
  · assumption

theorem stagedPath_inj (env : Env) (u1 u2 : Int) (i1 i2 : Nat)
    (h : Join (TempDir env) (imageName u1 i1) = Join (TempDir env) (imageName u2 i2)) :
    u1 = u2 ∧ i1 = i2 :=
  imageName_inj u1 u2 i1 i2
    (Join_inj (TempDir env) (TempDir_ne_empty env) _ _ (imageName_plain u1 i1)
      (imageName_plain u2 i2) h)

theorem stagedPaths_mem (env : Env) (images : List String) :
    ∀ (tick i : Nat), ∀ p ∈ stagedPaths env tick i images,
      ∃ j : Nat, ∃ s : String, images.get? j = some s ∧ (DecodeString s).isSome = true ∧
        p = Join (TempDir env) (imageName (env.clock (tick +
          ((images.take j).filter (fun s => (DecodeString s).isSome)).length)).unix (i + j)) := by
  induction images with
  | nil => intro tick i p hp; simp [stagedPaths] at hp
  | cons x rest ih =>
    intro tick i p hp
    simp only [stagedPaths] at hp
    cases hx : DecodeString x with
    | none =>
      rw [hx] at hp
      obtain ⟨j, s, hj, hs, hpj⟩ := ih tick (i + 1) p hp
      refine ⟨j + 1, s, hj, hs, ?_⟩
      have e : i + 1 + j = i + (j + 1) := by omega
      rw [hpj, e]
      simp [List.take_succ_cons, List.filter_cons, hx]
    | some data =>
      rw [hx] at hp
      simp only [List.mem_append] at hp
      rcases hp with hp | hp
      · refine ⟨0, x, rfl, by rw [hx]; rfl, ?_⟩
        split at hp
        · rw [List.mem_singleton] at hp
          rw [hp]
          rfl
        · simp at hp
      · obtain ⟨j, s, hj, hs, hpj⟩ := ih (tick + 1) (i + 1) p hp
        refine ⟨j + 1, s, hj, hs, ?_⟩
        have e : i + 1 + j = i + (j + 1) := by omega
        have e2 : tick + 1 + ((rest.take j).filter (fun s => (DecodeString s).isSome)).length =
            tick + (((rest.take j).filter (fun s => (DecodeString s).isSome)).length + 1) := by
          omega
        rw [hpj, e, e2]
        simp [List.take_succ_cons, List.filter_cons, hx]

theorem stagedPaths_nodup (env : Env) (images : List String) :
    ∀ (tick i : Nat), (stagedPaths env tick i images).Nodup := by
  induction images with
  | nil => intro tick i; simp [stagedPaths]
  | cons x rest ih =>
    intro tick i
    simp only [stagedPaths]
    cases hx : DecodeString x with
    | none => exact ih tick (i + 1)
    | some data =>
      simp only []
      split
      · rw [List.singleton_append, List.nodup_cons]
        refine ⟨?_, ih (tick + 1) (i + 1)⟩
        intro hm
        obtain ⟨j, s, _, _, hpj⟩ := stagedPaths_mem env rest (tick + 1) (i + 1) _ hm
        have := (stagedPath_inj env _ _ _ _ hpj).2
        omega
      · rw [List.nil_append]
        exact ih (tick + 1) (i + 1)

/-! ## Auxiliary lemmas: return of the streamed handlers -/

theorem unreadBytes_fit : ∀ (fuel : Nat) (pending : List Char), pending.length < fuel →
    (∀ l ∈ rawLines pending, byteLen l < maxScanTokenSize) → unreadBytes fuel pending = 0 := by
  intro fuel
  induction fuel with
  | zero => intro pending h; exact absurd h (Nat.not_lt_zero _)
  | succ n ih =>
    intro pending hlen hfit
    by_cases hp : pending = []
    · subst hp
      rfl
    · have hstep := rawLines_step pending hp
      have hline : byteLen (pending.takeWhile (fun c => c != '\n')) < maxScanTokenSize :=
        hfit _ (by rw [hstep]; exact List.mem_cons_self _ _)
      have hscan : Scan pending = some (dropCR (pending.takeWhile (fun c => c != '\n')),
          (pending.dropWhile (fun c => c != '\n')).drop 1) := by
        unfold Scan
        rw [if_neg hp]
        simp only []
        rw [if_neg (Nat.not_le.mpr hline)]
      simp only [unreadBytes, hscan]
      apply ih
      · have := scan_rest_length pending hp
        omega
      · intro l hl
        exact hfit l (by rw [hstep]; exact List.mem_cons_of_mem _ hl)

theorem Wait_of_fit (env : Env) (p : StreamProc) (hfit : fitsScanner p.stdout) :
    Wait env p = some p.waitErr := by
  unfold Wait
  rw [unreadBytes_fit _ _ (Nat.lt_succ_self _) hfit, if_pos (Nat.zero_le _)]

theorem handleStreamingGenerate_returns_of_fit (env : Env) (w : World) (req : GenerateRequest)
    (hfit : fitsScanner
      (env.runStream w.execs.length ("q", ["chat", "--message", req.Prompt])).stdout) :
    handleStreamingGenerate_returns env w req = true := by
  unfold handleStreamingGenerate_returns
  simp only []
  split
  · rfl
  · split
    · rfl
    · rw [Wait_of_fit env _ hfit]
      rfl

theorem handleChatStream_returns_of_fit (env : Env) (w : World) (req : ChatRequest)
    (hfit : fitsScanner (env.runStream w.execs.length
      ("q", ["chat", "--message", (extractUserTurn req.Messages).1])).stdout) :
    handleChatStream_returns env w req = true := by
  unfold handleChatStream_returns
  simp only []
  split
  · rfl
  · split
    · rfl
    · split
      · rfl
      · rw [Wait_of_fit env _ hfit]
        rfl

theorem byteLen_append (a b : List Char) : byteLen (a ++ b) = byteLen a + byteLen b := by
  simp [byteLen, List.map_append, List.sum_append]

theorem scan_hangingOutput : Scan hangingOutput.data = none := by
  have hne : hangingOutput.data ≠ [] := by
    intro h
    have h2 : List.replicate maxScanTokenSize 'a' ++
        '\n' :: List.replicate maxScanTokenSize 'a' = [] := h
    exact List.cons_ne_nil _ _ (List.append_eq_nil.mp h2).2
  have ht : hangingOutput.data.takeWhile (fun c => c != '\n') =
      List.replicate maxScanTokenSize 'a' := takeWhile_replicate maxScanTokenSize _
  unfold Scan
  rw [if_neg hne]
  simp only []
  rw [ht, byteLen_replicate, if_pos (le_refl _)]

theorem byteLen_cons (c : Char) (cs : List Char) :
    byteLen (c :: cs) = c.utf8Size + byteLen cs := by
  simp [byteLen]

theorem unreadBytes_stop (fuel : Nat) (pending : List Char) (h : Scan pending = none) :
    unreadBytes (fuel + 1) pending = byteLen pending - maxScanTokenSize := by
  simp only [unreadBytes, h]

theorem Wait_hangingOutput (waitErr : Option String) :
    Wait (printingEnv hangingOutput)
      { pipeErr := none, startErr := none, stdout := hangingOutput, waitErr := waitErr } =
      none := by
  have hb : byteLen hangingOutput.data = maxScanTokenSize + (1 + maxScanTokenSize) := by
    have e : hangingOutput.data = List.replicate maxScanTokenSize 'a' ++
        ('\n' :: List.replicate maxScanTokenSize 'a') := rfl
    have e1 : ('\n' : Char).utf8Size = 1 := by decide
    rw [e, byteLen_append, byteLen_cons, e1, byteLen_replicate]
  have hu : unreadBytes (hangingOutput.data.length + 1) hangingOutput.data =
      1 + maxScanTokenSize := by
    rw [unreadBytes_stop _ _ scan_hangingOutput, hb, Nat.add_sub_cancel_left]
  have hc : (printingEnv hangingOutput).pipeCapacity = 65536 := rfl
  have hgt : ¬ (1 + maxScanTokenSize ≤ 65536) := by decide
  unfold Wait
  simp only []
  rw [hu, hc, if_neg hgt]

theorem handleGenerate_stream (env : Env) (w : World) (c : Ctx) (req : GenerateRequest)
    (h : req.Stream = true) :
    handleGenerate env w c (Except.ok req) = handleStreamingGenerate env w c req := by
  simp [handleGenerate, h]

theorem handleGenerate_returns_stream (env : Env) (w : World) (req : GenerateRequest)
    (h : req.Stream = true) :
    handleGenerate_returns env w (Except.ok req) = handleStreamingGenerate_returns env w req := by
  simp [handleGenerate_returns, h]

theorem handleChatWithStreaming_returns_stream (env : Env) (w : World) (req : ChatRequest)
    (h : req.Stream = true) :
    handleChatWithStreaming_returns env w (Except.ok req) =
      handleChatStream_returns env w req := by
  simp [handleChatWithStreaming_returns, h]

theorem handleStreamingGenerate_returns_started (env : Env) (w : World)
    (req : GenerateRequest)
    (hp : (env.runStream w.execs.length ("q", ["chat", "--message", req.Prompt])).pipeErr = none)
    (hs : (env.runStream w.execs.length ("q", ["chat", "--message", req.Prompt])).startErr =
      none) :
    handleStreamingGenerate_returns env w req =
      (Wait env (env.runStream w.execs.length ("q", ["chat", "--message", req.Prompt]))).isSome := by
  unfold handleStreamingGenerate_returns
  simp only [hp, hs]

theorem handleChatStream_returns_started (env : Env) (w : World) (req : ChatRequest)
    (hne : (extractUserTurn req.Messages).1 ≠ "")
    (hp : (env.runStream w.execs.length
      ("q", ["chat", "--message", (extractUserTurn req.Messages).1])).pipeErr = none)
    (hs : (env.runStream w.execs.length
      ("q", ["chat", "--message", (extractUserTurn req.Messages).1])).startErr = none) :
    handleChatStream_returns env w req =
      (Wait env (env.runStream w.execs.length
        ("q", ["chat", "--message", (extractUserTurn req.Messages).1]))).isSome := by
  unfold handleChatStream_returns
  simp only [hne, if_false, hp, hs]

/-- What a request has written, from a fresh response context: either one error envelope with
status 400 or 500, or status 200 and success output only. -/
theorem outcome_of_written (env : Env) (w : World) (c : Ctx) (hbody : c.body = [])
    (hw : c.written = false) (hs : c.status = 200) :
    (∀ bound : Except String GenerateRequest,
      (isFailed (handleGenerate env w c bound).1 = true ∧
          isEmitted (handleGenerate env w c bound).1 = false) ∨
        (isFailed (handleGenerate env w c bound).1 = false ∧
          isEmitted (handleGenerate env w c bound).1 = true)) ∧
    (∀ bound : Except String ChatRequest,
      (isFailed (handleChatWithStreaming env w c bound).1 = true ∧
          isEmitted (handleChatWithStreaming env w c bound).1 = false) ∨
        (isFailed (handleChatWithStreaming env w c bound).1 = false ∧
          isEmitted (handleChatWithStreaming env w c bound).1 = true)) ∧
    (∀ bound : Except String ChatRequest,
      (isFailed (handleChat env w c bound).1 = true ∧
          isEmitted (handleChat env w c bound).1 = false) ∨
        (isFailed (handleChat env w c bound).1 = false ∧
          isEmitted (handleChat env w c bound).1 = true)) := by
  have hgf : ∀ l t, (generateFrame l t).frame.map Prod.snd = some false := fun _ _ => rfl
  have hcf : ∀ l t, (chatFrame l t).frame.map Prod.snd = some false := fun _ _ => rfl
  refine ⟨?_, ?_, ?_⟩
  · intro bound
    cases bound with
    | error e =>
      left
      have h := json_error_outcome c StatusBadRequest e
      exact failed_of_error _ e (by rw [show (handleGenerate env w c (Except.error e)).1 =
        c.JSON StatusBadRequest (Written.error e) from rfl, h.1, hbody]; rfl)
        (Or.inl (by rw [show (handleGenerate env w c (Except.error e)).1 =
          c.JSON StatusBadRequest (Written.error e) from rfl, h.2 hw]; rfl))
    | ok req =>
      cases hstr : req.Stream with
      | true =>
        have e : handleGenerate env w c (Except.ok req) = handleStreamingGenerate env w c req := by
          simp [handleGenerate, hstr]
        rw [e]
        rcases handleStreamingGenerate_outcome env w c req with ⟨m, hb, hst⟩ |
          ⟨ls, t, tick, hb, hst⟩
        · left
          exact failed_of_error _ m (by rw [hb, hbody]; rfl) (Or.inr (hst hw))
        · right
          exact emitted_of_stream env generateFrame (generateFinal t) hgf rfl _ ls tick
            (by rw [hb, hbody]; rfl) (by rw [hst, hs])
      | false =>
        rcases handleGenerate_buffered_outcome env w c req hstr with ⟨m, hb, hst⟩ |
          ⟨r, hb, hst, hd, _⟩
        · left
          exact failed_of_error _ m (by rw [hb, hbody]; rfl) (Or.inr (hst hw))
        · right
          exact emitted_of_envelope _ (Written.generate r) (by rw [hb, hbody]; rfl) (hst hw)
            (by simp [Written.frame, hd])
  · intro bound
    cases bound with
    | error e =>
      left
      have h := json_error_outcome c StatusBadRequest e
      exact failed_of_error _ e (by rw [show (handleChatWithStreaming env w c (Except.error e)).1 =
        c.JSON StatusBadRequest (Written.error e) from rfl, h.1, hbody]; rfl)
        (Or.inl (by rw [show (handleChatWithStreaming env w c (Except.error e)).1 =
          c.JSON StatusBadRequest (Written.error e) from rfl, h.2 hw]; rfl))
    | ok req =>
      cases hstr : req.Stream with
      | true =>
        have e : handleChatWithStreaming env w c (Except.ok req) =
            handleChatStream env w c req := by
          simp [handleChatWithStreaming, hstr]
        rw [e]
        rcases handleChatStream_outcome env w c req with ⟨m, hb, hst⟩ |
          ⟨ls, t, tick, hb, hst⟩
        · left
          exact failed_of_error _ m (by rw [hb, hbody]; rfl) (hst hw)
        · right
          exact emitted_of_stream env chatFrame (chatFinal t) hcf rfl _ ls tick
            (by rw [hb, hbody]; rfl) (by rw [hst, hs])
      | false =>
        rcases handleChatWithStreaming_buffered_outcome env w c req hstr with ⟨m, hb, hst⟩ |
          ⟨r, hb, hst, hd, _⟩
        · left
          exact failed_of_error _ m (by rw [hb, hbody]; rfl) (hst hw)
        · right
          exact emitted_of_envelope _ (Written.chat r) (by rw [hb, hbody]; rfl) (hst hw)
            (by simp [Written.frame, hd])
  · intro bound
    cases bound with
    | error e =>
      left
      have h := json_error_outcome c StatusBadRequest e
      exact failed_of_error _ e (by rw [show (handleChat env w c (Except.error e)).1 =
        c.JSON StatusBadRequest (Written.error e) from rfl, h.1, hbody]; rfl)
        (Or.inl (by rw [show (handleChat env w c (Except.error e)).1 =
          c.JSON StatusBadRequest (Written.error e) from rfl, h.2 hw]; rfl))
    | ok req =>
      rcases handleChat_outcome env w c req with ⟨m, hb, hst⟩ | ⟨r, hb, hst, hd, _⟩
      · left
        exact failed_of_error _ m (by rw [hb, hbody]; rfl) (hst hw)
      · right
        exact emitted_of_envelope _ (Written.chat r) (by rw [hb, hbody]; rfl) (hst hw)
          (by simp [Written.frame, hd])

/-! ## Claims -/

/-- C1, counterexample. A generate request with `stream=false` against a process that
prints `Hi there` followed by a line feed and exits with status 0: the envelope written has
response `Hi there`, which is not the captured process output. -/
theorem handleGenerate_response_differs_from_output :
    commandResult (printingEnv "Hi there\n") (now (printingEnv "Hi there\n") emptyWorld).2
        "Hello world" [] = { output := "Hi there\n", err := none } ∧
    ∃ r : GenerateResponse,
      (handleGenerate (printingEnv "Hi there\n") emptyWorld {}
        (Except.ok { Prompt := "Hello world", Stream := false })).1.body = [Written.generate r] ∧
      r.Response = "Hi there" ∧
      r.Response ≠
        (commandResult (printingEnv "Hi there\n") (now (printingEnv "Hi there\n") emptyWorld).2
          "Hello world" []).output := by
  refine ⟨rfl, _, rfl, rfl, ?_⟩
  decide

/-- C1, amended. For every generate request with `stream=false` whose process invocation
succeeds, `handleGenerate` responds with status 200 and one envelope that has `done=true`,
`response` equal to the captured process output with leading and trailing white space
removed, and `eval_count` equal to the number of white-space separated words of
`response`. -/
theorem handleGenerate_buffered_success (env : Env) (w : World) (c : Ctx)
    (req : GenerateRequest) (hstream : req.Stream = false)
    (hok : (commandResult env (now env w).2 req.Prompt req.Images).err = none) :
    ∃ r : GenerateResponse,
      (handleGenerate env w c (Except.ok req)).1 = c.JSON StatusOK (Written.generate r) ∧
      (c.written = false → (handleGenerate env w c (Except.ok req)).1.status = 200) ∧
      (handleGenerate env w c (Except.ok req)).1.body = c.body ++ [Written.generate r] ∧
      r.Done = true ∧
      r.Response = TrimSpace (commandResult env (now env w).2 req.Prompt req.Images).output ∧
      r.EvalCount = Int.ofNat (Fields r.Response).length := by
  have h := executeQCommand_ok env (now env w).2 req.Prompt req.Images hok
  simp only [handleGenerate, hstream, Bool.false_eq_true, if_false, h]
  refine ⟨_, rfl, ?_, rfl, rfl, rfl, rfl⟩
  intro hc
  simp [Ctx.JSON, hc, StatusOK]

/-- C1, witness: the process prints `Hi there`; the envelope has response `Hi there` and
`eval_count` 2. -/
theorem handleGenerate_buffered_success_witness :
    ∃ r : GenerateResponse,
      (handleGenerate (printingEnv "Hi there") emptyWorld {}
        (Except.ok { Prompt := "Hello world" })).1.body = [Written.generate r] ∧
      (handleGenerate (printingEnv "Hi there") emptyWorld {}
        (Except.ok { Prompt := "Hello world" })).1.status = 200 ∧
      r.Done = true ∧ r.Response = "Hi there" ∧ r.EvalCount = 2 := by
  obtain ⟨r, _, h2, h3, h4, h5, h6⟩ :=
    handleGenerate_buffered_success (printingEnv "Hi there") emptyWorld {}
      { Prompt := "Hello world" } rfl rfl
  refine ⟨r, by simpa using h3, h2 rfl, h4, ?_, ?_⟩
  · rw [h5]; decide
  · rw [h6, h5]; decide

/-- C2. For every chat request, streaming or not, whose message list contains no message
with role "user" (the empty list included), `handleChatWithStreaming` responds with status
400 and the error envelope `No user message found`, and leaves the world as it was: the
external process is never invoked. -/
theorem handleChatWithStreaming_no_user_message (env : Env) (w : World) (c : Ctx)
    (req : ChatRequest) (hfresh : c.written = false)
    (hnone : ∀ m ∈ req.Messages, m.Role ≠ "user") :
    (handleChatWithStreaming env w c (Except.ok req)).1.status = 400 ∧
    (handleChatWithStreaming env w c (Except.ok req)).1.body =
      c.body ++ [Written.error "No user message found"] ∧
    (handleChatWithStreaming env w c (Except.ok req)).2 = w ∧
    (handleChatWithStreaming env w c (Except.ok req)).2.execs = w.execs := by
  have h := extractUserTurn_none req.Messages hnone
  cases hs : req.Stream <;>
    simp [handleChatWithStreaming, handleChatStream, hs, h, Ctx.JSON, Ctx.Header, hfresh,
      StatusBadRequest]

/-- C2, witness: a streamed and a buffered chat request holding only a system message. -/
theorem handleChatWithStreaming_no_user_message_witness :
    (handleChatWithStreaming (printingEnv "unused") emptyWorld {}
      (Except.ok { Messages := [{ Role := "system", Content := "You are a helpful assistant" }],
                   Stream := true })).1.status = 400 ∧
    (handleChatWithStreaming (printingEnv "unused") emptyWorld {}
      (Except.ok { Messages := [{ Role := "system", Content := "You are a helpful assistant" }],
                   Stream := false })).1.body = [Written.error "No user message found"] ∧
    (handleChatWithStreaming (printingEnv "unused") emptyWorld {}
      (Except.ok { Messages := [{ Role := "system", Content := "You are a helpful assistant" }],
                   Stream := false })).2.execs = [] :=
  ⟨(handleChatWithStreaming_no_user_message (printingEnv "unused") emptyWorld {}
      { Messages := [{ Role := "system", Content := "You are a helpful assistant" }],
        Stream := true } rfl (by decide)).1,
   (handleChatWithStreaming_no_user_message (printingEnv "unused") emptyWorld {}
      { Messages := [{ Role := "system", Content := "You are a helpful assistant" }],
        Stream := false } rfl (by decide)).2.1,
   (handleChatWithStreaming_no_user_message (printingEnv "unused") emptyWorld {}
      { Messages := [{ Role := "system", Content := "You are a helpful assistant" }],
        Stream := false } rfl (by decide)).2.2.2⟩

/-- C3, counterexample. A non-streaming chat request whose last message with role "user"
has empty content (and carries an image), after an earlier user message with content: the
handler answers 400 and runs no process, so no instruction is passed and nothing is
staged. -/
theorem handleChatWithStreaming_last_user_empty :
    (∃ m ∈ [({ Role := "user", Content := "first" } : Message),
            { Role := "user", Content := "", Images := ["aGk="] }], m.Role = "user") ∧
    (handleChatWithStreaming (printingEnv "Hi there") emptyWorld {}
      (Except.ok { Messages := [{ Role := "user", Content := "first" },
                                { Role := "user", Content := "", Images := ["aGk="] }],
                   Stream := false })).1 =
      Ctx.JSON {} 400 (Written.error "No user message found") ∧
    (handleChatWithStreaming (printingEnv "Hi there") emptyWorld {}
      (Except.ok { Messages := [{ Role := "user", Content := "first" },
                                { Role := "user", Content := "", Images := ["aGk="] }],
                   Stream := false })).2.execs = [] := by
  refine ⟨⟨_, List.mem_cons_self _ _, rfl⟩, ?_, ?_⟩
  · rfl
  · rfl

/-- C3, amended. For every non-streaming chat request whose message list contains at least
one message with role "user" and whose last such message has non-empty content, the turn
extraction of `handleChatWithStreaming` selects that last message: the instruction passed to
the process is its content and the attachments staged are its images (the handler runs
exactly the invocation `executeQCommand(content, images)` of that message). -/
theorem handleChatWithStreaming_selects_last_user (env : Env) (w : World) (c : Ctx)
    (req : ChatRequest) (front : List Message) (m : Message) (back : List Message)
    (hstream : req.Stream = false) (hmsgs : req.Messages = front ++ m :: back)
    (hm : m.Role = "user") (hback : ∀ x ∈ back, x.Role ≠ "user") (hne : m.Content ≠ "") :
    extractUserTurn req.Messages = (m.Content, m.Images) ∧
    (handleChatWithStreaming env w c (Except.ok req)).2.execs =
      w.execs ++ [("q", ["chat", "--message", m.Content] ++
        fileArgs (stagedPaths env (w.ticks + 1) 0 m.Images))] ∧
    (handleChatWithStreaming env w c (Except.ok req)).2.execs =
      (executeQCommand env (now env w).2 m.Content m.Images).2.execs ∧
    (handleChatWithStreaming env w c (Except.ok req)).2.fs =
      (executeQCommand env (now env w).2 m.Content m.Images).2.fs := by
  have hx : extractUserTurn req.Messages = (m.Content, m.Images) := by
    rw [hmsgs]; exact extractUserTurn_last front m back hm hback
  have hargs : (stageAttachments env (now env w).2 m.Content m.Images).args =
      ["chat", "--message", m.Content] ++ fileArgs (stagedPaths env (w.ticks + 1) 0 m.Images) := by
    simp [stageAttachments, stageLoop_args, now]
  have hex : (handleChatWithStreaming env w c (Except.ok req)).2.execs =
        (executeQCommand env (now env w).2 m.Content m.Images).2.execs ∧
      (handleChatWithStreaming env w c (Except.ok req)).2.fs =
        (executeQCommand env (now env w).2 m.Content m.Images).2.fs := by
    simp only [handleChatWithStreaming, hstream, Bool.false_eq_true, if_false, hx, hne]
    cases (executeQCommand env (now env w).2 m.Content m.Images).1.2 <;> simp [now]
  refine ⟨hx, ?_, hex.1, hex.2⟩
  rw [hex.1, executeQCommand_execs, hargs]
  simp [now]

/-- C3, witness: of two user messages around an assistant message the later one is
selected, with its image. -/
theorem handleChatWithStreaming_selects_last_user_witness :
    (handleChatWithStreaming (printingEnv "Hi there") emptyWorld {}
      (Except.ok { Messages := [{ Role := "user", Content := "first" },
                                { Role := "user", Content := "second", Images := ["aGk="] },
                                { Role := "assistant", Content := "reply" }],
                   Stream := false })).2.execs =
      [("q", ["chat", "--message", "second", "--file", "/tmp/q_image_1700000000_0.png"])] := by
  have h := (handleChatWithStreaming_selects_last_user (printingEnv "Hi there") emptyWorld {}
      { Messages := [{ Role := "user", Content := "first" },
                     { Role := "user", Content := "second", Images := ["aGk="] },
                     { Role := "assistant", Content := "reply" }],
        Stream := false }
      [{ Role := "user", Content := "first" }]
      { Role := "user", Content := "second", Images := ["aGk="] }
      [{ Role := "assistant", Content := "reply" }] rfl rfl rfl (by decide) (by decide)).2.1
  rw [h]
  decide

/-- C4. For every prompt and attachment list, the command `executeQCommand` runs is `q` with
the argument vector `["chat", "--message", prompt]` followed by one pair `["--file", path]`
per staged attachment (those that decode and are written), in input order; the prompt is the
single argument at index 2 and the vector has length `3 + 2k` for `k` staged attachments. -/
theorem executeQCommand_argument_vector (env : Env) (w : World) (prompt : String)
    (images : List String) :
    (executeQCommand env w prompt images).2.execs =
      w.execs ++ [("q", ["chat", "--message", prompt] ++
        fileArgs (stageAttachments env w prompt images).tempFiles)] ∧
    (stageAttachments env w prompt images).tempFiles = stagedPaths env w.ticks 0 images ∧
    (["chat", "--message", prompt] ++
        fileArgs (stageAttachments env w prompt images).tempFiles).get? 2 = some prompt ∧
    (["chat", "--message", prompt] ++
        fileArgs (stageAttachments env w prompt images).tempFiles).length =
      3 + 2 * (stageAttachments env w prompt images).tempFiles.length := by
  have ht : (stageAttachments env w prompt images).tempFiles = stagedPaths env w.ticks 0 images := by
    simp [stageAttachments, stageLoop_tempFiles]
  have ha : (stageAttachments env w prompt images).args =
      ["chat", "--message", prompt] ++ fileArgs (stagedPaths env w.ticks 0 images) := by
    simp [stageAttachments, stageLoop_args]
  have hlen : ∀ ps : List String, (fileArgs ps).length = 2 * ps.length := by
    intro ps
    induction ps with
    | nil => rfl
    | cons p ps ih =>
      simp only [fileArgs, List.flatMap_cons, List.length_append, List.length_cons,
        List.length_nil] at ih ⊢
      omega
  refine ⟨?_, ht, rfl, ?_⟩
  · rw [executeQCommand_execs, ha, ht]
  · rw [List.length_append, hlen]
    rfl

/-- C5. An attachment that is not valid standard base64 is skipped: its iteration changes
nothing (no file is created, no argument is added), the attachments before and after it
are staged as usual and passed with the instruction, the number of `--file` pairs is the
number of attachments that decode and are written (all that decode, when every write
succeeds), and a call with a single undecodable attachment behaves as a call with none:
the process is run on `["chat", "--message", prompt]` alone. -/
theorem executeQCommand_skips_undecodable (env : Env) (w : World) (prompt bad : String)
    (hbad : DecodeString bad = none) :
    (∀ (st : Staging) (i : Nat), stageImage env st i bad = st) ∧
    (∀ front back : List String,
      (executeQCommand env w prompt (front ++ bad :: back)).2.execs =
        w.execs ++ [("q", ["chat", "--message", prompt] ++
          fileArgs (stagedPaths env w.ticks 0 front ++
            stagedPaths env (w.ticks + (front.filter (fun s => (DecodeString s).isSome)).length)
              (front.length + 1) back))]) ∧
    (∀ images : List String,
      (stageAttachments env w prompt images).args.length =
        3 + 2 * (stagedPaths env w.ticks 0 images).length) ∧
    ((∀ p, env.writable p = true) → ∀ images : List String,
      (stageAttachments env w prompt images).tempFiles.length =
        (images.filter (fun s => (DecodeString s).isSome)).length) ∧
    executeQCommand env w prompt [bad] = executeQCommand env w prompt [] ∧
    (executeQCommand env w prompt [bad]).2.execs = w.execs ++ [("q", ["chat", "--message", prompt])] := by
  have hstep : ∀ (st : Staging) (i : Nat), stageImage env st i bad = st := by
    intro st i
    simp [stageImage, hbad]
  have hone : stageAttachments env w prompt [bad] = stageAttachments env w prompt [] := by
    simp [stageAttachments, stageLoop, hstep]
  have hlen : ∀ ps : List String, (fileArgs ps).length = 2 * ps.length := by
    intro ps
    induction ps with
    | nil => rfl
    | cons p ps ih =>
      simp only [fileArgs, List.flatMap_cons, List.length_append, List.length_cons,
        List.length_nil] at ih ⊢
      omega
  refine ⟨hstep, ?_, ?_, ?_, ?_, ?_⟩
  · intro front back
    rw [executeQCommand_execs]
    simp only [stageAttachments, stageLoop_args]
    rw [stagedPaths_append]
    have hb : stagedPaths env (w.ticks + (front.filter (fun s => (DecodeString s).isSome)).length)
        (0 + front.length) (bad :: back) =
        stagedPaths env (w.ticks + (front.filter (fun s => (DecodeString s).isSome)).length)
          (front.length + 1) back := by
      simp [stagedPaths, hbad]
    rw [hb]
  · intro images
    simp only [stageAttachments, stageLoop_args, List.length_append, hlen]
    rfl
  · intro hw images
    simp only [stageAttachments, stageLoop_tempFiles, List.nil_append]
    exact stagedPaths_length_of_writable env hw images _ _
  · unfold executeQCommand
    rw [hone]
  · rw [executeQCommand_execs, hone]
    rfl

/-- C5, witness: the attachment `invalid-base64-data` of the test suite. -/
theorem executeQCommand_skips_undecodable_witness :
    DecodeString "invalid-base64-data" = none ∧
    (executeQCommand (printingEnv "ok") emptyWorld "test prompt" ["invalid-base64-data"]).2.execs =
      [("q", ["chat", "--message", "test prompt"])] ∧
    (executeQCommand (printingEnv "ok") emptyWorld "test prompt"
      ["aGk=", "invalid-base64-data", "aGVsbG8="]).2.execs =
      [("q", ["chat", "--message", "test prompt", "--file", "/tmp/q_image_1700000000_0.png",
        "--file", "/tmp/q_image_1700000000_2.png"])] := by
  have h := executeQCommand_skips_undecodable (printingEnv "ok") emptyWorld "test prompt"
    "invalid-base64-data" (by decide)
  refine ⟨by decide, h.2.2.2.2.2, ?_⟩
  exact (h.2.1 ["aGk="] ["aGVsbG8="]).trans (by decide)

/-- C6, counterexample. A staged file whose removal fails is still there after the call; and
a write that fails after the file was created leaves a file that the call created, does not
track and never removes: here the attachment at position 0 is staged and removed, the file
of the attachment at position 1 stays. -/
theorem executeQCommand_leaves_files :
    ((stageAttachments (noRemoveEnv "ok") emptyWorld "describe" ["aGk="]).tempFiles =
        ["/tmp/q_image_1700000000_0.png"] ∧
      fileExists (executeQCommand (noRemoveEnv "ok") emptyWorld "describe" ["aGk="]).2.fs
        "/tmp/q_image_1700000000_0.png" = true) ∧
    ((stageAttachments (fullDiskEnv "ok") emptyWorld "describe" ["aGk=", "aGVsbG8="]).tempFiles =
        ["/tmp/q_image_1700000000_0.png"] ∧
      fileExists emptyWorld.fs "/tmp/q_image_1700000000_1.png" = false ∧
      (executeQCommand (fullDiskEnv "ok") emptyWorld "describe" ["aGk=", "aGVsbG8="]).2.fs =
        [("/tmp/q_image_1700000000_1.png", [])]) := by
  refine ⟨⟨by decide, by decide⟩, by decide, by decide, by decide⟩

/-- C6, amended. Every file that a call of `executeQCommand` staged exists when the process
is run, and when its removal succeeds it is gone when the call returns, whether the process
succeeded or failed. -/
theorem executeQCommand_removes_staged_files (env : Env) (w : World) (prompt : String)
    (images : List String) (p : String)
    (hp : p ∈ (stageAttachments env w prompt images).tempFiles)
    (hrem : env.removable p = true) :
    fileExists (stageAttachments env w prompt images).world.fs p = true ∧
    fileExists (executeQCommand env w prompt images).2.fs p = false := by
  constructor
  · exact stageLoop_keeps_files env images 0 _ (by simp) p hp
  · rw [executeQCommand_fs]
    cases h : fileExists (List.foldl (Remove env)
        (env.runCombined (stageAttachments env w prompt images).world.execs.length
          ("q", (stageAttachments env w prompt images).args)
          (stageAttachments env w prompt images).world.fs).2
        (stageAttachments env w prompt images).tempFiles) p with
    | false => rfl
    | true =>
      rw [fileExists_foldl_Remove] at h
      rcases h.2 with h2 | h2
      · exact absurd hp h2
      · rw [hrem] at h2
        cases h2

/-- C6, witness: one staged attachment, with a process that succeeds and with one that
fails. -/
theorem executeQCommand_removes_staged_files_witness :
    (fileExists (stageAttachments (printingEnv "ok") emptyWorld "describe" ["aGk="]).world.fs
        "/tmp/q_image_1700000000_0.png" = true ∧
      fileExists (executeQCommand (printingEnv "ok") emptyWorld "describe" ["aGk="]).2.fs
        "/tmp/q_image_1700000000_0.png" = false) ∧
    (fileExists (stageAttachments (failingEnv "no" "exit status 1") emptyWorld "describe"
        ["aGk="]).world.fs "/tmp/q_image_1700000000_0.png" = true ∧
      fileExists (executeQCommand (failingEnv "no" "exit status 1") emptyWorld "describe"
        ["aGk="]).2.fs "/tmp/q_image_1700000000_0.png" = false) :=
  ⟨executeQCommand_removes_staged_files (printingEnv "ok") emptyWorld "describe" ["aGk="]
      "/tmp/q_image_1700000000_0.png" (by decide) rfl,
   executeQCommand_removes_staged_files (failingEnv "no" "exit status 1") emptyWorld "describe"
      ["aGk="] "/tmp/q_image_1700000000_0.png" (by decide) rfl⟩

/-- C7, the code at the failing input. Two invocations in the same wall-clock second, each
with one attachment: both stage the same path `/tmp/q_image_1700000000_0.png`. When the
second stages while the first is still running, it replaces the first one's file, and the
clean-up of the first removes the file of the second. -/
theorem executeQCommand_same_second_collision :
    (stageAttachments (printingEnv "ok") emptyWorld "first" ["aGk="]).tempFiles =
      ["/tmp/q_image_1700000000_0.png"] ∧
    (stageAttachments (printingEnv "ok")
      (executeQCommand (printingEnv "ok") emptyWorld "first" ["aGk="]).2
      "second" ["aGVsbG8="]).tempFiles = ["/tmp/q_image_1700000000_0.png"] ∧
    (stageAttachments (printingEnv "ok")
      (stageAttachments (printingEnv "ok") emptyWorld "first" ["aGk="]).world
      "second" ["aGVsbG8="]).world.fs =
      [("/tmp/q_image_1700000000_0.png", [104, 101, 108, 108, 111])] ∧
    fileExists (cleanup (printingEnv "ok")
      (stageAttachments (printingEnv "ok") emptyWorld "first" ["aGk="]).tempFiles
      (stageAttachments (printingEnv "ok")
        (stageAttachments (printingEnv "ok") emptyWorld "first" ["aGk="]).world
        "second" ["aGVsbG8="]).world).fs "/tmp/q_image_1700000000_0.png" = false := by
  refine ⟨by decide, by decide, by decide, by decide⟩

/-- C8. When the external process exits successfully, `executeQCommand` returns, with no
error, `strings.TrimSpace` of the captured output: the output without a leading and a
trailing run of white space. The result neither starts nor ends with a white-space
character, and trimming it again changes nothing. -/
theorem executeQCommand_success_trimmed (env : Env) (w : World) (prompt : String)
    (images : List String) (hok : (commandResult env w prompt images).err = none) :
    (executeQCommand env w prompt images).1 =
      (TrimSpace (commandResult env w prompt images).output, none) ∧
    (∃ l r : List Char, (∀ ch ∈ l, isSpace ch = true) ∧ (∀ ch ∈ r, isSpace ch = true) ∧
      (commandResult env w prompt images).output.data =
        l ++ (executeQCommand env w prompt images).1.1.data ++ r) ∧
    (∀ ch, (executeQCommand env w prompt images).1.1.data.head? = some ch → isSpace ch = false) ∧
    (∀ ch, (executeQCommand env w prompt images).1.1.data.getLast? = some ch →
      isSpace ch = false) ∧
    TrimSpace (executeQCommand env w prompt images).1.1 = (executeQCommand env w prompt images).1.1 := by
  have h := executeQCommand_ok env w prompt images hok
  rw [h]
  refine ⟨rfl, ?_, ?_, ?_, ?_⟩
  · refine ⟨_, _, ?_, ?_, trimChars_split (commandResult env w prompt images).output.data⟩
    · intro ch hch
      exact (List.mem_takeWhile_imp hch)
    · intro ch hch
      rw [List.mem_reverse] at hch
      exact (List.mem_takeWhile_imp hch)
  · exact trimChars_head _
  · exact trimChars_last _
  · show String.mk (trimChars (trimChars _)) = String.mk (trimChars _)
    rw [trimChars_idem]

/-- C8, witness: the process prints `Hi there` between blanks and line feeds. -/
theorem executeQCommand_success_trimmed_witness :
    (executeQCommand (printingEnv "  Hi there \n\n") emptyWorld "Hello world" []).1 =
      ("Hi there", none) := by
  have h := (executeQCommand_success_trimmed (printingEnv "  Hi there \n\n") emptyWorld
    "Hello world" [] rfl).1
  rw [h]
  decide

/-- C9. When the external process cannot be started or exits with a non-zero status,
`executeQCommand` returns the empty string and an error whose message is
`q command failed: <reason>, output: <captured output>` with the captured output verbatim,
and the buffered generate and chat handlers respond with status 500 and write the error
envelope with that message and nothing else. -/
theorem invocation_failure_reported (env : Env) (w : World) (c : Ctx) (e : String) :
    (∀ (prompt : String) (images : List String),
      (commandResult env w prompt images).err = some e →
      (executeQCommand env w prompt images).1 =
        ("", some ("q command failed: " ++ e ++ ", output: " ++
          (commandResult env w prompt images).output))) ∧
    (∀ req : GenerateRequest, req.Stream = false → c.written = false →
      (commandResult env (now env w).2 req.Prompt req.Images).err = some e →
      (handleGenerate env w c (Except.ok req)).1.status = 500 ∧
      (handleGenerate env w c (Except.ok req)).1.body =
        c.body ++ [Written.error ("q command failed: " ++ e ++ ", output: " ++
          (commandResult env (now env w).2 req.Prompt req.Images).output)]) ∧
    (∀ req : ChatRequest, req.Stream = false → c.written = false →
      (extractUserTurn req.Messages).1 ≠ "" →
      (commandResult env (now env w).2 (extractUserTurn req.Messages).1
        (extractUserTurn req.Messages).2).err = some e →
      ((handleChatWithStreaming env w c (Except.ok req)).1.status = 500 ∧
        (handleChatWithStreaming env w c (Except.ok req)).1.body =
          c.body ++ [Written.error ("q command failed: " ++ e ++ ", output: " ++
            (commandResult env (now env w).2 (extractUserTurn req.Messages).1
              (extractUserTurn req.Messages).2).output)]) ∧
      ((handleChat env w c (Except.ok req)).1.status = 500 ∧
        (handleChat env w c (Except.ok req)).1.body =
          c.body ++ [Written.error ("q command failed: " ++ e ++ ", output: " ++
            (commandResult env (now env w).2 (extractUserTurn req.Messages).1
              (extractUserTurn req.Messages).2).output)])) := by
  refine ⟨?_, ?_, ?_⟩
  · intro prompt images h
    exact executeQCommand_err env w prompt images e h
  · intro req hs hc h
    have hx := executeQCommand_err env (now env w).2 req.Prompt req.Images e h
    simp [handleGenerate, hs, hx, Ctx.JSON, hc, StatusInternalServerError]
  · intro req hs hc hne h
    have hx := executeQCommand_err env (now env w).2 _ _ e h
    simp [handleChatWithStreaming, handleChat, hs, hx, hne, Ctx.JSON, hc,
      StatusInternalServerError]

/-- C9, witness: the process prints `boom` and a line feed and exits with status 1. -/
theorem invocation_failure_reported_witness :
    (executeQCommand (failingEnv "boom\n" "exit status 1") emptyWorld "Hello world" []).1 =
      ("", some "q command failed: exit status 1, output: boom\n") ∧
    (handleGenerate (failingEnv "boom\n" "exit status 1") emptyWorld {}
      (Except.ok { Prompt := "Hello world" })).1.status = 500 ∧
    (handleGenerate (failingEnv "boom\n" "exit status 1") emptyWorld {}
      (Except.ok { Prompt := "Hello world" })).1.body =
      [Written.error "q command failed: exit status 1, output: boom\n"] ∧
    (handleChatWithStreaming (failingEnv "boom\n" "exit status 1") emptyWorld {}
      (Except.ok { Messages := [{ Role := "user", Content := "Hello" }] })).1.body =
      [Written.error "q command failed: exit status 1, output: boom\n"] := by
  have h := invocation_failure_reported (failingEnv "boom\n" "exit status 1") emptyWorld {}
    "exit status 1"
  refine ⟨(h.1 "Hello world" [] rfl).trans (by decide), ?_, ?_, ?_⟩
  · exact (h.2.1 { Prompt := "Hello world" } rfl rfl rfl).1
  · exact ((h.2.1 { Prompt := "Hello world" } rfl rfl rfl).2).trans (by decide)
  · exact ((h.2.2 { Messages := [{ Role := "user", Content := "Hello" }] } rfl rfl (by decide)
      rfl).1.2).trans (by decide)

/-- C10, counterexample. The process prints a first line of 65536 bytes and then `line2`:
the first call of the scanner fails on the long line, so the streamed response consists of
the terminal frame alone although `line2` is a non-blank line of the output. -/
theorem handleStreamingGenerate_long_line_drops_frames :
    "line2" ∈ nonBlankLines longLineOutput ∧
    (handleStreamingGenerate (printingEnv longLineOutput) emptyWorld {}
      { Prompt := "Hello world", Stream := true }).1.body =
      [generateFinal { unix := 1700000000, mono := 0 }, Written.newline] := by
  constructor
  · unfold nonBlankLines textLines
    rw [List.mem_filter]
    refine ⟨?_, by decide⟩
    rw [List.mem_map]
    refine ⟨['l', 'i', 'n', 'e', '2'], ?_, by decide⟩
    have h : rawLines longLineOutput.data =
        List.replicate maxScanTokenSize 'a' :: rawLines ['l', 'i', 'n', 'e', '2', '\n'] :=
      rawLines_replicate maxScanTokenSize _
    rw [h]
    apply List.mem_cons_of_mem
    decide
  · have h := handleStreamingGenerate_scan_fails (printingEnv longLineOutput) emptyWorld {}
      { Prompt := "Hello world", Stream := true } longLineOutput none rfl scan_longLineOutput
    rw [h]
    rfl

/-- C10, amended. For every streamed generate or chat invocation whose process starts and
whose output lines are all shorter than the scanner buffer (65536 bytes), the partial frames
correspond one-to-one, in order, to the non-blank lines of the standard output: each
non-blank line yields one frame with that line as payload and `done=false` followed by a
line feed, blank lines yield nothing, and the terminal frame comes last. -/
theorem streamed_frames_follow_lines (env : Env) (w : World) (c : Ctx) (out : String)
    (waitErr : Option String)
    (hfit : ∀ l ∈ rawLines out.data, byteLen l < maxScanTokenSize) :
    (∀ req : GenerateRequest,
      env.runStream w.execs.length ("q", ["chat", "--message", req.Prompt]) =
        { pipeErr := none, startErr := none, stdout := out, waitErr := waitErr } →
      (handleStreamingGenerate env w c req).1.body =
        c.body ++ partialFrames env generateFrame w.ticks (nonBlankLines out) ++
          [generateFinal (env.clock (w.ticks + (nonBlankLines out).length)), Written.newline]) ∧
    (∀ req : ChatRequest, (extractUserTurn req.Messages).1 ≠ "" →
      env.runStream w.execs.length ("q", ["chat", "--message", (extractUserTurn req.Messages).1]) =
        { pipeErr := none, startErr := none, stdout := out, waitErr := waitErr } →
      (handleChatStream env w c req).1.body =
        c.body ++ partialFrames env chatFrame w.ticks (nonBlankLines out) ++
          [chatFinal (env.clock (w.ticks + (nonBlankLines out).length)), Written.newline]) := by
  have hs : emittedLines (String.mk out.data) = nonBlankLines out :=
    emittedLines_eq_nonBlankLines out hfit
  constructor
  · intro req hrun
    obtain ⟨h1, _, _, h4, _, _⟩ := streamLoop_spec env generateFrame (out.data.length + 1) out.data
      ((c.Header "Content-Type" "application/x-ndjson").Header "Transfer-Encoding" "chunked")
      { w with execs := w.execs ++ [("q", ["chat", "--message", req.Prompt])] }
      (Nat.lt_succ_self _)
    rw [hs] at h1 h4
    rw [handleStreamingGenerate_body env w c req out waitErr hrun, h1, h4]
    simp [Ctx.Header]
  · intro req hne hrun
    obtain ⟨h1, _, _, h4, _, _⟩ := streamLoop_spec env chatFrame (out.data.length + 1) out.data
      ((c.Header "Content-Type" "application/x-ndjson").Header "Transfer-Encoding" "chunked")
      { w with execs := w.execs ++ [("q", ["chat", "--message", (extractUserTurn req.Messages).1])] }
      (Nat.lt_succ_self _)
    rw [hs] at h1 h4
    rw [handleChatStream_body env w c req out waitErr hne hrun, h1, h4]
    simp [Ctx.Header]

/-- C10, witness: the output `line1`, an empty line, `line2` yields the two partial frames
`line1` and `line2` followed by the terminal frame. -/
theorem streamed_frames_follow_lines_witness :
    (handleStreamingGenerate (printingEnv "line1\n\nline2\n") emptyWorld {}
      { Prompt := "Hello world", Stream := true }).1.body =
      [generateFrame "line1" { unix := 1700000000, mono := 0 }, Written.newline,
       generateFrame "line2" { unix := 1700000000, mono := 1000 }, Written.newline,
       generateFinal { unix := 1700000000, mono := 2000 }, Written.newline] := by
  have h := (streamed_frames_follow_lines (printingEnv "line1\n\nline2\n") emptyWorld {}
    "line1\n\nline2\n" none (by decide)).1 { Prompt := "Hello world", Stream := true } rfl
  exact h.trans (by decide)

/-- C11. For every streamed generate or chat invocation whose process starts, the frames
written are the emitted lines with `done=false` followed by one frame with `done=true`:
exactly one frame has `done=true`, it has an empty payload, it is the last frame, and every
frame before it has `done=false`; a process that prints nothing gives the terminal frame
alone. -/
theorem streamed_one_terminal_frame (env : Env) (w : World) (c : Ctx) :
    (∀ req : GenerateRequest,
      (env.runStream w.execs.length ("q", ["chat", "--message", req.Prompt])).pipeErr = none →
      (env.runStream w.execs.length ("q", ["chat", "--message", req.Prompt])).startErr = none →
      ∃ new : List Written,
        (handleStreamingGenerate env w c req).1.body = c.body ++ new ∧
        frames new = (emittedLines (env.runStream w.execs.length
            ("q", ["chat", "--message", req.Prompt])).stdout).map (fun l => (l, false)) ++
          [("", true)] ∧
        oneTerminalFrame (frames new) ∧
        ((env.runStream w.execs.length ("q", ["chat", "--message", req.Prompt])).stdout = "" →
          frames new = [("", true)])) ∧
    (∀ req : ChatRequest, (extractUserTurn req.Messages).1 ≠ "" →
      (env.runStream w.execs.length
        ("q", ["chat", "--message", (extractUserTurn req.Messages).1])).pipeErr = none →
      (env.runStream w.execs.length
        ("q", ["chat", "--message", (extractUserTurn req.Messages).1])).startErr = none →
      ∃ new : List Written,
        (handleChatStream env w c req).1.body = c.body ++ new ∧
        frames new = (emittedLines (env.runStream w.execs.length
            ("q", ["chat", "--message", (extractUserTurn req.Messages).1])).stdout).map
              (fun l => (l, false)) ++ [("", true)] ∧
        oneTerminalFrame (frames new) ∧
        ((env.runStream w.execs.length
            ("q", ["chat", "--message", (extractUserTurn req.Messages).1])).stdout = "" →
          frames new = [("", true)])) := by
  constructor
  · intro req hpipe hstart
    have hb := (handleStreamingGenerate_started env w c req hpipe hstart).1
    have hf : frames (partialFrames env generateFrame w.ticks
          (emittedLines (env.runStream w.execs.length
            ("q", ["chat", "--message", req.Prompt])).stdout) ++
          [generateFinal (env.clock (w.ticks + (emittedLines (env.runStream w.execs.length
            ("q", ["chat", "--message", req.Prompt])).stdout).length)), Written.newline]) =
        (emittedLines (env.runStream w.execs.length
            ("q", ["chat", "--message", req.Prompt])).stdout).map (fun l => (l, false)) ++
          [("", true)] := by
      unfold frames
      rw [List.filterMap_append]
      exact congrArg (· ++ [("", true)]) (frames_partialFrames_generate env _ _)
    refine ⟨_, hb, hf, ?_, ?_⟩
    · rw [hf]; exact oneTerminalFrame_of_lines _
    · intro hempty
      rw [hf, hempty]
      rfl
  · intro req hne hpipe hstart
    have hb := (handleChatStream_started env w c req hne hpipe hstart).1
    have hf : frames (partialFrames env chatFrame w.ticks
          (emittedLines (env.runStream w.execs.length
            ("q", ["chat", "--message", (extractUserTurn req.Messages).1])).stdout) ++
          [chatFinal (env.clock (w.ticks + (emittedLines (env.runStream w.execs.length
            ("q", ["chat", "--message", (extractUserTurn req.Messages).1])).stdout).length)),
            Written.newline]) =
        (emittedLines (env.runStream w.execs.length
            ("q", ["chat", "--message", (extractUserTurn req.Messages).1])).stdout).map
              (fun l => (l, false)) ++ [("", true)] := by
      unfold frames
      rw [List.filterMap_append]
      exact congrArg (· ++ [("", true)]) (frames_partialFrames_chat env _ _)
    refine ⟨_, hb, hf, ?_, ?_⟩
    · rw [hf]; exact oneTerminalFrame_of_lines _
    · intro hempty
      rw [hf, hempty]
      rfl

/-- C11, witness: a process that prints nothing gives the single terminal frame; the output
`line1`, empty line, `line2` gives two partial frames and the terminal frame. -/
theorem streamed_one_terminal_frame_witness :
    frames (handleStreamingGenerate (printingEnv "") emptyWorld {}
      { Prompt := "Hello world", Stream := true }).1.body = [("", true)] ∧
    frames (handleChatStream (printingEnv "line1\n\nline2\n") emptyWorld {}
      { Messages := [{ Role := "user", Content := "Count to 3" }], Stream := true }).1.body =
      [("line1", false), ("line2", false), ("", true)] := by
  obtain ⟨n1, hb1, hf1, _, he1⟩ := (streamed_one_terminal_frame (printingEnv "") emptyWorld
    {}).1 { Prompt := "Hello world", Stream := true } rfl rfl
  obtain ⟨n2, hb2, hf2, _, _⟩ := (streamed_one_terminal_frame (printingEnv "line1\n\nline2\n")
    emptyWorld {}).2 { Messages := [{ Role := "user", Content := "Count to 3" }], Stream := true }
    (by decide) rfl rfl
  constructor
  · rw [hb1]
    exact he1 rfl
  · rw [hb2]
    exact hf2.trans (by decide)

/-- C12. In the streamed generate and chat paths, when attaching the output pipe fails or the
process fails to start, the handler responds with status 500, writes the error envelope and
nothing else: no partial frame and no terminal frame. -/
theorem streamed_start_failure (env : Env) (w : World) (c : Ctx) (e : String)
    (hfresh : c.written = false) :
    (∀ req : GenerateRequest,
      ((env.runStream w.execs.length ("q", ["chat", "--message", req.Prompt])).pipeErr = some e ∨
        ((env.runStream w.execs.length ("q", ["chat", "--message", req.Prompt])).pipeErr = none ∧
          (env.runStream w.execs.length ("q", ["chat", "--message", req.Prompt])).startErr =
            some e)) →
      (handleStreamingGenerate env w c req).1.status = 500 ∧
      (handleStreamingGenerate env w c req).1.body = c.body ++ [Written.error e] ∧
      frames (handleStreamingGenerate env w c req).1.body = frames c.body) ∧
    (∀ req : ChatRequest, (extractUserTurn req.Messages).1 ≠ "" →
      ((env.runStream w.execs.length
          ("q", ["chat", "--message", (extractUserTurn req.Messages).1])).pipeErr = some e ∨
        ((env.runStream w.execs.length
            ("q", ["chat", "--message", (extractUserTurn req.Messages).1])).pipeErr = none ∧
          (env.runStream w.execs.length
            ("q", ["chat", "--message", (extractUserTurn req.Messages).1])).startErr = some e)) →
      (handleChatStream env w c req).1.status = 500 ∧
      (handleChatStream env w c req).1.body = c.body ++ [Written.error e] ∧
      frames (handleChatStream env w c req).1.body = frames c.body) := by
  have hj : (((c.Header "Content-Type" "application/x-ndjson").Header "Transfer-Encoding"
        "chunked").JSON StatusInternalServerError (Written.error e)).status = 500 := by
    simp [Ctx.JSON, Ctx.Header, hfresh, StatusInternalServerError]
  have hbody : (((c.Header "Content-Type" "application/x-ndjson").Header "Transfer-Encoding"
        "chunked").JSON StatusInternalServerError (Written.error e)).body =
      c.body ++ [Written.error e] := by
    simp [Ctx.JSON, Ctx.Header]
  have hfr : frames (c.body ++ [Written.error e]) = frames c.body := by
    simp [frames, List.filterMap_append, Written.frame]
  constructor
  · intro req h
    rcases h with hp | ⟨hp, hs⟩
    · rw [handleStreamingGenerate_pipe_fails env w c req e hp]
      exact ⟨hj, hbody, by rw [hbody, hfr]⟩
    · rw [handleStreamingGenerate_start_fails env w c req e hp hs]
      exact ⟨hj, hbody, by rw [hbody, hfr]⟩
  · intro req hne h
    rcases h with hp | ⟨hp, hs⟩
    · rw [handleChatStream_pipe_fails env w c req e hne hp]
      exact ⟨hj, hbody, by rw [hbody, hfr]⟩
    · rw [handleChatStream_start_fails env w c req e hne hp hs]
      exact ⟨hj, hbody, by rw [hbody, hfr]⟩

/-- C12, witness: the pipe cannot be attached (generate), the process cannot be started
(chat). -/
theorem streamed_start_failure_witness :
    (handleStreamingGenerate (pipeFailingEnv "pipe: too many open files") emptyWorld {}
      { Prompt := "Hello world", Stream := true }).1.status = 500 ∧
    (handleStreamingGenerate (pipeFailingEnv "pipe: too many open files") emptyWorld {}
      { Prompt := "Hello world", Stream := true }).1.body =
      [Written.error "pipe: too many open files"] ∧
    (handleChatStream (failingEnv "" "exec: q: executable file not found")
      emptyWorld {}
      { Messages := [{ Role := "user", Content := "Count to 3" }], Stream := true }).1.body =
      [Written.error "exec: q: executable file not found"] := by
  have h1 := (streamed_start_failure (pipeFailingEnv "pipe: too many open files") emptyWorld {}
    "pipe: too many open files" rfl).1 { Prompt := "Hello world", Stream := true }
    (Or.inl rfl)
  have h2 := (streamed_start_failure
    (failingEnv "" "exec: q: executable file not found") emptyWorld {}
    "exec: q: executable file not found" rfl).2
    { Messages := [{ Role := "user", Content := "Count to 3" }], Stream := true } (by decide)
    (Or.inr ⟨rfl, rfl⟩)
  exact ⟨h1.1, h1.2.1, h2.2.1⟩

/-- C13. In the streamed generate and chat paths the command is `q` with exactly
`["chat", "--message", instruction]` (it is handed to exec unless the pipe cannot be
attached): the file system is left as it was, and the outcome does not depend on the
attachments of the request (the images of a generate request, the images of any message of
a chat request), which are neither decoded, nor written, nor forwarded. -/
theorem streamed_paths_forward_no_attachment (env : Env) (w : World) (c : Ctx) :
    (∀ req : GenerateRequest,
      ((env.runStream w.execs.length ("q", ["chat", "--message", req.Prompt])).pipeErr = none →
        (handleStreamingGenerate env w c req).2.execs =
          w.execs ++ [("q", ["chat", "--message", req.Prompt])]) ∧
      ((env.runStream w.execs.length ("q", ["chat", "--message", req.Prompt])).pipeErr ≠ none →
        (handleStreamingGenerate env w c req).2.execs = w.execs) ∧
      (handleStreamingGenerate env w c req).2.fs = w.fs ∧
      ∀ images : List String,
        handleStreamingGenerate env w c { req with Images := images } =
          handleStreamingGenerate env w c req) ∧
    (∀ req : ChatRequest,
      ((extractUserTurn req.Messages).1 ≠ "" →
        (env.runStream w.execs.length
          ("q", ["chat", "--message", (extractUserTurn req.Messages).1])).pipeErr = none →
        (handleChatStream env w c req).2.execs =
          w.execs ++ [("q", ["chat", "--message", (extractUserTurn req.Messages).1])]) ∧
      ((extractUserTurn req.Messages).1 ≠ "" →
        (env.runStream w.execs.length
          ("q", ["chat", "--message", (extractUserTurn req.Messages).1])).pipeErr ≠ none →
        (handleChatStream env w c req).2.execs = w.execs) ∧
      (handleChatStream env w c req).2.fs = w.fs ∧
      ∀ f : Message → List String,
        handleChatStream env w c
            { req with Messages := req.Messages.map (fun m => { m with Images := f m }) } =
          handleChatStream env w c req) := by
  constructor
  · intro req
    refine ⟨?_, ?_, ?_, fun _ => rfl⟩
    · intro hp
      cases hs : (env.runStream w.execs.length
          ("q", ["chat", "--message", req.Prompt])).startErr with
      | some e => rw [handleStreamingGenerate_start_fails env w c req e hp hs]
      | none => exact (handleStreamingGenerate_started env w c req hp hs).2.2.1
    · intro hp
      cases hpe : (env.runStream w.execs.length
          ("q", ["chat", "--message", req.Prompt])).pipeErr with
      | none => exact absurd hpe hp
      | some e => rw [handleStreamingGenerate_pipe_fails env w c req e hpe]
    · cases hpe : (env.runStream w.execs.length
          ("q", ["chat", "--message", req.Prompt])).pipeErr with
      | some e => rw [handleStreamingGenerate_pipe_fails env w c req e hpe]
      | none =>
        cases hs : (env.runStream w.execs.length
            ("q", ["chat", "--message", req.Prompt])).startErr with
        | some e => rw [handleStreamingGenerate_start_fails env w c req e hpe hs]
        | none => exact (handleStreamingGenerate_started env w c req hpe hs).2.2.2
  · intro req
    refine ⟨?_, ?_, ?_, ?_⟩
    · intro hne hp
      cases hs : (env.runStream w.execs.length
          ("q", ["chat", "--message", (extractUserTurn req.Messages).1])).startErr with
      | some e => rw [handleChatStream_start_fails env w c req e hne hp hs]
      | none => exact (handleChatStream_started env w c req hne hp hs).2.2.1
    · intro hne hp
      cases hpe : (env.runStream w.execs.length
          ("q", ["chat", "--message", (extractUserTurn req.Messages).1])).pipeErr with
      | none => exact absurd hpe hp
      | some e => rw [handleChatStream_pipe_fails env w c req e hne hpe]
    · by_cases hne : (extractUserTurn req.Messages).1 = ""
      · rw [handleChatStream_rejected env w c req hne]
      · cases hpe : (env.runStream w.execs.length
            ("q", ["chat", "--message", (extractUserTurn req.Messages).1])).pipeErr with
        | some e => rw [handleChatStream_pipe_fails env w c req e hne hpe]
        | none =>
          cases hs : (env.runStream w.execs.length
              ("q", ["chat", "--message", (extractUserTurn req.Messages).1])).startErr with
          | some e => rw [handleChatStream_start_fails env w c req e hne hpe hs]
          | none => exact (handleChatStream_started env w c req hne hpe hs).2.2.2
    · intro f
      exact handleChatStream_congr env w c _ req (extractUserTurn_map_images req.Messages f)

/-- C13, witness: a streamed generate request and a streamed chat request that carry a valid
image run `q chat --message <instruction>` and leave the file system empty. -/
theorem streamed_paths_forward_no_attachment_witness :
    (handleStreamingGenerate (printingEnv "ok\n") emptyWorld {}
      { Prompt := "Describe this image", Images := ["aGk="], Stream := true }).2.execs =
      [("q", ["chat", "--message", "Describe this image"])] ∧
    (handleStreamingGenerate (printingEnv "ok\n") emptyWorld {}
      { Prompt := "Describe this image", Images := ["aGk="], Stream := true }).2.fs = [] ∧
    (handleChatStream (printingEnv "ok\n") emptyWorld {}
      { Messages := [{ Role := "user", Content := "Describe", Images := ["aGk="] }],
        Stream := true }).2.execs = [("q", ["chat", "--message", "Describe"])] := by
  have h1 := (streamed_paths_forward_no_attachment (printingEnv "ok\n") emptyWorld {}).1
    { Prompt := "Describe this image", Images := ["aGk="], Stream := true }
  have h2 := (streamed_paths_forward_no_attachment (printingEnv "ok\n") emptyWorld {}).2
    { Messages := [{ Role := "user", Content := "Describe", Images := ["aGk="] }],
      Stream := true }
  exact ⟨h1.1 rfl, h1.2.2.1, h2.1 (by decide) rfl⟩

/-- C14, counterexample. The process prints two lines of 65536 bytes each. The scanner stops
at the first, the handler writes the `done=true` frame and calls `cmd.Wait()` while 65537
bytes are unread in a pipe that holds 65536: the process never exits and the request, generate
or chat, never ends. -/
theorem streamed_request_never_returns :
    handleGenerate_returns (printingEnv hangingOutput) emptyWorld
      (Except.ok { Prompt := "Hello world", Stream := true }) = false ∧
    handleChatWithStreaming_returns (printingEnv hangingOutput) emptyWorld
      (Except.ok { Messages := [{ Role := "user", Content := "Hello" }], Stream := true }) =
      false ∧
    (handleGenerate (printingEnv hangingOutput) emptyWorld {}
      (Except.ok { Prompt := "Hello world", Stream := true })).1.body =
      [generateFinal { unix := 1700000000, mono := 0 }, Written.newline] := by
  have hrun : ∀ (k : Nat) (cmd : String × List String),
      (printingEnv hangingOutput).runStream k cmd =
        { pipeErr := none, startErr := none, stdout := hangingOutput, waitErr := none } :=
    fun _ _ => rfl
  refine ⟨?_, ?_, ?_⟩
  · rw [handleGenerate_returns_stream _ _ _ rfl,
      handleStreamingGenerate_returns_started _ _ _ rfl rfl, hrun, Wait_hangingOutput]
    rfl
  · rw [handleChatWithStreaming_returns_stream _ _ _ rfl,
      handleChatStream_returns_started _ _ _ (by decide) rfl rfl, hrun, Wait_hangingOutput]
    rfl
  · rw [handleGenerate_stream _ _ _ _ rfl,
      handleStreamingGenerate_scan_fails (printingEnv hangingOutput) emptyWorld {}
        { Prompt := "Hello world", Stream := true } hangingOutput none rfl scan_hangingOutput]
    rfl

/-- C14, amended. Every generate or chat request whose process, when the response is streamed,
prints no line of 65536 bytes or more ends: the handler returns. And every request, handled
from a fresh response context, has then written exactly one of two outcomes: `Failed` (the
body is one error envelope and the status is 400 or 500) or `Emitted` (status 200 and only
success output: one envelope with `done=true`, or partial frames followed by the `done=true`
frame); so an error envelope is never written after a frame or next to a success envelope,
and a buffered request writes one envelope. The unrouted `handleChat` has no streamed path. -/
theorem request_terminal_outcome (env : Env) (w : World) (c : Ctx) (hbody : c.body = [])
    (hw : c.written = false) (hs : c.status = 200) :
    (∀ bound : Except String GenerateRequest,
      ((∀ req : GenerateRequest, bound = Except.ok req → req.Stream = true →
          fitsScanner (env.runStream w.execs.length
            ("q", ["chat", "--message", req.Prompt])).stdout) →
        handleGenerate_returns env w bound = true) ∧
      ((isFailed (handleGenerate env w c bound).1 = true ∧
          isEmitted (handleGenerate env w c bound).1 = false) ∨
        (isFailed (handleGenerate env w c bound).1 = false ∧
          isEmitted (handleGenerate env w c bound).1 = true))) ∧
    (∀ bound : Except String ChatRequest,
      ((∀ req : ChatRequest, bound = Except.ok req → req.Stream = true →
          fitsScanner (env.runStream w.execs.length
            ("q", ["chat", "--message", (extractUserTurn req.Messages).1])).stdout) →
        handleChatWithStreaming_returns env w bound = true) ∧
      ((isFailed (handleChatWithStreaming env w c bound).1 = true ∧
          isEmitted (handleChatWithStreaming env w c bound).1 = false) ∨
        (isFailed (handleChatWithStreaming env w c bound).1 = false ∧
          isEmitted (handleChatWithStreaming env w c bound).1 = true))) ∧
    (∀ bound : Except String ChatRequest,
      (isFailed (handleChat env w c bound).1 = true ∧
          isEmitted (handleChat env w c bound).1 = false) ∨
        (isFailed (handleChat env w c bound).1 = false ∧
          isEmitted (handleChat env w c bound).1 = true)) := by
  obtain ⟨h1, h2, h3⟩ := outcome_of_written env w c hbody hw hs
  refine ⟨fun bound => ⟨?_, h1 bound⟩, fun bound => ⟨?_, h2 bound⟩, h3⟩
  · intro hfit
    cases bound with
    | error e => rfl
    | ok req =>
      cases hstr : req.Stream with
      | false => simp [handleGenerate_returns, hstr]
      | true =>
        simp only [handleGenerate_returns, hstr, if_true]
        exact handleStreamingGenerate_returns_of_fit env w req (hfit req rfl hstr)
  · intro hfit
    cases bound with
    | error e => rfl
    | ok req =>
      cases hstr : req.Stream with
      | false => simp [handleChatWithStreaming_returns, hstr]
      | true =>
        simp only [handleChatWithStreaming_returns, hstr, if_true]
        exact handleChatStream_returns_of_fit env w req (hfit req rfl hstr)

/-- C14, witness: a streamed generate request that returns and is emitted, and a chat request
whose body does not bind. -/
theorem request_terminal_outcome_witness :
    (handleGenerate_returns (printingEnv "line1\n\nline2\n") emptyWorld
        (Except.ok { Prompt := "Hello world", Stream := true }) = true ∧
      isFailed (handleGenerate (printingEnv "line1\n\nline2\n") emptyWorld {}
        (Except.ok { Prompt := "Hello world", Stream := true })).1 = false ∧
      isEmitted (handleGenerate (printingEnv "line1\n\nline2\n") emptyWorld {}
        (Except.ok { Prompt := "Hello world", Stream := true })).1 = true) ∧
    (handleChatWithStreaming_returns (printingEnv "ok") emptyWorld
        (Except.error "unexpected end of JSON input") = true ∧
      isFailed (handleChatWithStreaming (printingEnv "ok") emptyWorld {}
        (Except.error "unexpected end of JSON input")).1 = true ∧
      isEmitted (handleChatWithStreaming (printingEnv "ok") emptyWorld {}
        (Except.error "unexpected end of JSON input")).1 = false) := by
  have h1 := (request_terminal_outcome (printingEnv "line1\n\nline2\n") emptyWorld {} rfl rfl
    rfl).1 (Except.ok { Prompt := "Hello world", Stream := true })
  have h2 := (request_terminal_outcome (printingEnv "ok") emptyWorld {} rfl rfl rfl).2.1
    (Except.error "unexpected end of JSON input")
  have hfit : fitsScanner "line1\n\nline2\n" := by
    unfold fitsScanner
    decide
  constructor
  · refine ⟨h1.1 (fun _ _ _ => hfit), ?_⟩
    rcases h1.2 with h | h
    · exact absurd h.2 (by decide)
    · exact h
  · refine ⟨h2.1 (fun req hreq _ => by cases hreq), ?_⟩
    rcases h2.2 with h | h
    · exact h
    · exact absurd h.1 (by decide)

/-- C15, counterexample. A generate request whose body carries no field at all, and one
whose prompt is the empty string: both bind, are answered with status 200, and the process
is invoked with an empty `--message` argument. -/
theorem handleGenerate_empty_prompt_accepted :
    (handleGenerate (printingEnv "Hi there") emptyWorld {} (bindGenerate {})).1.status = 200 ∧
    (handleGenerate (printingEnv "Hi there") emptyWorld {} (bindGenerate {})).2.execs =
      [("q", ["chat", "--message", ""])] ∧
    (handleGenerate (printingEnv "Hi there") emptyWorld {}
      (bindGenerate { model := some "amazon-q", prompt := some "" })).1.status = 200 ∧
    (handleGenerate (printingEnv "Hi there") emptyWorld {}
      (bindGenerate { model := some "amazon-q", prompt := some "" })).2.execs =
      [("q", ["chat", "--message", ""])] := by
  refine ⟨by decide, by decide, by decide, by decide⟩

/-- C15, amended. `handleGenerate` requires no field of a generate request: every body that
binds is accepted for invocation, a present, an empty and an absent prompt alike (the
process is invoked with the prompt, the empty string when it is absent, as the `--message`
argument), and the absence of any field never causes a validation failure: the status is
never 400. The only validation failure is a body that does not bind, answered with status
400 and no process. -/
theorem handleGenerate_requires_no_field (env : Env) (w : World) (c : Ctx) (b : GenerateBody)
    (hw : c.written = false) (hs : c.status = 200) :
    (handleGenerate env w c (bindGenerate b)).1.status ≠ 400 ∧
    (b.stream.getD false = false →
      (handleGenerate env w c (bindGenerate b)).2.execs =
        w.execs ++ [("q", ["chat", "--message", b.prompt.getD ""] ++
          fileArgs (stagedPaths env (w.ticks + 1) 0 (b.images.getD [])))]) ∧
    (b.stream.getD false = true →
      (env.runStream w.execs.length ("q", ["chat", "--message", b.prompt.getD ""])).pipeErr =
        none →
      (handleGenerate env w c (bindGenerate b)).2.execs =
        w.execs ++ [("q", ["chat", "--message", b.prompt.getD ""])]) ∧
    (∀ e : String,
      (handleGenerate env w c (Except.error e)).1.status = 400 ∧
      (handleGenerate env w c (Except.error e)).1.body = c.body ++ [Written.error e] ∧
      (handleGenerate env w c (Except.error e)).2 = w) := by
  refine ⟨?_, ?_, ?_, ?_⟩
  · cases hstr : b.stream.getD false with
    | true =>
      have e : handleGenerate env w c (bindGenerate b) =
          handleStreamingGenerate env w c
            { Model := b.model.getD "", Prompt := b.prompt.getD "", Images := b.images.getD [],
              Format := b.format.getD "", Options := b.options.getD [],
              System := b.system.getD "", Template := b.template.getD "",
              Context := b.context.getD [], Stream := b.stream.getD false,
              Raw := b.raw.getD false } := by
        simp [handleGenerate, bindGenerate, hstr]
      rw [e]
      rcases handleStreamingGenerate_outcome env w c _ with ⟨m, _, hst⟩ | ⟨ls, t, tick, _, hst⟩
      · rw [hst hw]; decide
      · rw [hst, hs]; decide
    | false =>
      rcases handleGenerate_buffered_outcome env w c
        { Model := b.model.getD "", Prompt := b.prompt.getD "", Images := b.images.getD [],
          Format := b.format.getD "", Options := b.options.getD [],
          System := b.system.getD "", Template := b.template.getD "",
          Context := b.context.getD [], Stream := b.stream.getD false,
          Raw := b.raw.getD false } hstr with ⟨m, _, hst⟩ | ⟨r, _, hst, _⟩
      · have h := hst hw
        unfold bindGenerate
        rw [h]; decide
      · have h := hst hw
        unfold bindGenerate
        rw [h]; decide
  · intro hstr
    have e : (handleGenerate env w c (bindGenerate b)).2.execs =
        (executeQCommand env (now env w).2 (b.prompt.getD "") (b.images.getD [])).2.execs := by
      simp only [handleGenerate, bindGenerate, hstr, Bool.false_eq_true, if_false]
      cases (executeQCommand env (now env w).2 (b.prompt.getD "") (b.images.getD [])).1.2 <;>
        simp [now]
    rw [e, executeQCommand_execs]
    simp [stageAttachments, stageLoop_args, now]
  · intro hstr hp
    have e : handleGenerate env w c (bindGenerate b) =
        handleStreamingGenerate env w c
          { Model := b.model.getD "", Prompt := b.prompt.getD "", Images := b.images.getD [],
            Format := b.format.getD "", Options := b.options.getD [],
            System := b.system.getD "", Template := b.template.getD "",
            Context := b.context.getD [], Stream := b.stream.getD false,
            Raw := b.raw.getD false } := by
      simp [handleGenerate, bindGenerate, hstr]
    rw [e]
    cases hst : (env.runStream w.execs.length
        ("q", ["chat", "--message", b.prompt.getD ""])).startErr with
    | some err => rw [handleStreamingGenerate_start_fails env w c _ err hp hst]
    | none => exact (handleStreamingGenerate_started env w c _ hp hst).2.2.1
  · intro e
    refine ⟨?_, rfl, rfl⟩
    simp [handleGenerate, Ctx.JSON, hw, StatusBadRequest]

/-- C15, witness: a body with only a model name is accepted and invokes the process. -/
theorem handleGenerate_requires_no_field_witness :
    (handleGenerate (printingEnv "Hi there") emptyWorld {}
      (bindGenerate { model := some "amazon-q" })).1.status ≠ 400 ∧
    (handleGenerate (printingEnv "Hi there") emptyWorld {}
      (bindGenerate { model := some "amazon-q" })).2.execs = [("q", ["chat", "--message", ""])] := by
  have h := handleGenerate_requires_no_field (printingEnv "Hi there") emptyWorld {}
    { model := some "amazon-q" } rfl rfl
  exact ⟨h.1, (h.2.1 rfl).trans (by decide)⟩

/-- C16. Each call of `executeQCommand` hands exactly one command to exec, whether the
process succeeds or fails, and what it returns is a function of the result of that one
process run. Two calls with the same instruction and no attachments run the process twice,
and the second call returns what the second run produced. -/
theorem executeQCommand_runs_once (env : Env) (w : World) (prompt : String)
    (images : List String) :
    (executeQCommand env w prompt images).2.execs.length = w.execs.length + 1 ∧
    (executeQCommand env w prompt images).1 = resultOf (commandResult env w prompt images) ∧
    (executeQCommand env (executeQCommand env w prompt []).2 prompt []).2.execs =
      w.execs ++ [("q", ["chat", "--message", prompt]), ("q", ["chat", "--message", prompt])] ∧
    (executeQCommand env (executeQCommand env w prompt []).2 prompt []).1 =
      resultOf (env.runCombined (w.execs.length + 1) ("q", ["chat", "--message", prompt])
        (executeQCommand env w prompt []).2.fs).1 := by
  have h1 : (executeQCommand env w prompt []).2.execs =
      w.execs ++ [("q", ["chat", "--message", prompt])] := by
    rw [executeQCommand_execs]; rfl
  refine ⟨?_, executeQCommand_result env w prompt images, ?_, ?_⟩
  · rw [executeQCommand_execs]; simp
  · rw [executeQCommand_execs, h1]
    simp [stageAttachments, stageLoop]
  · rw [executeQCommand_result]
    unfold commandResult
    simp [stageAttachments, stageLoop, h1]

/-- C16, witness: a process that prints `one` on its first run and `two` on its second; the
second call with the same instruction returns `two`. -/
theorem executeQCommand_runs_once_witness :
    (executeQCommand (scriptedEnv (fun k => if k = 0 then "one\n" else "two\n") (fun _ => none))
      emptyWorld "Hello" []).1 = ("one", none) ∧
    (executeQCommand (scriptedEnv (fun k => if k = 0 then "one\n" else "two\n") (fun _ => none))
      (executeQCommand (scriptedEnv (fun k => if k = 0 then "one\n" else "two\n")
        (fun _ => none)) emptyWorld "Hello" []).2 "Hello" []).1 = ("two", none) ∧
    (executeQCommand (scriptedEnv (fun k => if k = 0 then "one\n" else "two\n") (fun _ => none))
      (executeQCommand (scriptedEnv (fun k => if k = 0 then "one\n" else "two\n")
        (fun _ => none)) emptyWorld "Hello" []).2 "Hello" []).2.execs =
      [("q", ["chat", "--message", "Hello"]), ("q", ["chat", "--message", "Hello"])] := by
  have h := executeQCommand_runs_once
    (scriptedEnv (fun k => if k = 0 then "one\n" else "two\n") (fun _ => none)) emptyWorld
    "Hello" []
  exact ⟨h.2.1.trans (by decide), h.2.2.2.trans (by decide), h.2.2.1⟩

/-- C17. Two streamed invocations (generate or chat) whose processes start and print the
same lines write the same frame payloads and `done` flags, whatever `cmd.Wait()` returns for
either: the exit status is not surfaced, no error envelope is written, the status is left
as it was, and the last frame is the terminal frame with `done=true`. -/
theorem streamed_exit_status_not_surfaced (env1 env2 : Env) (w1 w2 : World) (c : Ctx) :
    (∀ req : GenerateRequest,
      (env1.runStream w1.execs.length ("q", ["chat", "--message", req.Prompt])).pipeErr = none →
      (env1.runStream w1.execs.length ("q", ["chat", "--message", req.Prompt])).startErr = none →
      (env2.runStream w2.execs.length ("q", ["chat", "--message", req.Prompt])).pipeErr = none →
      (env2.runStream w2.execs.length ("q", ["chat", "--message", req.Prompt])).startErr = none →
      rawLines (env1.runStream w1.execs.length
          ("q", ["chat", "--message", req.Prompt])).stdout.data =
        rawLines (env2.runStream w2.execs.length
          ("q", ["chat", "--message", req.Prompt])).stdout.data →
      ∃ new1 new2 : List Written,
        (handleStreamingGenerate env1 w1 c req).1.body = c.body ++ new1 ∧
        (handleStreamingGenerate env2 w2 c req).1.body = c.body ++ new2 ∧
        frames new1 = frames new2 ∧
        (∀ x ∈ new1 ++ new2, x.isError = false) ∧
        (frames new1).getLast? = some ("", true) ∧
        (handleStreamingGenerate env1 w1 c req).1.status = c.status ∧
        (handleStreamingGenerate env2 w2 c req).1.status = c.status) ∧
    (∀ req : ChatRequest, (extractUserTurn req.Messages).1 ≠ "" →
      (env1.runStream w1.execs.length
        ("q", ["chat", "--message", (extractUserTurn req.Messages).1])).pipeErr = none →
      (env1.runStream w1.execs.length
        ("q", ["chat", "--message", (extractUserTurn req.Messages).1])).startErr = none →
      (env2.runStream w2.execs.length
        ("q", ["chat", "--message", (extractUserTurn req.Messages).1])).pipeErr = none →
      (env2.runStream w2.execs.length
        ("q", ["chat", "--message", (extractUserTurn req.Messages).1])).startErr = none →
      rawLines (env1.runStream w1.execs.length
          ("q", ["chat", "--message", (extractUserTurn req.Messages).1])).stdout.data =
        rawLines (env2.runStream w2.execs.length
          ("q", ["chat", "--message", (extractUserTurn req.Messages).1])).stdout.data →
      ∃ new1 new2 : List Written,
        (handleChatStream env1 w1 c req).1.body = c.body ++ new1 ∧
        (handleChatStream env2 w2 c req).1.body = c.body ++ new2 ∧
        frames new1 = frames new2 ∧
        (∀ x ∈ new1 ++ new2, x.isError = false) ∧
        (frames new1).getLast? = some ("", true) ∧
        (handleChatStream env1 w1 c req).1.status = c.status ∧
        (handleChatStream env2 w2 c req).1.status = c.status) := by
  constructor
  · intro req hp1 hs1 hp2 hs2 hlines
    obtain ⟨hb1, hst1, _, _⟩ := handleStreamingGenerate_started env1 w1 c req hp1 hs1
    obtain ⟨hb2, hst2, _, _⟩ := handleStreamingGenerate_started env2 w2 c req hp2 hs2
    have hl := emittedLines_congr _ _ hlines
    refine ⟨_, _, hb1, hb2, ?_, ?_, ?_, hst1, hst2⟩
    · rw [frames_stream_generate, frames_stream_generate, hl]
    · intro x hx
      rw [List.mem_append] at hx
      rcases hx with hx | hx
      · exact stream_forall env1 generateFrame (generateFinal _) (fun y => y.isError = false) rfl
          (fun _ _ => rfl) rfl _ _ x hx
      · exact stream_forall env2 generateFrame (generateFinal _) (fun y => y.isError = false) rfl
          (fun _ _ => rfl) rfl _ _ x hx
    · rw [frames_stream_generate]
      simp
  · intro req hne0 hp1 hs1 hp2 hs2 hlines
    obtain ⟨hb1, hst1, _, _⟩ := handleChatStream_started env1 w1 c req hne0 hp1 hs1
    obtain ⟨hb2, hst2, _, _⟩ := handleChatStream_started env2 w2 c req hne0 hp2 hs2
    have hl := emittedLines_congr _ _ hlines
    refine ⟨_, _, hb1, hb2, ?_, ?_, ?_, hst1, hst2⟩
    · rw [frames_stream_chat, frames_stream_chat, hl]
    · intro x hx
      rw [List.mem_append] at hx
      rcases hx with hx | hx
      · exact stream_forall env1 chatFrame (chatFinal _) (fun y => y.isError = false) rfl
          (fun _ _ => rfl) rfl _ _ x hx
      · exact stream_forall env2 chatFrame (chatFinal _) (fun y => y.isError = false) rfl
          (fun _ _ => rfl) rfl _ _ x hx
    · rw [frames_stream_chat]
      simp

/-- C17, witness: the same two lines, once with exit status 0 and once with `cmd.Wait()`
returning `exit status 1`: the frames are the same. -/
theorem streamed_exit_status_not_surfaced_witness :
    frames (handleStreamingGenerate (scriptedEnv (fun _ => "line1\nline2\n") (fun _ => none))
      emptyWorld {} { Prompt := "Hello world", Stream := true }).1.body =
    frames (handleStreamingGenerate
      (scriptedEnv (fun _ => "line1\nline2\n") (fun _ => some "exit status 1"))
      emptyWorld {} { Prompt := "Hello world", Stream := true }).1.body := by
  obtain ⟨n1, n2, hb1, hb2, hf, _⟩ := (streamed_exit_status_not_surfaced
    (scriptedEnv (fun _ => "line1\nline2\n") (fun _ => none))
    (scriptedEnv (fun _ => "line1\nline2\n") (fun _ => some "exit status 1"))
    emptyWorld emptyWorld {}).1 { Prompt := "Hello world", Stream := true } rfl rfl rfl rfl rfl
  rw [hb1, hb2]
  exact hf

/-- C18. Whatever the request (and the model name it gives), every success envelope written
by `handleGenerate`, `handleChatWithStreaming` and `handleChat`, buffered or streamed,
partial or terminal, carries the model identifier "amazon-q", and every chat envelope has a
message with role "assistant". -/
theorem success_envelopes_labelled (env : Env) (w : World) (c : Ctx) :
    (∀ bound : Except String GenerateRequest,
      ∃ new : List Written, (handleGenerate env w c bound).1.body = c.body ++ new ∧
        (∀ r, Written.generate r ∈ new → r.Model = "amazon-q") ∧
        (∀ r, Written.chat r ∈ new → r.Model = "amazon-q" ∧ r.Message.Role = "assistant")) ∧
    (∀ bound : Except String ChatRequest,
      ∃ new : List Written, (handleChatWithStreaming env w c bound).1.body = c.body ++ new ∧
        (∀ r, Written.generate r ∈ new → r.Model = "amazon-q") ∧
        (∀ r, Written.chat r ∈ new → r.Model = "amazon-q" ∧ r.Message.Role = "assistant")) ∧
    (∀ bound : Except String ChatRequest,
      ∃ new : List Written, (handleChat env w c bound).1.body = c.body ++ new ∧
        (∀ r, Written.generate r ∈ new → r.Model = "amazon-q") ∧
        (∀ r, Written.chat r ∈ new → r.Model = "amazon-q" ∧ r.Message.Role = "assistant")) := by
  have hgen : ∀ x : Written, x.labelled = true → ∀ r, x = Written.generate r →
      r.Model = "amazon-q" := by
    intro x hx r hr
    subst hr
    simpa [Written.labelled] using hx
  have hchat : ∀ x : Written, x.labelled = true → ∀ r, x = Written.chat r →
      r.Model = "amazon-q" ∧ r.Message.Role = "assistant" := by
    intro x hx r hr
    subst hr
    simpa [Written.labelled] using hx
  have hpack : ∀ new : List Written, (∀ x ∈ new, x.labelled = true) →
      (∀ r, Written.generate r ∈ new → r.Model = "amazon-q") ∧
      (∀ r, Written.chat r ∈ new → r.Model = "amazon-q" ∧ r.Message.Role = "assistant") :=
    fun new h => ⟨fun r hr => hgen _ (h _ hr) r rfl, fun r hr => hchat _ (h _ hr) r rfl⟩
  have herr : ∀ m : String, ∀ x ∈ [Written.error m], x.labelled = true := by
    intro m x hx
    rw [List.mem_singleton] at hx
    subst hx
    rfl
  have hsg : ∀ req : GenerateRequest,
      ∃ new : List Written, (handleStreamingGenerate env w c req).1.body = c.body ++ new ∧
        ∀ x ∈ new, x.labelled = true := by
    intro req
    rcases handleStreamingGenerate_outcome env w c req with ⟨m, hb, _⟩ | ⟨ls, t, tick, hb, _⟩
    · exact ⟨_, hb, herr m⟩
    · exact ⟨_, hb, stream_forall env generateFrame (generateFinal t)
        (fun y => y.labelled = true) rfl (fun _ _ => rfl) rfl tick ls⟩
  have hsc : ∀ req : ChatRequest,
      ∃ new : List Written, (handleChatStream env w c req).1.body = c.body ++ new ∧
        ∀ x ∈ new, x.labelled = true := by
    intro req
    rcases handleChatStream_outcome env w c req with ⟨m, hb, _⟩ | ⟨ls, t, tick, hb, _⟩
    · exact ⟨_, hb, herr m⟩
    · exact ⟨_, hb, stream_forall env chatFrame (chatFinal t)
        (fun y => y.labelled = true) rfl (fun _ _ => rfl) rfl tick ls⟩
  refine ⟨?_, ?_, ?_⟩
  · intro bound
    cases bound with
    | error e => exact ⟨[Written.error e], rfl, hpack _ (herr e)⟩
    | ok req =>
      cases hstr : req.Stream with
      | true =>
        have e : handleGenerate env w c (Except.ok req) = handleStreamingGenerate env w c req := by
          simp [handleGenerate, hstr]
        rw [e]
        obtain ⟨new, hb, hl⟩ := hsg req
        exact ⟨new, hb, hpack new hl⟩
      | false =>
        rcases handleGenerate_buffered_outcome env w c req hstr with ⟨m, hb, _⟩ |
          ⟨r, hb, _, _, hm⟩
        · exact ⟨_, hb, hpack _ (herr m)⟩
        · refine ⟨_, hb, hpack _ ?_⟩
          intro x hx
          rw [List.mem_singleton] at hx
          subst hx
          simp [Written.labelled, hm]
  · intro bound
    cases bound with
    | error e => exact ⟨[Written.error e], rfl, hpack _ (herr e)⟩
    | ok req =>
      cases hstr : req.Stream with
      | true =>
        have e : handleChatWithStreaming env w c (Except.ok req) =
            handleChatStream env w c req := by
          simp [handleChatWithStreaming, hstr]
        rw [e]
        obtain ⟨new, hb, hl⟩ := hsc req
        exact ⟨new, hb, hpack new hl⟩
      | false =>
        rcases handleChatWithStreaming_buffered_outcome env w c req hstr with ⟨m, hb, _⟩ |
          ⟨r, hb, _, _, hm, hr⟩
        · exact ⟨_, hb, hpack _ (herr m)⟩
        · refine ⟨_, hb, hpack _ ?_⟩
          intro x hx
          rw [List.mem_singleton] at hx
          subst hx
          simp [Written.labelled, hm, hr]
  · intro bound
    cases bound with
    | error e => exact ⟨[Written.error e], rfl, hpack _ (herr e)⟩
    | ok req =>
      rcases handleChat_outcome env w c req with ⟨m, hb, _⟩ | ⟨r, hb, _, _, hm, hr⟩
      · exact ⟨_, hb, hpack _ (herr m)⟩
      · refine ⟨_, hb, hpack _ ?_⟩
        intro x hx
        rw [List.mem_singleton] at hx
        subst hx
        simp [Written.labelled, hm, hr]

/-- C18, witness: a buffered generate request and a streamed chat request that name the
model `llama3`. -/
theorem success_envelopes_labelled_witness :
    (∀ r, Written.generate r ∈ (handleGenerate (printingEnv "Hi there") emptyWorld {}
        (Except.ok { Model := "llama3", Prompt := "Hello world" })).1.body →
      r.Model = "amazon-q") ∧
    (∀ r, Written.chat r ∈ (handleChatWithStreaming (printingEnv "line1\nline2\n") emptyWorld {}
        (Except.ok { Model := "llama3", Messages := [{ Role := "user", Content := "Hello" }],
                     Stream := true })).1.body →
      r.Model = "amazon-q" ∧ r.Message.Role = "assistant") := by
  obtain ⟨n1, hb1, hg1, _⟩ := (success_envelopes_labelled (printingEnv "Hi there") emptyWorld
    {}).1 (Except.ok { Model := "llama3", Prompt := "Hello world" })
  obtain ⟨n2, hb2, _, hc2⟩ := (success_envelopes_labelled (printingEnv "line1\nline2\n")
    emptyWorld {}).2.1
    (Except.ok { Model := "llama3", Messages := [{ Role := "user", Content := "Hello" }],
                 Stream := true })
  constructor
  · intro r hr
    rw [hb1] at hr
    exact hg1 r (by simpa using hr)
  · intro r hr
    rw [hb2] at hr
    exact hc2 r (by simpa using hr)

/-- C19. In every successful buffered generate or chat envelope `total_duration` and
`eval_duration` are the same value: the difference of the monotonic clock between the
reading taken just before `executeQCommand` and the first reading taken after it; the
fields `load_duration`, `prompt_eval_count` and `prompt_eval_duration` are zero. -/
theorem buffered_durations (env : Env) (w : World) (c : Ctx) :
    (∀ req : GenerateRequest, req.Stream = false →
      (commandResult env (now env w).2 req.Prompt req.Images).err = none →
      ∃ r : GenerateResponse,
        (handleGenerate env w c (Except.ok req)).1.body = c.body ++ [Written.generate r] ∧
        r.TotalDuration = r.EvalDuration ∧
        r.TotalDuration =
          (env.clock (w.ticks + 1 +
            (req.Images.filter (fun s => (DecodeString s).isSome)).length)).mono -
            (env.clock w.ticks).mono ∧
        r.LoadDuration = 0 ∧ r.PromptEvalCount = 0 ∧ r.PromptEvalDuration = 0) ∧
    (∀ req : ChatRequest, req.Stream = false → (extractUserTurn req.Messages).1 ≠ "" →
      (commandResult env (now env w).2 (extractUserTurn req.Messages).1
        (extractUserTurn req.Messages).2).err = none →
      ∃ r : ChatResponse,
        (handleChatWithStreaming env w c (Except.ok req)).1.body = c.body ++ [Written.chat r] ∧
        (handleChat env w c (Except.ok req)).1.body = c.body ++ [Written.chat r] ∧
        r.TotalDuration = r.EvalDuration ∧
        r.TotalDuration =
          (env.clock (w.ticks + 1 +
            ((extractUserTurn req.Messages).2.filter
              (fun s => (DecodeString s).isSome)).length)).mono -
            (env.clock w.ticks).mono ∧
        r.LoadDuration = 0 ∧ r.PromptEvalCount = 0 ∧ r.PromptEvalDuration = 0) := by
  constructor
  · intro req hstr hok
    have h := executeQCommand_ok env (now env w).2 req.Prompt req.Images hok
    have ht := executeQCommand_ticks env (now env w).2 req.Prompt req.Images
    simp only [handleGenerate, hstr, Bool.false_eq_true, if_false, h]
    refine ⟨_, rfl, rfl, ?_, rfl, rfl, rfl⟩
    simp only [now] at ht ⊢
    rw [ht]
  · intro req hstr hne hok
    have h := executeQCommand_ok env (now env w).2 _ _ hok
    have ht := executeQCommand_ticks env (now env w).2 (extractUserTurn req.Messages).1
      (extractUserTurn req.Messages).2
    simp only [handleChatWithStreaming, handleChat, hstr, Bool.false_eq_true, if_false, hne, h]
    refine ⟨_, rfl, rfl, rfl, ?_, rfl, rfl, rfl⟩
    simp only [now] at ht ⊢
    rw [ht]

/-- C19, witness: one decodable attachment; the clock advances 1000 ns per reading, so the
measured time between the first and the third reading is 2000 ns. -/
theorem buffered_durations_witness :
    ∃ r : GenerateResponse,
      (handleGenerate (printingEnv "Hi there") emptyWorld {}
        (Except.ok { Prompt := "Describe", Images := ["aGk="] })).1.body =
          [Written.generate r] ∧
      r.TotalDuration = 2000 ∧ r.EvalDuration = 2000 ∧
      r.LoadDuration = 0 ∧ r.PromptEvalCount = 0 ∧ r.PromptEvalDuration = 0 := by
  obtain ⟨r, hb, he, ht, h1, h2, h3⟩ := (buffered_durations (printingEnv "Hi there") emptyWorld
    {}).1 { Prompt := "Describe", Images := ["aGk="] } rfl rfl
  have ht2 : r.TotalDuration = 2000 := ht.trans (by decide)
  exact ⟨r, hb, ht2, by rw [← he, ht2], h1, h2, h3⟩

/-- C20. In a streamed generate or chat response no written envelope carries a metric: on
every partial frame and on the terminal frame `total_duration`, `load_duration`,
`prompt_eval_count`, `prompt_eval_duration`, `eval_count` and `eval_duration` are zero. -/
theorem streamed_frames_no_metrics (env : Env) (w : World) (c : Ctx) :
    (∀ req : GenerateRequest,
      ∃ new : List Written, (handleStreamingGenerate env w c req).1.body = c.body ++ new ∧
        (∀ x ∈ new, x.noMetrics = true) ∧
        (∀ r, Written.generate r ∈ new →
          r.TotalDuration = 0 ∧ r.LoadDuration = 0 ∧ r.PromptEvalCount = 0 ∧
            r.PromptEvalDuration = 0 ∧ r.EvalCount = 0 ∧ r.EvalDuration = 0)) ∧
    (∀ req : ChatRequest,
      ∃ new : List Written, (handleChatStream env w c req).1.body = c.body ++ new ∧
        (∀ x ∈ new, x.noMetrics = true) ∧
        (∀ r, Written.chat r ∈ new →
          r.TotalDuration = 0 ∧ r.LoadDuration = 0 ∧ r.PromptEvalCount = 0 ∧
            r.PromptEvalDuration = 0 ∧ r.EvalCount = 0 ∧ r.EvalDuration = 0)) := by
  have herr : ∀ m : String, ∀ x ∈ [Written.error m], x.noMetrics = true := by
    intro m x hx
    rw [List.mem_singleton] at hx
    subst hx
    rfl
  constructor
  · intro req
    have h : ∃ new : List Written, (handleStreamingGenerate env w c req).1.body = c.body ++ new ∧
        ∀ x ∈ new, x.noMetrics = true := by
      rcases handleStreamingGenerate_outcome env w c req with ⟨m, hb, _⟩ | ⟨ls, t, tick, hb, _⟩
      · exact ⟨_, hb, herr m⟩
      · exact ⟨_, hb, stream_forall env generateFrame (generateFinal t)
          (fun y => y.noMetrics = true) rfl (fun _ _ => rfl) rfl tick ls⟩
    obtain ⟨new, hb, hn⟩ := h
    refine ⟨new, hb, hn, ?_⟩
    intro r hr
    have := hn _ hr
    simpa [Written.noMetrics, and_assoc] using this
  · intro req
    have h : ∃ new : List Written, (handleChatStream env w c req).1.body = c.body ++ new ∧
        ∀ x ∈ new, x.noMetrics = true := by
      rcases handleChatStream_outcome env w c req with ⟨m, hb, _⟩ | ⟨ls, t, tick, hb, _⟩
      · exact ⟨_, hb, herr m⟩
      · exact ⟨_, hb, stream_forall env chatFrame (chatFinal t)
          (fun y => y.noMetrics = true) rfl (fun _ _ => rfl) rfl tick ls⟩
    obtain ⟨new, hb, hn⟩ := h
    refine ⟨new, hb, hn, ?_⟩
    intro r hr
    have := hn _ hr
    simpa [Written.noMetrics, and_assoc] using this

/-- C20, witness: the terminal frame of a streamed generate response has `eval_count` and
`total_duration` zero although two lines were streamed. -/
theorem streamed_frames_no_metrics_witness :
    ∀ r, Written.generate r ∈ (handleStreamingGenerate (printingEnv "line1\nline2\n")
        emptyWorld {} { Prompt := "Hello world", Stream := true }).1.body →
      r.TotalDuration = 0 ∧ r.EvalCount = 0 ∧ r.EvalDuration = 0 := by
  obtain ⟨new, hb, _, hm⟩ := (streamed_frames_no_metrics (printingEnv "line1\nline2\n")
    emptyWorld {}).1 { Prompt := "Hello world", Stream := true }
  intro r hr
  rw [hb] at hr
  have h := hm r (by simpa using hr)
  exact ⟨h.1, h.2.2.2.2.1, h.2.2.2.2.2⟩

/-- C21. `corsMiddleware` sets `Access-Control-Allow-Origin` to `*`, allowed methods that
include `POST` and allowed headers that include `Content-Type`. For a request with method
OPTIONS, on any path and before any handler chain, it answers 204 with these headers, writes
no body and aborts: no later handler runs and the world is left as it was (no process is
invoked). For every other method the route handler runs on the context that carries these
headers, and the responses of `handleGenerate` and `handleChatWithStreaming` keep them. -/
theorem corsMiddleware_preflight_and_passthrough (path : String) (w : World) (c : Ctx) :
    (corsHeaders c).GetHeader "Access-Control-Allow-Origin" = some "*" ∧
    (∃ a b : List Char, (corsHeaders c).GetHeader "Access-Control-Allow-Methods" =
      some (String.mk (a ++ "POST".data ++ b))) ∧
    (∃ a b : List Char, (corsHeaders c).GetHeader "Access-Control-Allow-Headers" =
      some (String.mk (a ++ "Content-Type".data ++ b))) ∧
    (∀ rest : List HandlerFunc, rest.length < 63 → c.written = false →
      (serve "OPTIONS" path (corsMiddleware :: rest) w c).1.status = 204 ∧
      (serve "OPTIONS" path (corsMiddleware :: rest) w c).1.body = c.body ∧
      (serve "OPTIONS" path (corsMiddleware :: rest) w c).1.headers = (corsHeaders c).headers ∧
      (serve "OPTIONS" path (corsMiddleware :: rest) w c).2 = w) ∧
    (∀ (method : String) (h : World → Ctx → Ctx × World), method ≠ "OPTIONS" →
      serve method path [corsMiddleware, routeHandler h] w c = h w (corsHeaders c)) ∧
    (∀ (env : Env) (method : String) (bound : Except String GenerateRequest),
      method ≠ "OPTIONS" →
      (serve method path
        [corsMiddleware, routeHandler (fun w2 c2 => handleGenerate env w2 c2 bound)]
        w c).1.GetHeader "Access-Control-Allow-Origin" = some "*") ∧
    (∀ (env : Env) (method : String) (bound : Except String ChatRequest),
      method ≠ "OPTIONS" →
      (serve method path
        [corsMiddleware, routeHandler (fun w2 c2 => handleChatWithStreaming env w2 c2 bound)]
        w c).1.GetHeader "Access-Control-Allow-Origin" = some "*") := by
  have horigin : (corsHeaders c).GetHeader "Access-Control-Allow-Origin" = some "*" := by
    unfold corsHeaders
    rw [getHeader_Header_other _ _ _ _ (by decide), getHeader_Header_other _ _ _ _ (by decide),
      getHeader_Header_other _ _ _ _ (by decide), getHeader_Header_other _ _ _ _ (by decide),
      getHeader_Header_self]
  have hmethods : (corsHeaders c).GetHeader "Access-Control-Allow-Methods" =
      some "GET, POST, PUT, DELETE, OPTIONS, HEAD" := by
    unfold corsHeaders
    rw [getHeader_Header_other _ _ _ _ (by decide), getHeader_Header_other _ _ _ _ (by decide),
      getHeader_Header_other _ _ _ _ (by decide), getHeader_Header_self]
  have hheaders : (corsHeaders c).GetHeader "Access-Control-Allow-Headers" =
      some "Origin, Content-Type, Content-Length, Accept-Encoding, X-CSRF-Token, Authorization" := by
    unfold corsHeaders
    rw [getHeader_Header_other _ _ _ _ (by decide), getHeader_Header_other _ _ _ _ (by decide),
      getHeader_Header_self]
  refine ⟨horigin, ?_, ?_, ?_, ?_, ?_, ?_⟩
  · exact ⟨"GET, ".data, ", PUT, DELETE, OPTIONS, HEAD".data, hmethods.trans (by decide)⟩
  · exact ⟨"Origin, ".data,
      ", Content-Length, Accept-Encoding, X-CSRF-Token, Authorization".data,
      hheaders.trans (by decide)⟩
  · intro rest hlen hw
    rw [serve_cors_options path rest w c hlen]
    have hw2 : (corsHeaders c).written = false := hw
    refine ⟨?_, rfl, rfl, rfl⟩
    simp [Ctx.AbortWithStatus, hw2]
  · intro method h hm
    exact serve_cors_other method path h w c hm
  · intro env method bound hm
    rw [serve_cors_other method path _ w c hm,
      handleGenerate_getHeader env w _ bound _ (by decide) (by decide)]
    exact horigin
  · intro env method bound hm
    rw [serve_cors_other method path _ w c hm,
      handleChatWithStreaming_getHeader env w _ bound _ (by decide) (by decide)]
    exact horigin

/-- C21, witness: an OPTIONS request to `/api/generate` is answered 204 without running the
process; the same request with method POST runs it. -/
theorem corsMiddleware_preflight_and_passthrough_witness :
    (serve "OPTIONS" "/api/generate"
      [corsMiddleware, routeHandler (fun w2 c2 => handleGenerate (printingEnv "Hi there") w2 c2
        (Except.ok { Prompt := "Hello world" }))] emptyWorld {}).1.status = 204 ∧
    (serve "OPTIONS" "/api/generate"
      [corsMiddleware, routeHandler (fun w2 c2 => handleGenerate (printingEnv "Hi there") w2 c2
        (Except.ok { Prompt := "Hello world" }))] emptyWorld {}).2.execs = [] ∧
    (serve "POST" "/api/generate"
      [corsMiddleware, routeHandler (fun w2 c2 => handleGenerate (printingEnv "Hi there") w2 c2
        (Except.ok { Prompt := "Hello world" }))] emptyWorld {}).2.execs =
      [("q", ["chat", "--message", "Hello world"])] := by
  have h := corsMiddleware_preflight_and_passthrough "/api/generate" emptyWorld {}
  have h1 := h.2.2.2.1 [routeHandler (fun w2 c2 => handleGenerate (printingEnv "Hi there") w2 c2
    (Except.ok { Prompt := "Hello world" }))] (by decide) rfl
  have h2 := h.2.2.2.2.1 "POST" (fun w2 c2 => handleGenerate (printingEnv "Hi there") w2 c2
    (Except.ok { Prompt := "Hello world" })) (by decide)
  refine ⟨h1.1, ?_, ?_⟩
  · rw [h1.2.2.2]; rfl
  · rw [h2]; decide

/-- C22. From a fresh response context, a chat request, streamed or not, is rejected with
status 400 and the envelope `No user message found` if and only if it has no message with
role "user" or the content of its last message with role "user" is the empty string. -/
theorem chat_rejected_iff (env : Env) (w : World) (c : Ctx) (req : ChatRequest)
    (hw : c.written = false) (hs : c.status = 200) :
    ((handleChatWithStreaming env w c (Except.ok req)).1.status = 400 ∧
      (handleChatWithStreaming env w c (Except.ok req)).1.body =
        c.body ++ [Written.error "No user message found"]) ↔
      ((∀ m ∈ req.Messages, m.Role ≠ "user") ∨
        ∃ (front : List Message) (m : Message) (back : List Message),
          req.Messages = front ++ m :: back ∧ m.Role = "user" ∧
            (∀ x ∈ back, x.Role ≠ "user") ∧ m.Content = "") := by
  rw [← extractUserTurn_empty_iff]
  constructor
  · intro h
    by_contra hne
    exact handleChatWithStreaming_accepted_status env w c req hne hw hs h.1
  · intro h
    obtain ⟨hb, hst, _⟩ := handleChatWithStreaming_rejected env w c req h
    exact ⟨hst hw, hb⟩

/-- C22, witness: the last user message has empty content, carries an image and follows a
user message with content; and a request whose only message has role `User`. Both are
rejected, streamed or not. -/
theorem chat_rejected_iff_witness :
    ((handleChatWithStreaming (printingEnv "Hi there") emptyWorld {}
        (Except.ok { Messages := [{ Role := "user", Content := "first" },
                                  { Role := "user", Content := "", Images := ["aGk="] }],
                     Stream := true })).1.status = 400 ∧
      (handleChatWithStreaming (printingEnv "Hi there") emptyWorld {}
        (Except.ok { Messages := [{ Role := "user", Content := "first" },
                                  { Role := "user", Content := "", Images := ["aGk="] }],
                     Stream := true })).1.body = [Written.error "No user message found"]) ∧
    ((handleChatWithStreaming (printingEnv "Hi there") emptyWorld {}
        (Except.ok { Messages := [{ Role := "User", Content := "Hello" }] })).1.status = 400 ∧
      (handleChatWithStreaming (printingEnv "Hi there") emptyWorld {}
        (Except.ok { Messages := [{ Role := "User", Content := "Hello" }] })).1.body =
          [Written.error "No user message found"]) := by
  constructor
  · exact (chat_rejected_iff (printingEnv "Hi there") emptyWorld {}
      { Messages := [{ Role := "user", Content := "first" },
                     { Role := "user", Content := "", Images := ["aGk="] }],
        Stream := true } rfl rfl).2
      (Or.inr ⟨[{ Role := "user", Content := "first" }],
        { Role := "user", Content := "", Images := ["aGk="] }, [], rfl, rfl, by simp, rfl⟩)
  · exact (chat_rejected_iff (printingEnv "Hi there") emptyWorld {}
      { Messages := [{ Role := "User", Content := "Hello" }] } rfl rfl).2
      (Or.inl (by decide))

/-- C23. The outcome of a chat request (the command run and the response written) depends
only on its `stream` flag and on its last message with role "user": its content and, in
buffered mode, its images. Two requests that agree on these produce the same invocation
and the same response, whatever their other messages, the images of other messages, their
tool calls, tools, options, format and model. -/
theorem chat_depends_on_last_user (env : Env) (w : World) (c : Ctx) (req1 req2 : ChatRequest)
    (front1 : List Message) (m1 : Message) (back1 : List Message)
    (front2 : List Message) (m2 : Message) (back2 : List Message)
    (h1 : req1.Messages = front1 ++ m1 :: back1) (hm1 : m1.Role = "user")
    (hb1 : ∀ x ∈ back1, x.Role ≠ "user")
    (h2 : req2.Messages = front2 ++ m2 :: back2) (hm2 : m2.Role = "user")
    (hb2 : ∀ x ∈ back2, x.Role ≠ "user")
    (hstream : req1.Stream = req2.Stream) (hcontent : m1.Content = m2.Content)
    (himages : req1.Stream = false → m1.Images = m2.Images) :
    handleChatWithStreaming env w c (Except.ok req1) =
        handleChatWithStreaming env w c (Except.ok req2) ∧
      (handleChatWithStreaming env w c (Except.ok req1)).2.execs =
        (handleChatWithStreaming env w c (Except.ok req2)).2.execs ∧
      (m1.Content ≠ "" → req1.Stream = false →
        (handleChatWithStreaming env w c (Except.ok req1)).2.execs =
          w.execs ++ [("q", ["chat", "--message", m1.Content] ++
            fileArgs (stagedPaths env (w.ticks + 1) 0 m1.Images))]) ∧
      (m1.Content ≠ "" → req1.Stream = true →
        (env.runStream w.execs.length ("q", ["chat", "--message", m1.Content])).pipeErr = none →
        (handleChatWithStreaming env w c (Except.ok req1)).2.execs =
          w.execs ++ [("q", ["chat", "--message", m1.Content])]) := by
  have e1 : extractUserTurn req1.Messages = (m1.Content, m1.Images) := by
    rw [h1]; exact extractUserTurn_last front1 m1 back1 hm1 hb1
  have e2 : extractUserTurn req2.Messages = (m2.Content, m2.Images) := by
    rw [h2]; exact extractUserTurn_last front2 m2 back2 hm2 hb2
  have heq : handleChatWithStreaming env w c (Except.ok req1) =
      handleChatWithStreaming env w c (Except.ok req2) := by
    apply handleChatWithStreaming_congr env w c req1 req2
    · rw [e1, e2]; exact hcontent
    · exact hstream
    · intro hs
      rw [e1, e2]
      exact himages hs
  refine ⟨heq, by rw [heq], ?_, ?_⟩
  · intro hne hs
    have hx : (handleChatWithStreaming env w c (Except.ok req1)).2.execs =
        (executeQCommand env (now env w).2 m1.Content m1.Images).2.execs := by
      simp only [handleChatWithStreaming, hs, Bool.false_eq_true, if_false, e1, hne]
      cases (executeQCommand env (now env w).2 m1.Content m1.Images).1.2 <;> simp [now]
    rw [hx, executeQCommand_execs]
    simp [stageAttachments, stageLoop_args, now]
  · intro hne hs hp
    have e : handleChatWithStreaming env w c (Except.ok req1) =
        handleChatStream env w c req1 := by
      simp [handleChatWithStreaming, hs]
    have hne2 : (extractUserTurn req1.Messages).1 ≠ "" := by rw [e1]; exact hne
    have hp2 : (env.runStream w.execs.length
        ("q", ["chat", "--message", (extractUserTurn req1.Messages).1])).pipeErr = none := by
      rw [e1]; exact hp
    rw [e]
    have hc : m1.Content = (extractUserTurn req1.Messages).1 := by rw [e1]
    rw [hc]
    cases hst : (env.runStream w.execs.length
        ("q", ["chat", "--message", (extractUserTurn req1.Messages).1])).startErr with
    | some err => rw [handleChatStream_start_fails env w c req1 err hne2 hp2 hst]
    | none => exact (handleChatStream_started env w c req1 hne2 hp2 hst).2.2.1

/-- C23, witness: two buffered requests with the same last user message and otherwise
different conversations, models and earlier images run the same command. -/
theorem chat_depends_on_last_user_witness :
    handleChatWithStreaming (printingEnv "Hi there") emptyWorld {}
      (Except.ok { Model := "amazon-q",
                   Messages := [{ Role := "system", Content := "Be brief" },
                                { Role := "user", Content := "Hello", Images := ["aGk="] }] }) =
    handleChatWithStreaming (printingEnv "Hi there") emptyWorld {}
      (Except.ok { Model := "llama3", Format := "json",
                   Messages := [{ Role := "user", Content := "Earlier", Images := ["aGVsbG8="] },
                                { Role := "user", Content := "Hello", Images := ["aGk="] },
                                { Role := "assistant", Content := "Hi" }] }) :=
  (chat_depends_on_last_user (printingEnv "Hi there") emptyWorld {}
    { Model := "amazon-q",
      Messages := [{ Role := "system", Content := "Be brief" },
                   { Role := "user", Content := "Hello", Images := ["aGk="] }] }
    { Model := "llama3", Format := "json",
      Messages := [{ Role := "user", Content := "Earlier", Images := ["aGVsbG8="] },
                   { Role := "user", Content := "Hello", Images := ["aGk="] },
                   { Role := "assistant", Content := "Hi" }] }
    [{ Role := "system", Content := "Be brief" }]
    { Role := "user", Content := "Hello", Images := ["aGk="] } []
    [{ Role := "user", Content := "Earlier", Images := ["aGVsbG8="] }]
    { Role := "user", Content := "Hello", Images := ["aGk="] }
    [{ Role := "assistant", Content := "Hi" }]
    rfl rfl (by simp) rfl rfl (by decide) rfl rfl (fun _ => rfl)).1

/-- C24. The outcome of a generate request (the command run and the response written)
depends only on its prompt, its `stream` flag and, in buffered mode, its images: two
requests that agree on these but differ in model, system, template, context, options,
format or raw produce the same invocation, whose argument vector holds the prompt and the
staged files only. -/
theorem generate_depends_on_prompt (env : Env) (w : World) (c : Ctx)
    (req1 req2 : GenerateRequest) (hprompt : req1.Prompt = req2.Prompt)
    (hstream : req1.Stream = req2.Stream)
    (himages : req1.Stream = false → req1.Images = req2.Images) :
    handleGenerate env w c (Except.ok req1) = handleGenerate env w c (Except.ok req2) ∧
      (handleGenerate env w c (Except.ok req1)).2.execs =
        (handleGenerate env w c (Except.ok req2)).2.execs ∧
      (req1.Stream = false →
        (handleGenerate env w c (Except.ok req1)).2.execs =
          w.execs ++ [("q", ["chat", "--message", req1.Prompt] ++
            fileArgs (stagedPaths env (w.ticks + 1) 0 req1.Images))]) ∧
      (req1.Stream = true →
        (env.runStream w.execs.length ("q", ["chat", "--message", req1.Prompt])).pipeErr = none →
        (handleGenerate env w c (Except.ok req1)).2.execs =
          w.execs ++ [("q", ["chat", "--message", req1.Prompt])]) := by
  have heq := handleGenerate_congr env w c req1 req2 hprompt hstream himages
  refine ⟨heq, by rw [heq], ?_, ?_⟩
  · intro hs
    have hx : (handleGenerate env w c (Except.ok req1)).2.execs =
        (executeQCommand env (now env w).2 req1.Prompt req1.Images).2.execs := by
      simp only [handleGenerate, hs, Bool.false_eq_true, if_false]
      cases (executeQCommand env (now env w).2 req1.Prompt req1.Images).1.2 <;> simp [now]
    rw [hx, executeQCommand_execs]
    simp [stageAttachments, stageLoop_args, now]
  · intro hs hp
    have e : handleGenerate env w c (Except.ok req1) = handleStreamingGenerate env w c req1 := by
      simp [handleGenerate, hs]
    rw [e]
    cases hst : (env.runStream w.execs.length
        ("q", ["chat", "--message", req1.Prompt])).startErr with
    | some err => rw [handleStreamingGenerate_start_fails env w c req1 err hp hst]
    | none => exact (handleStreamingGenerate_started env w c req1 hp hst).2.2.1

/-- C24, witness: a system prompt, a template and a model name do not change the command
run. -/
theorem generate_depends_on_prompt_witness :
    (handleGenerate (printingEnv "Hi there") emptyWorld {}
      (Except.ok { Model := "llama3", Prompt := "Hello world", System := "You are a pirate",
                   Template := "custom", Raw := true })).2.execs =
      [("q", ["chat", "--message", "Hello world"])] := by
  have h := (generate_depends_on_prompt (printingEnv "Hi there") emptyWorld {}
    { Model := "llama3", Prompt := "Hello world", System := "You are a pirate",
      Template := "custom", Raw := true }
    { Prompt := "Hello world" } rfl rfl (fun _ => rfl)).2.2.1 rfl
  exact h.trans (by decide)

/-- C25. `handleChat` and `handleChatWithStreaming` agree on every request with
`stream=false` and on every body that does not bind: same user message and images, same
invocation, same status and envelope. For `stream=true` `handleChat` answers as for the
same request with `stream=false`, in buffered mode. -/
theorem handleChat_equiv_buffered (env : Env) (w : World) (c : Ctx) :
    (∀ e : String,
      handleChat env w c (Except.error e) = handleChatWithStreaming env w c (Except.error e)) ∧
    (∀ req : ChatRequest, req.Stream = false →
      handleChat env w c (Except.ok req) = handleChatWithStreaming env w c (Except.ok req)) ∧
    (∀ req : ChatRequest,
      handleChat env w c (Except.ok req) =
        handleChatWithStreaming env w c (Except.ok { req with Stream := false })) := by
  refine ⟨fun _ => rfl, ?_, ?_⟩
  · intro req hs
    simp only [handleChat, handleChatWithStreaming, hs, Bool.false_eq_true, if_false]
  · intro req
    simp only [handleChat, handleChatWithStreaming, Bool.false_eq_true, if_false]

/-- C25, witness: on a request with `stream=false` the two handlers write the same response;
on the same request with `stream=true` `handleChat` writes one envelope and
`handleChatWithStreaming` a frame sequence. -/
theorem handleChat_equiv_buffered_witness :
    handleChat (printingEnv "line1\nline2\n") emptyWorld {}
        (Except.ok { Messages := [{ Role := "user", Content := "Hello" }], Stream := false }) =
      handleChatWithStreaming (printingEnv "line1\nline2\n") emptyWorld {}
        (Except.ok { Messages := [{ Role := "user", Content := "Hello" }], Stream := false }) ∧
    frames (handleChat (printingEnv "line1\nline2\n") emptyWorld {}
        (Except.ok { Messages := [{ Role := "user", Content := "Hello" }],
                     Stream := true })).1.body = [("line1\nline2", true)] ∧
    frames (handleChatWithStreaming (printingEnv "line1\nline2\n") emptyWorld {}
        (Except.ok { Messages := [{ Role := "user", Content := "Hello" }],
                     Stream := true })).1.body =
      [("line1", false), ("line2", false), ("", true)] := by
  have h := handleChat_equiv_buffered (printingEnv "line1\nline2\n") emptyWorld {}
  refine ⟨h.2.1 { Messages := [{ Role := "user", Content := "Hello" }], Stream := false } rfl,
    ?_, by decide⟩
  rw [h.2.2 { Messages := [{ Role := "user", Content := "Hello" }], Stream := true }]
  decide

/-- C26. `handleStreamingGenerate` and `handleChatStream` are equivalent up to the shape of
the envelope. For the same instruction, in the same environment they leave the same world
(same command `q chat --message <instruction>`), the same status and the same frames:
same number, same `done` flags, the i-th response string equal to the i-th message
content. The frames are equal as well for two started processes that print the same
lines. -/
theorem stream_handlers_equivalent (reqg : GenerateRequest) (reqc : ChatRequest) (c : Ctx)
    (hinstr : reqg.Prompt = (extractUserTurn reqc.Messages).1)
    (hne : (extractUserTurn reqc.Messages).1 ≠ "") :
    (∀ (env : Env) (w : World),
      (handleStreamingGenerate env w c reqg).2 = (handleChatStream env w c reqc).2 ∧
      (handleStreamingGenerate env w c reqg).1.status = (handleChatStream env w c reqc).1.status ∧
      frames (handleStreamingGenerate env w c reqg).1.body =
        frames (handleChatStream env w c reqc).1.body ∧
      (handleStreamingGenerate env w c reqg).1.body.length =
        (handleChatStream env w c reqc).1.body.length) ∧
    (∀ (env1 env2 : Env) (w1 w2 : World),
      (env1.runStream w1.execs.length ("q", ["chat", "--message", reqg.Prompt])).pipeErr = none →
      (env1.runStream w1.execs.length ("q", ["chat", "--message", reqg.Prompt])).startErr = none →
      (env2.runStream w2.execs.length
        ("q", ["chat", "--message", (extractUserTurn reqc.Messages).1])).pipeErr = none →
      (env2.runStream w2.execs.length
        ("q", ["chat", "--message", (extractUserTurn reqc.Messages).1])).startErr = none →
      rawLines (env1.runStream w1.execs.length
          ("q", ["chat", "--message", reqg.Prompt])).stdout.data =
        rawLines (env2.runStream w2.execs.length
          ("q", ["chat", "--message", (extractUserTurn reqc.Messages).1])).stdout.data →
      ∃ newg newc : List Written,
        (handleStreamingGenerate env1 w1 c reqg).1.body = c.body ++ newg ∧
        (handleChatStream env2 w2 c reqc).1.body = c.body ++ newc ∧
        frames newg = frames newc ∧
        (handleStreamingGenerate env1 w1 c reqg).2.execs =
          w1.execs ++ [("q", ["chat", "--message", reqg.Prompt])] ∧
        (handleChatStream env2 w2 c reqc).2.execs =
          w2.execs ++ [("q", ["chat", "--message", reqg.Prompt])]) := by
  have hlen : ∀ (env : Env) (frame : String → Instant → Written) (tick : Nat)
      (ls : List String), (partialFrames env frame tick ls).length = 2 * ls.length := by
    intro env frame tick ls
    induction ls generalizing tick with
    | nil => rfl
    | cons l ls ih =>
      simp only [partialFrames, List.length_cons, ih]
      omega
  constructor
  · intro env w
    cases hp : (env.runStream w.execs.length
        ("q", ["chat", "--message", (extractUserTurn reqc.Messages).1])).pipeErr with
    | some e =>
      have hp1 : (env.runStream w.execs.length
          ("q", ["chat", "--message", reqg.Prompt])).pipeErr = some e := by rw [hinstr]; exact hp
      rw [handleStreamingGenerate_pipe_fails env w c reqg e hp1,
        handleChatStream_pipe_fails env w c reqc e hne hp]
      exact ⟨rfl, rfl, rfl, rfl⟩
    | none =>
      have hp1 : (env.runStream w.execs.length
          ("q", ["chat", "--message", reqg.Prompt])).pipeErr = none := by rw [hinstr]; exact hp
      cases hs : (env.runStream w.execs.length
          ("q", ["chat", "--message", (extractUserTurn reqc.Messages).1])).startErr with
      | some e =>
        have hs1 : (env.runStream w.execs.length
            ("q", ["chat", "--message", reqg.Prompt])).startErr = some e := by
          rw [hinstr]; exact hs
        rw [handleStreamingGenerate_start_fails env w c reqg e hp1 hs1,
          handleChatStream_start_fails env w c reqc e hne hp hs, hinstr]
        exact ⟨rfl, rfl, rfl, rfl⟩
      | none =>
        have hs1 : (env.runStream w.execs.length
            ("q", ["chat", "--message", reqg.Prompt])).startErr = none := by
          rw [hinstr]; exact hs
        obtain ⟨gb, gs, ge, gf⟩ := handleStreamingGenerate_started env w c reqg hp1 hs1
        obtain ⟨cb, cs, ce, cf⟩ := handleChatStream_started env w c reqc hne hp hs
        have gt : (handleStreamingGenerate env w c reqg).2.ticks =
            w.ticks + (emittedLines (env.runStream w.execs.length
              ("q", ["chat", "--message", reqg.Prompt])).stdout).length + 1 := by
          simp only [handleStreamingGenerate, hp1, hs1, now]
          rw [(streamLoop_spec env _ _ _ _ _ (Nat.lt_succ_self _)).2.2.2.1]
        have ct : (handleChatStream env w c reqc).2.ticks =
            w.ticks + (emittedLines (env.runStream w.execs.length
              ("q", ["chat", "--message", (extractUserTurn reqc.Messages).1])).stdout).length +
              1 := by
          simp only [handleChatStream, hne, if_false, hp, hs, now]
          rw [(streamLoop_spec env _ _ _ _ _ (Nat.lt_succ_self _)).2.2.2.1]
        refine ⟨?_, by rw [gs, cs], ?_, ?_⟩
        · have hw : ∀ a b : World, a.fs = b.fs → a.ticks = b.ticks → a.execs = b.execs →
              a = b := by
            intro a b h1 h2 h3
            cases a; cases b
            simp only [World.mk.injEq]
            exact ⟨h1, h2, h3⟩
          apply hw
          · rw [gf, cf]
          · rw [gt, ct, hinstr]
          · rw [ge, ce, hinstr]
        · rw [gb, cb]
          simp only [frames, List.filterMap_append]
          rw [show List.filterMap Written.frame (partialFrames env generateFrame w.ticks _) = _
            from frames_partialFrames_generate env _ _,
            show List.filterMap Written.frame (partialFrames env chatFrame w.ticks _) = _
            from frames_partialFrames_chat env _ _, hinstr]
          rfl
        · rw [gb, cb]
          simp only [List.length_append, hlen, List.length_cons, List.length_nil, hinstr]
  · intro env1 env2 w1 w2 hp1 hs1 hp2 hs2 hlines
    obtain ⟨gb, _, ge, _⟩ := handleStreamingGenerate_started env1 w1 c reqg hp1 hs1
    obtain ⟨cb, _, ce, _⟩ := handleChatStream_started env2 w2 c reqc hne hp2 hs2
    refine ⟨_, _, gb, cb, ?_, ge, ?_⟩
    · rw [frames_stream_generate, frames_stream_chat, emittedLines_congr _ _ hlines]
    · rw [ce, hinstr]

/-- C26, witness: the same instruction and the same two lines. -/
theorem stream_handlers_equivalent_witness :
    frames (handleStreamingGenerate (printingEnv "line1\nline2\n") emptyWorld {}
      { Prompt := "Count to 2", Stream := true }).1.body =
    frames (handleChatStream (printingEnv "line1\nline2\n") emptyWorld {}
      { Messages := [{ Role := "user", Content := "Count to 2" }], Stream := true }).1.body ∧
    (handleStreamingGenerate (printingEnv "line1\nline2\n") emptyWorld {}
      { Prompt := "Count to 2", Stream := true }).2.execs =
    (handleChatStream (printingEnv "line1\nline2\n") emptyWorld {}
      { Messages := [{ Role := "user", Content := "Count to 2" }], Stream := true }).2.execs := by
  have h := (stream_handlers_equivalent { Prompt := "Count to 2", Stream := true }
    { Messages := [{ Role := "user", Content := "Count to 2" }], Stream := true } {}
    (by decide) (by decide)).1 (printingEnv "line1\nline2\n") emptyWorld
  exact ⟨h.2.2.1, by rw [h.1]⟩

/-- C27, counterexample. The process prints a first line of 65536 bytes and then a line
that consists of one space: that line is not the empty string, yet it is suppressed; the
streamed chat response consists of the terminal frame alone. -/
theorem handleChatStream_space_line_suppressed :
    " " ∈ textLines longLineThenSpace ∧
    (handleChatStream (printingEnv longLineThenSpace) emptyWorld {}
      { Messages := [{ Role := "user", Content := "Hello" }], Stream := true }).1.body =
      [chatFinal { unix := 1700000000, mono := 0 }, Written.newline] := by
  constructor
  · unfold textLines
    rw [List.mem_map]
    refine ⟨[' '], ?_, by decide⟩
    have h : rawLines longLineThenSpace.data =
        List.replicate maxScanTokenSize 'a' :: rawLines [' ', '\n'] :=
      rawLines_replicate maxScanTokenSize _
    rw [h]
    apply List.mem_cons_of_mem
    decide
  · have h := handleChatStream_scan_fails (printingEnv longLineThenSpace) emptyWorld {}
      { Messages := [{ Role := "user", Content := "Hello" }], Stream := true }
      longLineThenSpace none (by decide) rfl scan_longLineThenSpace
    rw [h]
    rfl

/-- C27, amended. In the streamed paths every partial frame has a non-empty payload that
contains no line feed; and when the process starts and no line of its output has 65536
bytes or more, a line is suppressed only when it is exactly the empty string after its
terminator is removed: every other line, a line of white space included, is the payload,
untrimmed, of a partial frame. -/
theorem streamed_only_empty_lines_suppressed (env : Env) (w : World) (c : Ctx) :
    (∀ req : GenerateRequest,
      (env.runStream w.execs.length ("q", ["chat", "--message", req.Prompt])).pipeErr = none →
      (env.runStream w.execs.length ("q", ["chat", "--message", req.Prompt])).startErr = none →
      ∃ new : List Written,
        (handleStreamingGenerate env w c req).1.body = c.body ++ new ∧
        (∀ f ∈ frames new, f.2 = false → f.1 ≠ "" ∧ '\n' ∉ f.1.data) ∧
        ((∀ l ∈ rawLines (env.runStream w.execs.length
            ("q", ["chat", "--message", req.Prompt])).stdout.data, byteLen l < maxScanTokenSize) →
          ∀ l ∈ textLines (env.runStream w.execs.length
              ("q", ["chat", "--message", req.Prompt])).stdout,
            ((l, false) ∈ frames new ↔ l ≠ ""))) ∧
    (∀ req : ChatRequest, (extractUserTurn req.Messages).1 ≠ "" →
      (env.runStream w.execs.length
        ("q", ["chat", "--message", (extractUserTurn req.Messages).1])).pipeErr = none →
      (env.runStream w.execs.length
        ("q", ["chat", "--message", (extractUserTurn req.Messages).1])).startErr = none →
      ∃ new : List Written,
        (handleChatStream env w c req).1.body = c.body ++ new ∧
        (∀ f ∈ frames new, f.2 = false → f.1 ≠ "" ∧ '\n' ∉ f.1.data) ∧
        ((∀ l ∈ rawLines (env.runStream w.execs.length
            ("q", ["chat", "--message", (extractUserTurn req.Messages).1])).stdout.data,
            byteLen l < maxScanTokenSize) →
          ∀ l ∈ textLines (env.runStream w.execs.length
              ("q", ["chat", "--message", (extractUserTurn req.Messages).1])).stdout,
            ((l, false) ∈ frames new ↔ l ≠ ""))) := by
  have key : ∀ (out : String) (fs : List (String × Bool)),
      fs = (emittedLines out).map (fun l => (l, false)) ++ [("", true)] →
      (∀ f ∈ fs, f.2 = false → f.1 ≠ "" ∧ '\n' ∉ f.1.data) ∧
      ((∀ l ∈ rawLines out.data, byteLen l < maxScanTokenSize) →
        ∀ l ∈ textLines out, ((l, false) ∈ fs ↔ l ≠ "")) := by
    intro out fs hfs
    subst hfs
    constructor
    · intro f hf hd
      rw [List.mem_append] at hf
      rcases hf with hf | hf
      · rw [List.mem_map] at hf
        obtain ⟨l, hl, rfl⟩ := hf
        exact emittedLines_payload out l hl
      · rw [List.mem_singleton] at hf
        rw [hf] at hd
        exact absurd hd (by decide)
    · intro hfit l hl
      rw [emittedLines_eq_nonBlankLines out hfit]
      constructor
      · intro hmem
        rw [List.mem_append] at hmem
        rcases hmem with hmem | hmem
        · rw [List.mem_map] at hmem
          obtain ⟨l2, hl2, he⟩ := hmem
          have : l2 = l := congrArg Prod.fst he
          subst this
          unfold nonBlankLines at hl2
          rw [List.mem_filter] at hl2
          simpa using hl2.2
        · rw [List.mem_singleton] at hmem
          have hsnd : false = true := congrArg Prod.snd hmem
          exact absurd hsnd (by decide)
      · intro hne
        rw [List.mem_append]
        left
        rw [List.mem_map]
        refine ⟨l, ?_, rfl⟩
        unfold nonBlankLines
        rw [List.mem_filter]
        exact ⟨hl, by simpa using hne⟩
  constructor
  · intro req hp hs
    obtain ⟨hb, _, _, _⟩ := handleStreamingGenerate_started env w c req hp hs
    obtain ⟨k1, k2⟩ := key (env.runStream w.execs.length
      ("q", ["chat", "--message", req.Prompt])).stdout _ (frames_stream_generate env _ _ _)
    exact ⟨_, hb, k1, k2⟩
  · intro req hne hp hs
    obtain ⟨hb, _, _, _⟩ := handleChatStream_started env w c req hne hp hs
    obtain ⟨k1, k2⟩ := key (env.runStream w.execs.length
      ("q", ["chat", "--message", (extractUserTurn req.Messages).1])).stdout _
      (frames_stream_chat env _ _ _)
    exact ⟨_, hb, k1, k2⟩

/-- C27, witness: a line of one space, an empty line and the line `x`: the space is a
payload, the empty line is not. -/
theorem streamed_only_empty_lines_suppressed_witness :
    frames (handleStreamingGenerate (printingEnv " \n\nx\n") emptyWorld {}
      { Prompt := "Hello world", Stream := true }).1.body =
      [(" ", false), ("x", false), ("", true)] := by
  obtain ⟨new, hb, _, _⟩ := (streamed_only_empty_lines_suppressed (printingEnv " \n\nx\n")
    emptyWorld {}).1 { Prompt := "Hello world", Stream := true } rfl rfl
  decide

/-- C28. In every successful buffered generate or chat envelope `eval_count` is zero exactly
when the response text is the empty string, which happens exactly when the process printed
nothing but white space; and `eval_count`, computed on the trimmed response, equals the number
of white-space-separated words of the raw, untrimmed process output. -/
theorem buffered_eval_count (env : Env) (w : World) (c : Ctx) :
    (∀ req : GenerateRequest, req.Stream = false →
      (commandResult env (now env w).2 req.Prompt req.Images).err = none →
      ∃ r : GenerateResponse,
        (handleGenerate env w c (Except.ok req)).1.body = c.body ++ [Written.generate r] ∧
        (r.EvalCount = 0 ↔ r.Response = "") ∧
        (r.Response = "" ↔ ∀ ch ∈ (commandResult env (now env w).2 req.Prompt
          req.Images).output.data, isSpace ch = true) ∧
        r.EvalCount = Int.ofNat (Fields r.Response).length ∧
        r.EvalCount = Int.ofNat
          (Fields (commandResult env (now env w).2 req.Prompt req.Images).output).length) ∧
    (∀ req : ChatRequest, req.Stream = false → (extractUserTurn req.Messages).1 ≠ "" →
      (commandResult env (now env w).2 (extractUserTurn req.Messages).1
        (extractUserTurn req.Messages).2).err = none →
      ∃ r : ChatResponse,
        (handleChatWithStreaming env w c (Except.ok req)).1.body = c.body ++ [Written.chat r] ∧
        (handleChat env w c (Except.ok req)).1.body = c.body ++ [Written.chat r] ∧
        (r.EvalCount = 0 ↔ r.Message.Content = "") ∧
        (r.Message.Content = "" ↔ ∀ ch ∈ (commandResult env (now env w).2
          (extractUserTurn req.Messages).1 (extractUserTurn req.Messages).2).output.data,
            isSpace ch = true) ∧
        r.EvalCount = Int.ofNat (Fields r.Message.Content).length ∧
        r.EvalCount = Int.ofNat (Fields (commandResult env (now env w).2
          (extractUserTurn req.Messages).1 (extractUserTurn req.Messages).2).output).length) := by
  have key : ∀ out : String,
      ((Int.ofNat (Fields (TrimSpace out)).length = 0 ↔ TrimSpace out = "") ∧
      (TrimSpace out = "" ↔ ∀ ch ∈ out.data, isSpace ch = true) ∧
      Int.ofNat (Fields (TrimSpace out)).length = Int.ofNat (Fields (TrimSpace out)).length ∧
      Int.ofNat (Fields (TrimSpace out)).length = Int.ofNat (Fields out).length) := by
    intro out
    obtain ⟨h1, h2, h3⟩ := wordCount_trim out
    refine ⟨?_, h3, rfl, by rw [h2]⟩
    rw [← h1]
    exact Int.ofNat_eq_zero
  constructor
  · intro req hstr hok
    have h := executeQCommand_ok env (now env w).2 req.Prompt req.Images hok
    simp only [handleGenerate, hstr, Bool.false_eq_true, if_false, h]
    exact ⟨_, rfl, key _⟩
  · intro req hstr hne hok
    have h := executeQCommand_ok env (now env w).2 _ _ hok
    simp only [handleChatWithStreaming, handleChat, hstr, Bool.false_eq_true, if_false, hne, h]
    exact ⟨_, rfl, rfl, key _⟩

/-- C28, witness: the process prints two words surrounded by white space, and `eval_count`
is 2; the response is not empty. -/
theorem buffered_eval_count_witness :
    ∃ r : GenerateResponse,
      (handleGenerate (printingEnv "  Hi \t there \n") emptyWorld {}
        (Except.ok { Prompt := "Hello" })).1.body = [Written.generate r] ∧
      r.EvalCount = 2 ∧ r.Response ≠ "" := by
  obtain ⟨r, hb, h0, _, _, hraw⟩ := (buffered_eval_count (printingEnv "  Hi \t there \n")
    emptyWorld {}).1 { Prompt := "Hello" } rfl rfl
  have h2 : r.EvalCount = 2 := hraw.trans (by decide)
  refine ⟨r, hb, h2, ?_⟩
  intro he
  rw [h0.mpr he] at h2
  exact absurd h2 (by decide)

/-- C29. Within one call of `executeQCommand` the staged file paths are pairwise distinct,
whatever the clock returns: every staged path is the temporary directory joined with
`q_image_<seconds>_<j>.png`, where `j` is the position of a decodable attachment in the
original list (skipped attachments counted); the name format is injective in the pair
(seconds, position), and so is the joined path. -/
theorem staged_paths_pairwise_distinct (env : Env) (w : World) (prompt : String)
    (images : List String) :
    (stageAttachments env w prompt images).tempFiles.Nodup ∧
    (∀ p ∈ (stageAttachments env w prompt images).tempFiles,
      ∃ j : Nat, ∃ s : String, images.get? j = some s ∧ (DecodeString s).isSome = true ∧
        p = Join (TempDir env) (imageName (env.clock (w.ticks +
          ((images.take j).filter (fun s => (DecodeString s).isSome)).length)).unix j)) ∧
    (∀ (u1 u2 : Int) (i1 i2 : Nat), imageName u1 i1 = imageName u2 i2 → u1 = u2 ∧ i1 = i2) ∧
    (∀ (u1 u2 : Int) (i1 i2 : Nat),
      Join (TempDir env) (imageName u1 i1) = Join (TempDir env) (imageName u2 i2) →
        u1 = u2 ∧ i1 = i2) := by
  have ht : (stageAttachments env w prompt images).tempFiles =
      stagedPaths env w.ticks 0 images := by
    unfold stageAttachments
    rw [stageLoop_tempFiles]
    rfl
  refine ⟨?_, ?_, imageName_inj, stagedPath_inj env⟩
  · rw [ht]
    exact stagedPaths_nodup env images w.ticks 0
  · intro p hp
    rw [ht] at hp
    obtain ⟨j, s, hj, hs, hpj⟩ := stagedPaths_mem env images w.ticks 0 p hp
    rw [Nat.zero_add] at hpj
    exact ⟨j, s, hj, hs, hpj⟩

/-- C29, witness: three attachments in one second, the second one undecodable; the staged
names carry the positions 0 and 2 and differ. -/
theorem staged_paths_pairwise_distinct_witness :
    (stageAttachments (printingEnv "ok") emptyWorld "describe"
      ["aGk=", "%%%", "aGVsbG8="]).tempFiles =
      ["/tmp/q_image_1700000000_0.png", "/tmp/q_image_1700000000_2.png"] ∧
    (stageAttachments (printingEnv "ok") emptyWorld "describe"
      ["aGk=", "%%%", "aGVsbG8="]).tempFiles.Nodup ∧
    (imageName 1700000000 0 = imageName 1700000000 2 → (0 : Nat) = 2) :=
  ⟨by decide,
   (staged_paths_pairwise_distinct (printingEnv "ok") emptyWorld "describe"
      ["aGk=", "%%%", "aGVsbG8="]).1,
   fun h => ((staged_paths_pairwise_distinct (printingEnv "ok") emptyWorld "describe"
      ["aGk=", "%%%", "aGVsbG8="]).2.2.1 1700000000 1700000000 0 2 h).2⟩

end QOllama
